import Mathlib

/-!
# UERANSIM control plane: a shallow embedding

Part I embeds the UE NAS mobility management module (`src/ue/mm/base.cpp`).
The registers of `NasMm` become fields of a record; pushes to other tasks,
log lines and node-listener notifications are appended to lists kept in the
same record, in program order.
-/

namespace nr.ue

/-! ## Enumerations (declared in headers outside the translated sources) -/

/-- Primary 5GMM state. -/
inductive EMmState where
  | MM_NULL
  | MM_DEREGISTERED
  | MM_REGISTERED_INITIATED
  | MM_REGISTERED
  | MM_DEREGISTERED_INITIATED
  | MM_SERVICE_REQUEST_INITIATED
  deriving DecidableEq, Repr

/-- Sub-state refining the primary 5GMM state. The constructors named in
`base.cpp` are listed; `MM_SUB_OTHER` stands for any further enumerator. -/
inductive EMmSubState where
  | MM_NULL_NA
  | MM_DEREGISTERED_NA
  | MM_DEREGISTERED_NORMAL_SERVICE
  | MM_DEREGISTERED_PLMN_SEARCH
  | MM_DEREGISTERED_NO_SUPI
  | MM_DEREGISTERED_NO_CELL_AVAILABLE
  | MM_REGISTERED_INITIATED_NA
  | MM_REGISTERED_NORMAL_SERVICE
  | MM_REGISTERED_NO_CELL_AVAILABLE
  | MM_DEREGISTERED_INITIATED_NA
  | MM_SERVICE_REQUEST_INITIATED_NA
  | MM_SUB_OTHER (tag : Nat)
  deriving DecidableEq, Repr

inductive ERmState where
  | RM_DEREGISTERED
  | RM_REGISTERED
  deriving DecidableEq, Repr

inductive ECmState where
  | CM_IDLE
  | CM_CONNECTED
  deriving DecidableEq, Repr

inductive E5UState where
  | U1_UPDATED
  | U2_NOT_UPDATED
  | U3_ROAMING_NOT_ALLOWED
  deriving DecidableEq, Repr

/-- The `switchOff` bit of the de-registration type. -/
inductive ESwitchOff where
  | NORMAL_DE_REGISTRATION
  | SWITCH_OFF
  deriving DecidableEq, Repr

inductive ERegistrationType where
  | INITIAL_REGISTRATION
  | MOBILITY_REGISTRATION_UPDATING
  | PERIODIC_REGISTRATION_UPDATING
  | EMERGENCY_REGISTRATION
  deriving DecidableEq, Repr

inductive EFollowOnRequest where
  | NO_FOR_PENDING
  | FOR_PENDING
  deriving DecidableEq, Repr

/-! ## Data carried by the module -/

/-- A NAS security context; only its presence matters to `base.cpp`. -/
structure NasSecurityContext where
  ngKsi : Nat
  deriving DecidableEq, Repr

structure DeRegistrationType where
  switchOff : ESwitchOff
  deriving DecidableEq, Repr

/-- The cached de-registration request (`nas::DeRegistrationRequestUeOriginating`). -/
structure DeRegistrationRequest where
  deRegistrationType : DeRegistrationType
  body : Nat
  deriving DecidableEq, Repr

/-- Modelled from the spec: `nas::NasTimer` is not among the translated sources.
A timer is identified by its 3GPP code and tracks its running state and a
resettable expiry count. -/
structure NasTimer where
  code : Nat
  running : Bool
  expiryCount : Nat
  deriving DecidableEq, Repr

/-- Modelled from the spec: `resetExpiryCount()` sets the expiry count to zero. -/
def NasTimer.resetExpiryCount (t : NasTimer) : NasTimer :=
  { t with expiryCount := 0 }

/-- Modelled from the spec: `start(clearExpiryCount)` marks the timer running
and resets the expiry count only when asked to. -/
def NasTimer.start (clearExpiryCount : Bool) (t : NasTimer) : NasTimer :=
  { (if clearExpiryCount then t.resetExpiryCount else t) with running := true }

/-- Modelled from the spec: an expiry stops the timer and counts one more
expiry; the owning task then hands the timer to `onTimerExpire`. -/
def NasTimer.expire (t : NasTimer) : NasTimer :=
  { t with running := false, expiryCount := t.expiryCount + 1 }

/-- The timers of `UeTimers` that `base.cpp` refers to. -/
structure UeTimers where
  t3346 : NasTimer
  t3512 : NasTimer
  t3521 : NasTimer
  deriving DecidableEq, Repr

/-- Messages pushed to the NAS task. -/
inductive NwUeNasToNas where
  | PERFORM_MM_CYCLE
  deriving DecidableEq, Repr

/-- Messages pushed to the RRC task; `OTHER` stands for the message kinds
that `base.cpp` never builds. -/
inductive NwUeNasToRrc where
  | PLMN_SEARCH_REQUEST
  | OTHER (tag : Nat)
  deriving DecidableEq, Repr

/-- Kinds of state register reported to the node listener. -/
inductive StateType where
  | MM
  | MM_SUB
  | RM
  | CM
  | U5
  deriving DecidableEq, Repr

/-- The value whose `ToJson(..).str()` rendering is handed to the listener. -/
inductive StateLabel where
  | mm (v : EMmState)
  | mmSub (v : EMmSubState)
  | rm (v : ERmState)
  | cm (v : ECmState)
  | u5 (v : E5UState)
  deriving DecidableEq, Repr

/-- One `nodeListener->onSwitch(NodeType::UE, nodeName, stateType, from, to)` call. -/
structure SwitchEvent where
  stateType : StateType
  fromState : StateLabel
  toState : StateLabel
  deriving DecidableEq, Repr

/-- Lines written through `m_logger`. The three `info` lines of the switch
operations carry the value that is rendered into the text. -/
inductive LogEntry where
  | debug (text : String)
  | warn (text : String)
  | err (text : String)
  | infoMmSwitch (subState : EMmSubState)
  | infoCmSwitch (state : ECmState)
  | infoUSwitch (state : E5UState)
  deriving DecidableEq, Repr

/-- The members of `NasMm` read or written by `base.cpp`, followed by the
effects the module has on its collaborators. -/
structure NasMm where
  m_rmState : ERmState
  m_cmState : ECmState
  m_mmState : EMmState
  m_mmSubState : EMmSubState
  m_uState : E5UState
  m_autoBehaviour : Bool
  m_validSim : Bool
  m_lastPlmnSearchTrigger : Int
  m_storedGuti : Option Nat
  m_lastVisitedRegisteredTai : Option Nat
  m_taiList : List Nat
  m_currentNsCtx : Option NasSecurityContext
  m_nonCurrentNsCtx : Option NasSecurityContext
  m_lastDeregistrationRequest : Option DeRegistrationRequest
  m_lastDeregDueToDisable5g : Bool
  m_timers : UeTimers
  /-- whether `m_base->nodeListener` is installed -/
  nodeListener : Bool
  /-- messages pushed to `m_base->nasTask` -/
  nasTask : List NwUeNasToNas
  /-- messages pushed to `m_base->rrcTask` -/
  rrcTask : List NwUeNasToRrc
  /-- calls of `nodeListener->onSwitch` -/
  listenerEvents : List SwitchEvent
  /-- lines written to the logger -/
  log : List LogEntry
  /-- messages handed to `sendNasMessage` -/
  nasSent : List DeRegistrationRequest
  deriving DecidableEq, Repr

/-- The part of the UE configuration the constructor reads. -/
structure UeConfig where
  autoBehaviour : Bool
  supi : Option Nat
  deriving DecidableEq, Repr

/-- The signature of `NasMm::sendRegistration`, which lives in a source file
that is not translated here; the operations calling it take it as a parameter. -/
abbrev SendRegistration := ERegistrationType → EFollowOnRequest → NasMm → NasMm

/-- Modelled from the spec: `sendRegistration` is not among the translated
sources; the spec says of it only that it sends the registration request, so
this instance leaves every register as it is. -/
def sendRegistrationSpec : SendRegistration := fun _ _ s => s

/-- A 64-bit `long` result: two's complement wrap-around of an integer. -/
def wrapLong (x : Int) : Int := (x + 2 ^ 63) % 2 ^ 64 - 2 ^ 63

/-! ## `NasMm` operations, in the order of `base.cpp` -/

/-- Constructor body: `pre` is the object as left by the member initialisers. -/
def NasMm.ctor (config : UeConfig) (pre : NasMm) : NasMm :=
  { pre with
    m_rmState := ERmState.RM_DEREGISTERED
    m_cmState := ECmState.CM_IDLE
    m_mmState := EMmState.MM_DEREGISTERED
    m_mmSubState := EMmSubState.MM_DEREGISTERED_NA
    m_uState := E5UState.U1_UPDATED
    m_autoBehaviour := config.autoBehaviour
    m_validSim := config.supi.isSome }

def logLine (e : LogEntry) (s : NasMm) : NasMm :=
  { s with log := s.log ++ [e] }

def triggerMmCycle (s : NasMm) : NasMm :=
  { s with nasTask := s.nasTask ++ [NwUeNasToNas.PERFORM_MM_CYCLE] }

def onSwitchMmState (oldState newState : EMmState) (_oldSubState _newSubSate : EMmSubState)
    (s : NasMm) : NasMm :=
  if oldState = EMmState.MM_DEREGISTERED ∧ newState ≠ EMmState.MM_DEREGISTERED
      ∧ newState ≠ EMmState.MM_NULL then
    if s.m_currentNsCtx.isSome || s.m_nonCurrentNsCtx.isSome then
      { logLine (LogEntry.debug "Deleting NAS security context") s with
        m_currentNsCtx := none
        m_nonCurrentNsCtx := none }
    else s
  else s

def switchMmState (state : EMmState) (subState : EMmSubState) (s : NasMm) : NasMm :=
  let oldState := s.m_mmState
  let oldSubState := s.m_mmSubState
  let s1 := { s with m_mmState := state, m_mmSubState := subState }
  let s2 := onSwitchMmState oldState s1.m_mmState oldSubState s1.m_mmSubState s1
  let s3 :=
    if s2.nodeListener then
      { s2 with listenerEvents := s2.listenerEvents ++
          [⟨StateType.MM, StateLabel.mmSub oldSubState, StateLabel.mmSub subState⟩,
           ⟨StateType.MM_SUB, StateLabel.mm oldState, StateLabel.mm state⟩] }
    else s2
  let s4 :=
    if state ≠ oldState ∨ subState ≠ oldSubState then
      logLine (LogEntry.infoMmSwitch subState) s3
    else s3
  triggerMmCycle s4

def onSwitchRmState (_oldState _newState : ERmState) (s : NasMm) : NasMm := s

def switchRmState (state : ERmState) (s : NasMm) : NasMm :=
  let oldState := s.m_rmState
  let s1 := { s with m_rmState := state }
  let s2 := onSwitchRmState oldState s1.m_rmState s1
  let s3 :=
    if s2.nodeListener then
      { s2 with listenerEvents := s2.listenerEvents ++
          [⟨StateType.RM, StateLabel.rm oldState, StateLabel.rm s2.m_rmState⟩] }
    else s2
  triggerMmCycle s3

/-- The hook of `switchCmState`. `none` is the dereference of a null
`m_lastDeregistrationRequest`. -/
def onSwitchCmState (oldState newState : ECmState) (s : NasMm) : Option NasMm :=
  if oldState = ECmState.CM_CONNECTED ∧ newState = ECmState.CM_IDLE then
    if s.m_mmState = EMmState.MM_DEREGISTERED_INITIATED then
      let switched : Option NasMm :=
        if s.m_lastDeregDueToDisable5g then
          some (switchMmState EMmState.MM_NULL EMmSubState.MM_NULL_NA s)
        else
          match s.m_lastDeregistrationRequest with
          | none => none
          | some req =>
            if req.deRegistrationType.switchOff = ESwitchOff.NORMAL_DE_REGISTRATION then
              some (switchMmState EMmState.MM_DEREGISTERED EMmSubState.MM_DEREGISTERED_NA s)
            else some s
      switched.map fun s1 =>
        { s1 with m_lastDeregistrationRequest := none, m_lastDeregDueToDisable5g := false }
    else some s
  else some s

def switchCmState (state : ECmState) (s : NasMm) : Option NasMm :=
  let oldState := s.m_cmState
  let s1 := { s with m_cmState := state }
  (onSwitchCmState oldState s1.m_cmState s1).map fun s2 =>
    let s3 :=
      if s2.nodeListener then
        { s2 with listenerEvents := s2.listenerEvents ++
            [⟨StateType.CM, StateLabel.cm oldState, StateLabel.cm s2.m_cmState⟩] }
      else s2
    let s4 :=
      if state ≠ oldState then logLine (LogEntry.infoCmSwitch state) s3 else s3
    triggerMmCycle s4

def onSwitchUState (_oldState _newState : E5UState) (s : NasMm) : NasMm := s

def switchUState (state : E5UState) (s : NasMm) : NasMm :=
  let oldState := s.m_uState
  let s1 := { s with m_uState := state }
  let s2 := onSwitchUState oldState s1.m_uState s1
  let s3 :=
    if s2.nodeListener then
      { s2 with listenerEvents := s2.listenerEvents ++
          [⟨StateType.U5, StateLabel.u5 oldState, StateLabel.u5 s2.m_uState⟩] }
    else s2
  let s4 :=
    if state ≠ oldState then logLine (LogEntry.infoUSwitch state) s3 else s3
  triggerMmCycle s4

/-- Modelled from the spec: `sendNasMessage` is not among the translated
sources; it hands the message to the transport path, recorded in `nasSent`. -/
def sendNasMessage (msg : DeRegistrationRequest) (s : NasMm) : NasMm :=
  { s with nasSent := s.nasSent ++ [msg] }

/-- The first block of `performMmCycle`: in DEREGISTERED_NA the sub-state is
chosen by SIM validity and CM state. -/
def performMmCycle.chooseSubState (s : NasMm) : NasMm :=
  if s.m_mmSubState = EMmSubState.MM_DEREGISTERED_NA then
    if s.m_validSim then
      if s.m_cmState = ECmState.CM_IDLE then
        switchMmState EMmState.MM_DEREGISTERED EMmSubState.MM_DEREGISTERED_PLMN_SEARCH s
      else
        switchMmState EMmState.MM_DEREGISTERED EMmSubState.MM_DEREGISTERED_NORMAL_SERVICE s
    else
      switchMmState EMmState.MM_DEREGISTERED EMmSubState.MM_DEREGISTERED_NO_SUPI s
  else s

/-- The rest of `performMmCycle`, run on the state left by the first block. -/
def performMmCycle.act (sendRegistration : SendRegistration) (now : Int) (s1 : NasMm) : NasMm :=
  if s1.m_mmSubState = EMmSubState.MM_DEREGISTERED_PLMN_SEARCH
      ∨ s1.m_mmSubState = EMmSubState.MM_DEREGISTERED_NO_CELL_AVAILABLE
      ∨ s1.m_mmSubState = EMmSubState.MM_REGISTERED_NO_CELL_AVAILABLE then
    let current := now
    let elapsedMs := wrapLong (current - s1.m_lastPlmnSearchTrigger)
    if elapsedMs > 50 then
      { s1 with
        rrcTask := s1.rrcTask ++ [NwUeNasToRrc.PLMN_SEARCH_REQUEST]
        m_lastPlmnSearchTrigger := current }
    else s1
  else if s1.m_mmSubState = EMmSubState.MM_DEREGISTERED_NORMAL_SERVICE then
    if s1.m_autoBehaviour ∧ ¬ s1.m_timers.t3346.running then
      sendRegistration ERegistrationType.INITIAL_REGISTRATION EFollowOnRequest.FOR_PENDING s1
    else s1
  else if s1.m_mmState = EMmState.MM_REGISTERED_INITIATED then s1
  else if s1.m_mmSubState = EMmSubState.MM_REGISTERED_NORMAL_SERVICE then s1
  else if s1.m_mmState = EMmState.MM_DEREGISTERED_INITIATED then s1
  else if s1.m_mmSubState = EMmSubState.MM_DEREGISTERED_NA then s1
  else if s1.m_mmSubState = EMmSubState.MM_DEREGISTERED_NO_SUPI then s1
  else if s1.m_autoBehaviour then logLine (LogEntry.err "unhandled UE MM state") s1
  else s1

/-- One MM cycle. `now` is what `utils::CurrentTimeMillis()` returns if the
cycle reads the clock. -/
def performMmCycle (sendRegistration : SendRegistration) (now : Int) (s : NasMm) : NasMm :=
  if s.m_mmState = EMmState.MM_NULL then s
  else performMmCycle.act sendRegistration now (performMmCycle.chooseSubState s)

/-- The handler of a timer expiry. `code` is `timer.getCode()`; the `timer`
reference is the entry of `m_timers` with that code. -/
def onTimerExpire (sendRegistration : SendRegistration) (code : Nat) (s : NasMm) : NasMm :=
  if code = 3346 then
    if s.m_autoBehaviour ∧ s.m_mmSubState = EMmSubState.MM_DEREGISTERED_NORMAL_SERVICE then
      sendRegistration ERegistrationType.INITIAL_REGISTRATION EFollowOnRequest.FOR_PENDING s
    else s
  else if code = 3512 then
    if s.m_autoBehaviour ∧ s.m_mmState = EMmState.MM_REGISTERED
        ∧ s.m_cmState = ECmState.CM_CONNECTED then
      sendRegistration ERegistrationType.PERIODIC_REGISTRATION_UPDATING
        EFollowOnRequest.FOR_PENDING s
    else s
  else if code = 3521 then
    if s.m_timers.t3521.expiryCount = 5 then
      let s1 := { s with m_timers := { s.m_timers with t3521 := s.m_timers.t3521.resetExpiryCount } }
      match s1.m_lastDeregistrationRequest with
      | some req =>
        if s1.m_mmState = EMmState.MM_DEREGISTERED_INITIATED then
          let s2 := logLine (LogEntry.debug "De-registration aborted") s1
          if s2.m_lastDeregDueToDisable5g then
            switchMmState EMmState.MM_NULL EMmSubState.MM_NULL_NA s2
          else if req.deRegistrationType.switchOff = ESwitchOff.NORMAL_DE_REGISTRATION then
            switchMmState EMmState.MM_DEREGISTERED EMmSubState.MM_DEREGISTERED_NA s2
          else s2
        else s1
      | none => s1
    else
      match s.m_lastDeregistrationRequest with
      | some req =>
        if s.m_mmState = EMmState.MM_DEREGISTERED_INITIATED then
          let s1 := logLine (LogEntry.debug "Retrying de-registration request") s
          let s2 := sendNasMessage req s1
          { s2 with m_timers := { s2.m_timers with t3521 := s2.m_timers.t3521.start false } }
        else s
      | none => s
  else s

def invalidateAcquiredParams (s : NasMm) : NasMm :=
  { s with
    m_storedGuti := none
    m_lastVisitedRegisteredTai := none
    m_taiList := []
    m_currentNsCtx := none
    m_nonCurrentNsCtx := none }

def invalidateSim (s : NasMm) : NasMm :=
  invalidateAcquiredParams
    { logLine (LogEntry.warn "USIM is removed or invalidated") s with m_validSim := false }

/-- Modelled from the spec: the NAS task ticks its timers and, when T3521
expires, counts the expiry and calls `onTimerExpire` with that timer. -/
def expireT3521 (sendRegistration : SendRegistration) (s : NasMm) : NasMm :=
  onTimerExpire sendRegistration 3521
    { s with m_timers := { s.m_timers with t3521 := s.m_timers.t3521.expire } }

/-- The state left by `n` consecutive T3521 expiries with nothing in between. -/
def expireT3521Times (sendRegistration : SendRegistration) : Nat → NasMm → NasMm
  | 0, s => s
  | n + 1, s => expireT3521Times sendRegistration n (expireT3521 sendRegistration s)

/-- The number of `PLMN_SEARCH_REQUEST` messages pushed to the RRC task so far. -/
def plmnSearchRequests (s : NasMm) : Nat :=
  s.rrcTask.count NwUeNasToRrc.PLMN_SEARCH_REQUEST

/-- The record of a run of MM cycles: for each clock reading, the reading and
the number of `PLMN_SEARCH_REQUEST` messages that cycle pushed. -/
def cycleLog (sendRegistration : SendRegistration) : NasMm → List Int → List (Int × Nat)
  | _, [] => []
  | s, now :: rest =>
    (now, plmnSearchRequests (performMmCycle sendRegistration now s) - plmnSearchRequests s)
      :: cycleLog sendRegistration (performMmCycle sendRegistration now s) rest

/-- The compared outcome of an aborted de-registration: MM state, MM
sub-state, pending request and disable-5GS flag. -/
def abortOutcome (s : NasMm) :
    EMmState × EMmSubState × Option DeRegistrationRequest × Bool :=
  (s.m_mmState, s.m_mmSubState, s.m_lastDeregistrationRequest, s.m_lastDeregDueToDisable5g)

/-- A sample state used to evaluate the operations on concrete input. -/
def sampleMm : NasMm :=
  { m_rmState := ERmState.RM_REGISTERED
    m_cmState := ECmState.CM_CONNECTED
    m_mmState := EMmState.MM_DEREGISTERED_INITIATED
    m_mmSubState := EMmSubState.MM_DEREGISTERED_INITIATED_NA
    m_uState := E5UState.U1_UPDATED
    m_autoBehaviour := true
    m_validSim := true
    m_lastPlmnSearchTrigger := 0
    m_storedGuti := some 7
    m_lastVisitedRegisteredTai := none
    m_taiList := []
    m_currentNsCtx := some ⟨1⟩
    m_nonCurrentNsCtx := none
    m_lastDeregistrationRequest := some ⟨⟨ESwitchOff.NORMAL_DE_REGISTRATION⟩, 0⟩
    m_lastDeregDueToDisable5g := false
    m_timers := ⟨⟨3346, false, 0⟩, ⟨3512, false, 0⟩, ⟨3521, true, 0⟩⟩
    nodeListener := false
    nasTask := []
    rrcTask := []
    listenerEvents := []
    log := []
    nasSent := [] }

end nr.ue

/-!
Part II embeds the gNB NGAP interface management procedures
(`src/gnb/ngap/interface.cpp`). The AMF context table `m_amfCtx` is an
association list in iteration order; a pointer into the table is its key.
-/

namespace nr.gnb

inductive EAmfState where
  | NOT_CONNECTED
  | WAITING_NG_SETUP
  | CONNECTED
  deriving DecidableEq, Repr

structure SctpAssociation where
  associationId : Int
  inStreams : Int
  outStreams : Int
  deriving DecidableEq, Repr

structure Guami where
  plmn : Nat
  amfRegionId : Nat
  amfSetId : Nat
  amfPointer : Nat
  deriving DecidableEq, Repr

structure ServedGuami where
  guami : Guami
  backupAmfName : String
  deriving DecidableEq, Repr

structure SliceSupport where
  sst : Nat
  sd : Option Nat
  deriving DecidableEq, Repr

structure PlmnSupport where
  plmn : Nat
  sliceSupportList : List SliceSupport
  deriving DecidableEq, Repr

/-- Overload actions; `UNSPECIFIED_OVERLOAD` is the value-initialised enumerator. -/
inductive EOverloadAction where
  | UNSPECIFIED_OVERLOAD
  | REJECT_NON_EMERGENCY_MO_DATA
  | REJECT_SIGNALLING
  | ONLY_EMERGENCY_AND_MT
  | ONLY_HIGH_PRI_AND_MT
  deriving DecidableEq, Repr

inductive EOverloadStatus where
  | NOT_OVERLOADED
  | OVERLOADED
  deriving DecidableEq, Repr

structure OverloadIndication where
  loadReductionPerc : Int
  action : EOverloadAction
  deriving DecidableEq, Repr

structure OverloadInfo where
  status : EOverloadStatus
  indication : OverloadIndication
  deriving DecidableEq, Repr

/-- The value-initialised `OverloadInfo` (the `= {}` of `receiveOverloadStart`). -/
def OverloadInfo.empty : OverloadInfo :=
  ⟨EOverloadStatus.NOT_OVERLOADED, ⟨0, EOverloadAction.UNSPECIFIED_OVERLOAD⟩⟩

structure NgapAmfContext where
  ctxId : Int
  state : EAmfState
  association : SctpAssociation
  amfName : String
  relativeCapacity : Int
  servedGuamiList : List ServedGuami
  plmnSupportList : List PlmnSupport
  overloadInfo : OverloadInfo
  deriving DecidableEq, Repr

structure NgapUeContext where
  ctxId : Int
  amfUeNgapId : Int
  ranUeNgapId : Int
  associatedAmfId : Int
  uplinkStream : Int
  downlinkStream : Int
  deriving DecidableEq, Repr

/-- NGAP causes; only `Transport_unspecified` is named by `interface.cpp`. -/
inductive NgapCause where
  | Transport_unspecified
  | OTHER (tag : Nat)
  deriving DecidableEq, Repr

/-! ### Received messages, as the information elements the handlers look up -/

structure ASN_ServedGUAMIItem where
  gUAMI : Guami
  backupAMFName : Option String
  deriving DecidableEq, Repr

structure ASN_PLMNSupportItem where
  pLMNIdentity : Nat
  sliceSupportList : List SliceSupport
  deriving DecidableEq, Repr

/-- The four information elements read by `AssignDefaultAmfConfigs`; `none` is
an element that `GetProtocolIe` does not find. -/
structure AmfConfigIEs where
  amfName : Option String
  relativeAMFCapacity : Option Int
  servedGUAMIList : Option (List ASN_ServedGUAMIItem)
  plmnSupportList : Option (List ASN_PLMNSupportItem)
  deriving DecidableEq, Repr

structure ASN_NGSetupResponse where
  ies : AmfConfigIEs
  deriving DecidableEq, Repr

structure ASN_NGSetupFailure where
  cause : Option NgapCause
  deriving DecidableEq, Repr

structure ASN_ErrorIndication where
  cause : Option NgapCause
  deriving DecidableEq, Repr

structure ASN_AMFConfigurationUpdate where
  ies : AmfConfigIEs
  tnlAssociationToAddList : Option (List Nat)
  tnlAssociationToRemoveList : Option (List Nat)
  tnlAssociationToUpdateList : Option (List Nat)
  deriving DecidableEq, Repr

inductive ASN_OverloadAction where
  | reject_non_emergency_mo_dt
  | reject_rrc_cr_signalling
  | permit_emergency_sessions_and_mobile_terminated_services_only
  | permit_high_priority_sessions_and_mobile_terminated_services_only
  | unknown (code : Int)
  deriving DecidableEq, Repr

/-- The `OverloadResponse` choice: the overload action, or another alternative. -/
inductive ASN_OverloadResponse where
  | overloadAction (action : ASN_OverloadAction)
  | otherChoice
  deriving DecidableEq, Repr

structure ASN_OverloadStart where
  overloadResponse : Option ASN_OverloadResponse
  trafficLoadReductionIndication : Option Int
  overloadStartNSSAIList : Option (List SliceSupport)
  deriving DecidableEq, Repr

structure ASN_OverloadStop where
  body : Nat
  deriving DecidableEq, Repr

/-! ### Sent messages -/

structure GnbConfig where
  gnbId : Nat
  name : String
  plmn : Nat
  tac : Nat
  nci : Nat
  nssais : List SliceSupport
  pagingDrx : Nat
  deriving DecidableEq, Repr

structure NGSetupRequest where
  globalGnbId : Nat
  globalGnbPlmn : Nat
  ranNodeName : String
  supportedTac : Nat
  broadcastPlmn : Nat
  taiSliceSupportList : List SliceSupport
  defaultPagingDrx : Nat
  deriving DecidableEq, Repr

/-- The PDUs built by the interface management procedures. -/
inductive NgapPdu where
  | ngSetupRequest (req : NGSetupRequest)
  | amfConfigurationUpdateFailure (causes : List NgapCause)
  | amfConfigurationUpdateAcknowledge (tnlAssociationSetupList : List Nat)
  | errorIndication (cause : NgapCause)
  deriving DecidableEq, Repr

/-- Status updates pushed to the App task. -/
inductive NwGnbStatusUpdate where
  | NGAP_IS_UP (isNgapUp : Bool)
  deriving DecidableEq, Repr

/-- Messages pushed to the RRC task; `OTHER` stands for the kinds that
`interface.cpp` never builds. -/
inductive NwGnbNgapToRrc where
  | NGAP_LAYER_INITIALIZED
  | OTHER (tag : Nat)
  deriving DecidableEq, Repr

/-- Messages pushed to the SCTP task. -/
inductive NwGnbSctp where
  | CONNECTION_CLOSE (clientId : Int)
  | SEND_MESSAGE (clientId : Int) (stream : Int) (buffer : List Nat)
  deriving DecidableEq, Repr

inductive LogLevel where
  | debug
  | info
  | warn
  | err
  deriving DecidableEq, Repr

/-- One logger call: level, format string, integer arguments, rendered cause. -/
structure LogLine where
  level : LogLevel
  text : String
  args : List Int
  cause : Option NgapCause
  deriving DecidableEq, Repr

/-- The members of `NgapTask` used by `interface.cpp`, followed by the effects
on its collaborators. -/
structure NgapTask where
  m_amfCtx : List (Int × NgapAmfContext)
  m_ueCtx : List (Int × NgapUeContext)
  m_isInitialized : Bool
  config : GnbConfig
  /-- messages pushed to `m_base->appTask` -/
  appTask : List NwGnbStatusUpdate
  /-- messages pushed to `m_base->rrcTask` -/
  rrcTask : List NwGnbNgapToRrc
  /-- messages pushed to `m_base->sctpTask` -/
  sctpTask : List NwGnbSctp
  /-- calls of `sendNgapNonUe(amfId, pdu)` -/
  nonUeSent : List (Int × NgapPdu)
  /-- calls of `sendNgapUeAssociated(ueId, pdu)` -/
  ueSent : List (Int × NgapPdu)
  log : List LogLine
  deriving DecidableEq, Repr

def NgapTask.logLine (level : LogLevel) (text : String) (args : List Int)
    (cause : Option NgapCause) (t : NgapTask) : NgapTask :=
  { t with log := t.log ++ [⟨level, text, args, cause⟩] }

/-- Modelled from the spec: `findAmfContext` is not among the translated sources;
it looks the AMF context up in the table by its id and yields null when there
is none. -/
def findAmfContext (amfId : Int) (t : NgapTask) : Option NgapAmfContext :=
  (t.m_amfCtx.find? fun e => e.1 = amfId).map Prod.snd

/-- A write through the pointer returned by `findAmfContext amfId`. -/
def updateAmfTable (amfId : Int) (f : NgapAmfContext → NgapAmfContext) :
    List (Int × NgapAmfContext) → List (Int × NgapAmfContext)
  | [] => []
  | e :: rest =>
    if e.1 = amfId then (e.1, f e.2) :: rest else e :: updateAmfTable amfId f rest

def updateAmf (amfId : Int) (f : NgapAmfContext → NgapAmfContext) (t : NgapTask) : NgapTask :=
  { t with m_amfCtx := updateAmfTable amfId f t.m_amfCtx }

/-- Modelled from the spec: `deleteAmfContext` is not among the translated
sources; association shutdown wipes the AMF context from the table. -/
def deleteAmfContext (amfId : Int) (t : NgapTask) : NgapTask :=
  { t with m_amfCtx := t.m_amfCtx.filter fun e => ¬ e.1 = amfId }

/-- Modelled from the spec: `sendNgapNonUe` is not among the translated sources;
it forwards the PDU towards the AMF through SCTP and pushes nothing to the App
or RRC task. The call is recorded. -/
def sendNgapNonUe (amfId : Int) (pdu : NgapPdu) (t : NgapTask) : NgapTask :=
  { t with nonUeSent := t.nonUeSent ++ [(amfId, pdu)] }

/-- Modelled from the spec: `sendNgapUeAssociated` is not among the translated
sources; it forwards the PDU on the UE's uplink stream through SCTP. The call is
recorded. -/
def sendNgapUeAssociated (ueId : Int) (pdu : NgapPdu) (t : NgapTask) : NgapTask :=
  { t with ueSent := t.ueSent ++ [(ueId, pdu)] }

def AssignDefaultAmfConfigs (msg : AmfConfigIEs) (amf : NgapAmfContext) : NgapAmfContext :=
  let amf1 :=
    match msg.amfName with
    | some name => { amf with amfName := name }
    | none => amf
  let amf2 :=
    match msg.relativeAMFCapacity with
    | some cap => { amf1 with relativeCapacity := cap }
    | none => amf1
  let amf3 :=
    match msg.servedGUAMIList with
    | some items =>
      { amf2 with servedGuamiList :=
          items.map fun item => ⟨item.gUAMI, item.backupAMFName.getD ""⟩ }
    | none => amf2
  match msg.plmnSupportList with
  | some items =>
    { amf3 with plmnSupportList :=
        items.map fun item => ⟨item.pLMNIdentity, item.sliceSupportList⟩ }
  | none => amf3

def sendNgSetupRequest (amfId : Int) (t : NgapTask) : NgapTask :=
  let t1 := t.logLine LogLevel.debug "Sending NG Setup Request: amfId = %d" [amfId] none
  match findAmfContext amfId t1 with
  | none => t1
  | some _ =>
    let t2 := updateAmf amfId (fun amf => { amf with state := EAmfState.WAITING_NG_SETUP }) t1
    let pdu := NgapPdu.ngSetupRequest
      { globalGnbId := t2.config.gnbId
        globalGnbPlmn := t2.config.plmn
        ranNodeName := t2.config.name
        supportedTac := t2.config.tac
        broadcastPlmn := t2.config.plmn
        taiSliceSupportList := t2.config.nssais
        defaultPagingDrx := t2.config.pagingDrx }
    sendNgapNonUe amfId pdu t2

def handleAssociationSetup (amfId _ascId inCount outCount : Int) (t : NgapTask) : NgapTask :=
  match findAmfContext amfId t with
  | some amf =>
    let t1 := updateAmf amfId (fun a =>
      { a with association :=
          { associationId := amfId, inStreams := inCount, outStreams := outCount } }) t
    sendNgSetupRequest amf.ctxId t1
  | none => t

def handleAssociationShutdown (amfId : Int) (t : NgapTask) : NgapTask :=
  match findAmfContext amfId t with
  | none => t
  | some _ =>
    let t1 := t.logLine LogLevel.err "Association terminated for AMF[%d]" [amfId] none
    let t2 := t1.logLine LogLevel.debug "Removing AMF context[%d]" [amfId] none
    let t3 := updateAmf amfId (fun amf => { amf with state := EAmfState.NOT_CONNECTED }) t2
    let t4 := { t3 with sctpTask := t3.sctpTask ++ [NwGnbSctp.CONNECTION_CLOSE amfId] }
    deleteAmfContext amfId t4

/-- The `std::all_of` test of `receiveNgSetupResponse`. -/
def allAmfConnected (t : NgapTask) : Bool :=
  t.m_amfCtx.all fun amfCtx => amfCtx.2.state = EAmfState.CONNECTED

def receiveNgSetupResponse (amfId : Int) (msg : ASN_NGSetupResponse) (t : NgapTask) : NgapTask :=
  let t1 := t.logLine LogLevel.debug "NG Setup Response received" [] none
  match findAmfContext amfId t1 with
  | none => t1
  | some _ =>
    let t2 := updateAmf amfId (AssignDefaultAmfConfigs msg.ies) t1
    let t3 := updateAmf amfId (fun amf => { amf with state := EAmfState.CONNECTED }) t2
    let t4 := t3.logLine LogLevel.info "NG Setup procedure is successful" [] none
    if !t4.m_isInitialized && allAmfConnected t4 then
      { t4 with
        m_isInitialized := true
        appTask := t4.appTask ++ [NwGnbStatusUpdate.NGAP_IS_UP true]
        rrcTask := t4.rrcTask ++ [NwGnbNgapToRrc.NGAP_LAYER_INITIALIZED] }
    else t4

def receiveNgSetupFailure (amfId : Int) (msg : ASN_NGSetupFailure) (t : NgapTask) : NgapTask :=
  match findAmfContext amfId t with
  | none => t
  | some _ =>
    let t1 := updateAmf amfId (fun amf => { amf with state := EAmfState.WAITING_NG_SETUP }) t
    match msg.cause with
    | some c => t1.logLine LogLevel.err "NG Setup procedure is failed. Cause: %s" [] (some c)
    | none => t1.logLine LogLevel.err "NG Setup procedure is failed." [] none

def receiveErrorIndication (amfId : Int) (msg : ASN_ErrorIndication) (t : NgapTask) : NgapTask :=
  match findAmfContext amfId t with
  | none => t.logLine LogLevel.err "Error indication received with not found AMF context" [] none
  | some _ =>
    match msg.cause with
    | some c => t.logLine LogLevel.err "Error indication received. Cause: %s" [] (some c)
    | none => t.logLine LogLevel.err "Error indication received." [] none

def sendErrorIndication (amfId : Int) (cause : NgapCause) (ueId : Int) (t : NgapTask) : NgapTask :=
  let t1 := t.logLine LogLevel.debug "Sending an error indication with cause: %s" [] (some cause)
  let pdu := NgapPdu.errorIndication cause
  if ueId > 0 then sendNgapUeAssociated ueId pdu t1 else sendNgapNonUe amfId pdu t1

def receiveAmfConfigurationUpdate (amfId : Int) (msg : ASN_AMFConfigurationUpdate)
    (t : NgapTask) : NgapTask :=
  let t1 := t.logLine LogLevel.debug "AMF configuration update received" [] none
  match findAmfContext amfId t1 with
  | none => t1
  | some _ =>
    let nonEmpty (ie : Option (List Nat)) : Bool :=
      match ie with
      | some l => decide (l.length > 0)
      | none => false
    let tnlModified := nonEmpty msg.tnlAssociationToAddList
      || nonEmpty msg.tnlAssociationToRemoveList || nonEmpty msg.tnlAssociationToUpdateList
    if tnlModified then
      let t2 := t1.logLine LogLevel.err
        "TNL modification is not supported, rejecting AMF configuration update" [] none
      sendNgapNonUe amfId (NgapPdu.amfConfigurationUpdateFailure [NgapCause.Transport_unspecified]) t2
    else
      let t2 := updateAmf amfId (AssignDefaultAmfConfigs msg.ies) t1
      sendNgapNonUe amfId (NgapPdu.amfConfigurationUpdateAcknowledge []) t2

def receiveOverloadStart (amfId : Int) (msg : ASN_OverloadStart) (t : NgapTask) : NgapTask :=
  let t1 := t.logLine LogLevel.debug "AMF overload start received" [] none
  match findAmfContext amfId t1 with
  | none => t1
  | some _ =>
    let t2 := updateAmf amfId (fun amf =>
      { amf with overloadInfo :=
          { OverloadInfo.empty with status := EOverloadStatus.OVERLOADED } }) t1
    let setAction (a : EOverloadAction) (x : NgapTask) : NgapTask :=
      updateAmf amfId (fun amf =>
        { amf with overloadInfo :=
            { amf.overloadInfo with indication :=
                { amf.overloadInfo.indication with action := a } } }) x
    let t3 :=
      match msg.overloadResponse with
      | some (ASN_OverloadResponse.overloadAction action) =>
        match action with
        | ASN_OverloadAction.reject_non_emergency_mo_dt =>
          setAction EOverloadAction.REJECT_NON_EMERGENCY_MO_DATA t2
        | ASN_OverloadAction.reject_rrc_cr_signalling =>
          setAction EOverloadAction.REJECT_SIGNALLING t2
        | ASN_OverloadAction.permit_emergency_sessions_and_mobile_terminated_services_only =>
          setAction EOverloadAction.ONLY_EMERGENCY_AND_MT t2
        | ASN_OverloadAction.permit_high_priority_sessions_and_mobile_terminated_services_only =>
          setAction EOverloadAction.ONLY_HIGH_PRI_AND_MT t2
        | ASN_OverloadAction.unknown code =>
          t2.logLine LogLevel.warn "AMF overload action [%d] could not understand" [code] none
      | _ => t2
    match msg.trafficLoadReductionIndication with
    | some perc =>
      updateAmf amfId (fun amf =>
        { amf with overloadInfo :=
            { amf.overloadInfo with indication :=
                { amf.overloadInfo.indication with loadReductionPerc := perc } } }) t3
    | none => t3

def receiveOverloadStop (_amfId : Int) (_msg : ASN_OverloadStop) (t : NgapTask) : NgapTask :=
  t.logLine LogLevel.debug "AMF overload stop received" [] none

/-- An invocation of one of the interface management handlers. -/
inductive NgapCall where
  | associationSetup (amfId ascId inCount outCount : Int)
  | associationShutdown (amfId : Int)
  | ngSetupResponse (amfId : Int) (msg : ASN_NGSetupResponse)
  | ngSetupFailure (amfId : Int) (msg : ASN_NGSetupFailure)
  | errorIndication (amfId : Int) (msg : ASN_ErrorIndication)
  | sendErrorIndication (amfId : Int) (cause : NgapCause) (ueId : Int)
  | amfConfigurationUpdate (amfId : Int) (msg : ASN_AMFConfigurationUpdate)
  | overloadStart (amfId : Int) (msg : ASN_OverloadStart)
  | overloadStop (amfId : Int) (msg : ASN_OverloadStop)
  deriving DecidableEq, Repr

def NgapTask.call (t : NgapTask) : NgapCall → NgapTask
  | NgapCall.associationSetup amfId ascId inCount outCount =>
    handleAssociationSetup amfId ascId inCount outCount t
  | NgapCall.associationShutdown amfId => handleAssociationShutdown amfId t
  | NgapCall.ngSetupResponse amfId msg => receiveNgSetupResponse amfId msg t
  | NgapCall.ngSetupFailure amfId msg => receiveNgSetupFailure amfId msg t
  | NgapCall.errorIndication amfId msg => receiveErrorIndication amfId msg t
  | NgapCall.sendErrorIndication amfId cause ueId => sendErrorIndication amfId cause ueId t
  | NgapCall.amfConfigurationUpdate amfId msg => receiveAmfConfigurationUpdate amfId msg t
  | NgapCall.overloadStart amfId msg => receiveOverloadStart amfId msg t
  | NgapCall.overloadStop amfId msg => receiveOverloadStop amfId msg t

/-- The task after a sequence of handler invocations. -/
def NgapTask.run (t : NgapTask) (calls : List NgapCall) : NgapTask :=
  calls.foldl NgapTask.call t

/-- The number of `NGAP_IS_UP` updates pushed to the App task so far. -/
def ngapIsUpCount (t : NgapTask) : Nat :=
  t.appTask.countP fun m => match m with | NwGnbStatusUpdate.NGAP_IS_UP _ => true

/-- The number of `NGAP_LAYER_INITIALIZED` messages pushed to the RRC task so far. -/
def ngapLayerInitializedCount (t : NgapTask) : Nat :=
  t.rrcTask.count NwGnbNgapToRrc.NGAP_LAYER_INITIALIZED

/-- Whether the invocation is an NG Setup Response for a known AMF after which
every AMF context of the table is CONNECTED. -/
def completesNgSetup (t : NgapTask) : NgapCall → Bool
  | NgapCall.ngSetupResponse amfId msg =>
    (findAmfContext amfId t).isSome && allAmfConnected (receiveNgSetupResponse amfId msg t)
  | _ => false

/-- An AMF context as created at configuration load. -/
def sampleAmf (id : Int) : NgapAmfContext :=
  { ctxId := id
    state := EAmfState.NOT_CONNECTED
    association := ⟨0, 0, 0⟩
    amfName := ""
    relativeCapacity := 0
    servedGuamiList := []
    plmnSupportList := []
    overloadInfo := OverloadInfo.empty }

/-- A freshly started NGAP task with the given configured AMFs. -/
def sampleNgap (amfIds : List Int) : NgapTask :=
  { m_amfCtx := amfIds.map fun id => (id, sampleAmf id)
    m_ueCtx := []
    m_isInitialized := false
    config := ⟨1, "gnb", 20893, 1, 16, [⟨1, none⟩], 2⟩
    appTask := []
    rrcTask := []
    sctpTask := []
    nonUeSent := []
    ueSent := []
    log := [] }

/-- The NG Setup Response of the single-AMF boot scenario. -/
def sampleSetupResponse : ASN_NGSetupResponse :=
  ⟨⟨some "AMF1", some 255, none, none⟩⟩

end nr.gnb

/-!
Part III embeds the gNB CLI command handler (`src/gnb/app/cmd_handler.cpp`).
Calls on other tasks are recorded in program order in `trace`; the clock and
the pause-confirmed flags of the worker tasks, which other threads change, are
read from oracles indexed by the number of the read.
-/

namespace nr.gnb

/-- The five worker tasks the handler pauses. -/
inductive Worker where
  | GTP
  | MR
  | NGAP
  | RRC
  | SCTP
  deriving DecidableEq, Repr

/-- The `present` tag of `app::GnbCliCommand` (`src/app/cli_cmd.hpp`). -/
inductive GnbCliCommandPR where
  | STATUS
  | INFO
  | AMF_LIST
  | AMF_INFO
  | UE_LIST
  | UE_COUNT
  | HANDOVERPREPARE
  | HANDOVER
  deriving DecidableEq, Repr

structure GnbCliCommand where
  present : GnbCliCommandPR
  amfId : Int
  ueId : Int
  asAmfId : Int
  amfUeNgapId : Int
  ranUeNgapId : Int
  ctxtId : Int
  ulStr : Int
  amf_name : String
  deriving DecidableEq, Repr

structure NwGnbCliCommand where
  cmd : GnbCliCommand
  address : Nat
  deriving DecidableEq, Repr

structure GnbStatusInfo where
  isNgapUp : Bool
  deriving DecidableEq, Repr

structure MrUeContext where
  name : String
  deriving DecidableEq, Repr

/-- One record of the UE_LIST answer. -/
structure UeListRecord where
  ueName : String
  ranNgapId : Int
  amfNgapId : Int
  deriving DecidableEq, Repr

/-- The text handed to `sendResult` or `sendError`, before rendering. -/
inductive CliOutput where
  | text (s : String)
  | statusYaml (info : GnbStatusInfo)
  | configYaml (config : GnbConfig)
  | amfListYaml (ids : List Int)
  | amfInfoYaml (amf : NgapAmfContext)
  | ueListYaml (records : List UeListRecord)
  deriving DecidableEq, Repr

/-- The message `app::NwCliSendResponse(address, output, isError)`. -/
structure NwCliSendResponse where
  address : Nat
  output : CliOutput
  isError : Bool
  deriving DecidableEq, Repr

/-- The state of another task that a command reads. -/
inductive Sampled where
  | APP_STATUS_INFO
  | CONFIG
  | NGAP_AMF_CTX
  | NGAP_UE_CTX
  | MR_UE_MAP
  deriving DecidableEq, Repr

/-- The calls the handler makes, in program order. -/
inductive CmdEvent where
  | requestPause (w : Worker)
  | requestUnpause (w : Worker)
  | isPauseConfirmed (w : Worker) (result : Bool)
  | sleep (ms : Nat)
  | handleCmdImpl
  | sample (what : Sampled)
  | cliPush (msg : NwCliSendResponse)
  | stdout (label : String) (value : String)
  | handoverPreparation (ueId : Int)
  | handleXnHandover (asAmfId amfUeNgapId ranUeNgapId ctxtId ulStr : Int) (amfName : String)
  deriving DecidableEq, Repr

/-- What the handler reaches through `m_base`, and the record of its calls. -/
structure GnbCmdHandler where
  statusInfo : GnbStatusInfo
  config : GnbConfig
  m_amfCtx : List (Int × NgapAmfContext)
  m_ueCtx : List (Int × NgapUeContext)
  m_ueMap : List (Int × MrUeContext)
  trace : List CmdEvent
  deriving DecidableEq, Repr

def PAUSE_CONFIRM_TIMEOUT : Nat := 3000

def PAUSE_POLLING : Nat := 10

/-- Conversion to `uint64_t`. -/
def toU64 (x : Nat) : Nat := x % 2 ^ 64

def GnbCmdHandler.emit (evs : List CmdEvent) (h : GnbCmdHandler) : GnbCmdHandler :=
  { h with trace := h.trace ++ evs }

def sendResult (address : Nat) (output : CliOutput) (h : GnbCmdHandler) : GnbCmdHandler :=
  h.emit [CmdEvent.cliPush ⟨address, output, false⟩]

def sendError (address : Nat) (output : CliOutput) (h : GnbCmdHandler) : GnbCmdHandler :=
  h.emit [CmdEvent.cliPush ⟨address, output, true⟩]

def pauseTasks (h : GnbCmdHandler) : GnbCmdHandler :=
  h.emit [CmdEvent.requestPause Worker.GTP, CmdEvent.requestPause Worker.MR,
    CmdEvent.requestPause Worker.NGAP, CmdEvent.requestPause Worker.RRC,
    CmdEvent.requestPause Worker.SCTP]

def unpauseTasks (h : GnbCmdHandler) : GnbCmdHandler :=
  h.emit [CmdEvent.requestUnpause Worker.GTP, CmdEvent.requestUnpause Worker.MR,
    CmdEvent.requestUnpause Worker.NGAP, CmdEvent.requestUnpause Worker.RRC,
    CmdEvent.requestUnpause Worker.SCTP]

/-- One evaluation of `isAllPaused()`: `flags w` is what `isPauseConfirmed()` of
task `w` returns if it is read during this evaluation. Returns the result and
the reads made. -/
def isAllPaused (flags : Worker → Bool) : Bool × List CmdEvent :=
  if !flags Worker.GTP then
    (false, [CmdEvent.isPauseConfirmed Worker.GTP false])
  else if !flags Worker.MR then
    (false, [CmdEvent.isPauseConfirmed Worker.GTP true,
      CmdEvent.isPauseConfirmed Worker.MR false])
  else if !flags Worker.NGAP then
    (false, [CmdEvent.isPauseConfirmed Worker.GTP true,
      CmdEvent.isPauseConfirmed Worker.MR true,
      CmdEvent.isPauseConfirmed Worker.NGAP false])
  else if !flags Worker.RRC then
    (false, [CmdEvent.isPauseConfirmed Worker.GTP true,
      CmdEvent.isPauseConfirmed Worker.MR true,
      CmdEvent.isPauseConfirmed Worker.NGAP true,
      CmdEvent.isPauseConfirmed Worker.RRC false])
  else if !flags Worker.SCTP then
    (false, [CmdEvent.isPauseConfirmed Worker.GTP true,
      CmdEvent.isPauseConfirmed Worker.MR true,
      CmdEvent.isPauseConfirmed Worker.NGAP true,
      CmdEvent.isPauseConfirmed Worker.RRC true,
      CmdEvent.isPauseConfirmed Worker.SCTP false])
  else
    (true, [CmdEvent.isPauseConfirmed Worker.GTP true,
      CmdEvent.isPauseConfirmed Worker.MR true,
      CmdEvent.isPauseConfirmed Worker.NGAP true,
      CmdEvent.isPauseConfirmed Worker.RRC true,
      CmdEvent.isPauseConfirmed Worker.SCTP true])

/-- The `while (currentTime < endTime)` loop of `handleCmd`, from its iteration
number `k` on. Iteration `k` reads `clock (k + 1)` (reading 0 precedes the loop)
and the flags `confirmed k`. `none` means the loop has not ended within `fuel`
iterations; otherwise the result is `isPaused` and the handler state. -/
def pollLoop (clock : Nat → Nat) (confirmed : Nat → Worker → Bool) (endTime : Nat) :
    Nat → Nat → Nat → GnbCmdHandler → Option (Bool × GnbCmdHandler)
  | 0, _, _, _ => none
  | fuel + 1, k, currentTime, h =>
    if currentTime < endTime then
      let currentTime1 := toU64 (clock (k + 1))
      let polled := isAllPaused (confirmed k)
      let h1 := h.emit polled.2
      if polled.1 then some (true, h1)
      else
        pollLoop clock confirmed endTime fuel (k + 1) currentTime1
          (h1.emit [CmdEvent.sleep PAUSE_POLLING])
    else some (false, h)

/-- `std::unordered_map::count` on an association list. -/
def mapCount {β : Type} (key : Int) (m : List (Int × β)) : Nat :=
  if (m.find? fun e => e.1 = key).isSome then 1 else 0

/-- `std::unordered_map::operator[]`: the mapped value, and the map with a
value-initialised entry inserted when the key was absent. -/
def mapIndex {β : Type} (dflt : β) (key : Int) (m : List (Int × β)) : β × List (Int × β) :=
  match m.find? fun e => e.1 = key with
  | some e => (e.2, m)
  | none => (dflt, m ++ [(key, dflt)])

/-- The loop of the UE_LIST case over the entries of `m_ueCtx`. -/
def ueListLoop : List (Int × NgapUeContext) → List (Int × MrUeContext) →
    List UeListRecord × List (Int × MrUeContext)
  | [], ueMap => ([], ueMap)
  | ue :: rest, ueMap =>
    let looked := mapIndex (⟨""⟩ : MrUeContext) ue.1 ueMap
    let tail := ueListLoop rest looked.2
    (⟨looked.1.name, ue.2.ranUeNgapId, ue.2.amfUeNgapId⟩ :: tail.1, tail.2)

def handleCmdImpl (msg : NwGnbCliCommand) (h0 : GnbCmdHandler) : GnbCmdHandler :=
  let h := h0.emit [CmdEvent.handleCmdImpl]
  match msg.cmd.present with
  | GnbCliCommandPR.STATUS =>
    sendResult msg.address (CliOutput.statusYaml h.statusInfo)
      (h.emit [CmdEvent.sample Sampled.APP_STATUS_INFO])
  | GnbCliCommandPR.INFO =>
    sendResult msg.address (CliOutput.configYaml h.config)
      (h.emit [CmdEvent.sample Sampled.CONFIG])
  | GnbCliCommandPR.AMF_LIST =>
    sendResult msg.address (CliOutput.amfListYaml (h.m_amfCtx.map fun amf => amf.1))
      (h.emit [CmdEvent.sample Sampled.NGAP_AMF_CTX])
  | GnbCliCommandPR.AMF_INFO =>
    let h1 := h.emit [CmdEvent.sample Sampled.NGAP_AMF_CTX]
    if mapCount msg.cmd.amfId h1.m_amfCtx = 0 then
      sendError msg.address (CliOutput.text "AMF not found with given ID") h1
    else
      match h1.m_amfCtx.find? fun e => e.1 = msg.cmd.amfId with
      | some e => sendResult msg.address (CliOutput.amfInfoYaml e.2) h1
      | none => h1
  | GnbCliCommandPR.UE_LIST =>
    let h1 := h.emit [CmdEvent.sample Sampled.NGAP_UE_CTX, CmdEvent.sample Sampled.MR_UE_MAP]
    let looped := ueListLoop h1.m_ueCtx h1.m_ueMap
    sendResult msg.address (CliOutput.ueListYaml looped.1) { h1 with m_ueMap := looped.2 }
  | GnbCliCommandPR.UE_COUNT =>
    sendResult msg.address (CliOutput.text (toString h.m_ueCtx.length))
      (h.emit [CmdEvent.sample Sampled.NGAP_UE_CTX])
  | GnbCliCommandPR.HANDOVERPREPARE =>
    let ueid := msg.cmd.ueId
    h.emit [CmdEvent.stdout " ueid: " (toString ueid), CmdEvent.handoverPreparation ueid]
  | GnbCliCommandPR.HANDOVER =>
    h.emit [CmdEvent.stdout " asAmfId: " (toString msg.cmd.asAmfId),
      CmdEvent.stdout " amf_name: " msg.cmd.amf_name,
      CmdEvent.handleXnHandover msg.cmd.asAmfId msg.cmd.amfUeNgapId msg.cmd.ranUeNgapId
        msg.cmd.ctxtId msg.cmd.ulStr msg.cmd.amf_name]

/-- The command handler. `clock n` is the `n`-th reading of
`utils::CurrentTimeMillis()` and `confirmed k` the pause-confirmed flags at the
`k`-th evaluation of `isAllPaused()`. `none` means the polling loop has not
ended within `fuel` iterations. -/
def handleCmd (clock : Nat → Nat) (confirmed : Nat → Worker → Bool) (fuel : Nat)
    (msg : NwGnbCliCommand) (h : GnbCmdHandler) : Option GnbCmdHandler :=
  let h1 := pauseTasks h
  let currentTime := toU64 (clock 0)
  let endTime := toU64 (currentTime + PAUSE_CONFIRM_TIMEOUT)
  (pollLoop clock confirmed endTime fuel 0 currentTime h1).map fun r =>
    let h2 :=
      if !r.1 then
        sendError msg.address
          (CliOutput.text "gNB is unable process command due to pausing timeout") r.2
      else handleCmdImpl msg r.2
    unpauseTasks h2

/-- The five `requestPause()` calls of `pauseTasks`. -/
def pauseEvents : List CmdEvent :=
  [CmdEvent.requestPause Worker.GTP, CmdEvent.requestPause Worker.MR,
    CmdEvent.requestPause Worker.NGAP, CmdEvent.requestPause Worker.RRC,
    CmdEvent.requestPause Worker.SCTP]

/-- The five `requestUnpause()` calls of `unpauseTasks`. -/
def unpauseEvents : List CmdEvent :=
  [CmdEvent.requestUnpause Worker.GTP, CmdEvent.requestUnpause Worker.MR,
    CmdEvent.requestUnpause Worker.NGAP, CmdEvent.requestUnpause Worker.RRC,
    CmdEvent.requestUnpause Worker.SCTP]

/-- The error response of a pausing timeout. -/
def timeoutError (msg : NwGnbCliCommand) : CmdEvent :=
  CmdEvent.cliPush
    ⟨msg.address, CliOutput.text "gNB is unable process command due to pausing timeout", true⟩

/-- The end of the pause budget computed by `handleCmd`. -/
def pauseDeadline (clock : Nat → Nat) : Nat :=
  toU64 (toU64 (clock 0) + PAUSE_CONFIRM_TIMEOUT)

/-- Whether an event is a read of another task's state by `handleCmdImpl`. -/
def CmdEvent.isSampling : CmdEvent → Bool
  | CmdEvent.handleCmdImpl => true
  | CmdEvent.sample _ => true
  | CmdEvent.handoverPreparation _ => true
  | CmdEvent.handleXnHandover _ _ _ _ _ _ => true
  | _ => false

/-- Whether an event is a pause or unpause request. -/
def CmdEvent.isPauseControl : CmdEvent → Bool
  | CmdEvent.requestPause _ => true
  | CmdEvent.requestUnpause _ => true
  | _ => false

/-- Whether an event belongs to the polling phase. -/
def CmdEvent.isPolling : CmdEvent → Bool
  | CmdEvent.isPauseConfirmed _ _ => true
  | CmdEvent.sleep _ => true
  | _ => false

/-- A handler state with three UE contexts and an empty call record. -/
def sampleHandler : GnbCmdHandler :=
  { statusInfo := ⟨true⟩
    config := ⟨1, "gnb", 20893, 1, 16, [⟨1, none⟩], 2⟩
    m_amfCtx := [(1, sampleAmf 1)]
    m_ueCtx := [(1, ⟨1, 10, 1, 1, 1, 1⟩), (2, ⟨2, 11, 2, 1, 1, 1⟩), (3, ⟨3, 12, 3, 1, 1, 1⟩)]
    m_ueMap := [(1, ⟨"ue1"⟩), (2, ⟨"ue2"⟩), (3, ⟨"ue3"⟩)]
    trace := [] }

/-- The UE_COUNT command of requester 7. -/
def sampleUeCount : NwGnbCliCommand :=
  ⟨⟨GnbCliCommandPR.UE_COUNT, 0, 0, 0, 0, 0, 0, 0, ""⟩, 7⟩

/-- A clock advancing 10 ms per reading from 1000. -/
def sampleClock (n : Nat) : Nat := 1000 + 10 * n

end nr.gnb

/-!
Part IV adds the observations and the modules needed for the session
management, tunnel, handover and RRC properties.
-/

namespace nr.ue

/-- The number of logged MM state switches. -/
def mmSwitchLogs (s : NasMm) : Nat :=
  s.log.countP fun e => match e with
    | LogEntry.infoMmSwitch _ => true
    | _ => false

/-- The number of logged CM state switches. -/
def cmSwitchLogs (s : NasMm) : Nat :=
  s.log.countP fun e => match e with
    | LogEntry.infoCmSwitch _ => true
    | _ => false

/-- The number of logged 5U state switches. -/
def uSwitchLogs (s : NasMm) : Nat :=
  s.log.countP fun e => match e with
    | LogEntry.infoUSwitch _ => true
    | _ => false

end nr.ue

namespace nr.gnb

/-- Whether an event is a push to the CLI callback task. -/
def CmdEvent.isCliPush : CmdEvent → Bool
  | CmdEvent.cliPush _ => true
  | _ => false

/-- The responses pushed to the CLI callback task, in order. -/
def cliResponses (trace : List CmdEvent) : List NwCliSendResponse :=
  trace.filterMap fun e => match e with
    | CmdEvent.cliPush r => some r
    | _ => none

/-- The HANDOVERPREPARE command for UE 1 of requester 7. -/
def sampleHandoverPrepare : NwGnbCliCommand :=
  ⟨⟨GnbCliCommandPR.HANDOVERPREPARE, 0, 1, 0, 0, 0, 0, 0, ""⟩, 7⟩

/-- The HANDOVER command of requester 7. -/
def sampleHandover : NwGnbCliCommand :=
  ⟨⟨GnbCliCommandPR.HANDOVER, 0, 0, 1, 10, 1, 1, 1, "AMF1"⟩, 7⟩

end nr.gnb

/-!
Part V embeds the UE session resources (`src/ue/sm/resource.cpp`) and the UE
App task (`src/ue/app/task.cpp`). A `std::array` of 16 elements is a list; an
access outside the array makes the operation return `none`.
-/

namespace nr.ue

inductive EPduSessionType where
  | IPV4
  | IPV6
  | IPV4V6
  | UNSTRUCTURED
  | ETHERNET
  deriving DecidableEq, Repr

structure PduAddress where
  sessionType : EPduSessionType
  pduAddressInformation : List Nat
  deriving DecidableEq, Repr

/-- The fields of a PDU-session slot that the translated sources read. -/
structure PduSession where
  id : Int
  isEstablished : Bool
  sessionType : EPduSessionType
  pduAddress : Option PduAddress
  deriving DecidableEq, Repr

/-- Status updates pushed to the UE App task. -/
inductive NwUeStatusUpdate where
  | SESSION_ESTABLISHMENT (pduSession : PduSession)
  | SESSION_RELEASE (psi : Int)
  deriving DecidableEq, Repr

/-- Element `i` of an array, `none` outside it. -/
def arrayGet? {α : Type} (l : List α) (i : Int) : Option α :=
  if 0 ≤ i then l[i.toNat]? else none

/-- The array with element `i` replaced by `f` of it. -/
def arrayModify {α : Type} (f : α → α) : Nat → List α → List α
  | _, [] => []
  | 0, x :: xs => f x :: xs
  | n + 1, x :: xs => x :: arrayModify f n xs

/-- The members of `NasSm` used by `resource.cpp`, followed by its effects. -/
structure NasSm where
  m_pduSessions : List PduSession
  /-- messages pushed to `m_base->appTask` -/
  appTask : List NwUeStatusUpdate
  /-- integer arguments of the debug lines written -/
  log : List Int
  deriving DecidableEq, Repr

/-- Modelled from the spec: `freePduSessionId` is not among the translated
sources; it frees the slot, and a slot is free iff its id is 0. -/
def freePduSessionId (psi : Int) (s : NasSm) : NasSm :=
  { s with m_pduSessions := arrayModify (fun x => { x with id := 0 }) psi.toNat s.m_pduSessions }

def localReleaseSession (psi : Int) (s : NasSm) : Option NasSm :=
  let s1 := { s with log := s.log ++ [psi] }
  match arrayGet? s1.m_pduSessions psi with
  | none => none
  | some session =>
    let isEstablished := session.isEstablished
    let s2 := freePduSessionId psi s1
    if isEstablished then
      some { s2 with appTask := s2.appTask ++ [NwUeStatusUpdate.SESSION_RELEASE psi] }
    else some s2

/-- The range-for of `localReleaseAllSessions`: `n` more slots from slot `i` on. -/
def localReleaseAllSessions.loop : Nat → Nat → NasSm → Option NasSm
  | 0, _, s => some s
  | n + 1, i, s =>
    match s.m_pduSessions[i]? with
    | none => none
    | some session =>
      if session.id ≠ 0 then
        (localReleaseSession session.id s).bind (localReleaseAllSessions.loop n (i + 1))
      else localReleaseAllSessions.loop n (i + 1) s

def localReleaseAllSessions (s : NasSm) : Option NasSm :=
  localReleaseAllSessions.loop 16 0 s

/-- The releases owed for slots `i`, `i + 1`, ... of a table: one for each
occupied slot that is established, in slot order. -/
def owedReleases : Nat → List PduSession → List NwUeStatusUpdate
  | _, [] => []
  | i, session :: rest =>
    (if session.id ≠ 0 ∧ session.isEstablished = true
      then [NwUeStatusUpdate.SESSION_RELEASE i] else []) ++ owedReleases (i + 1) rest

/-! ### The UE App task -/

/-- A TUN task: its PSI and the descriptor of its device. -/
structure TunTask where
  psi : Int
  fd : Int
  deriving DecidableEq, Repr

structure UePduSessionInfo where
  type : String
  address : String
  deriving DecidableEq, Repr

inductive AppLogEntry where
  | err (text : String) (detail : String)
  | info (text : String) (psi : Int) (name : String) (address : String)
  deriving DecidableEq, Repr

/-- The members of `UeAppTask` used by the status update handling, followed by
its effects on the TUN tasks. -/
structure UeAppTask where
  m_tunTasks : List (Option TunTask)
  m_pduSessions : List (Option UePduSessionInfo)
  configureRouting : Bool
  /-- tasks on which `quit()` was called before they were deleted -/
  quitTasks : List TunTask
  /-- tasks on which `start()` was called -/
  startedTasks : List TunTask
  log : List AppLogEntry
  deriving DecidableEq, Repr

/-- The answers of the host and of the library helpers the App task calls. -/
structure AppEnv where
  /-- `utils::IsRoot()` -/
  isRoot : Bool
  /-- `tun::TunAllocate`: descriptor, allocated name, error text -/
  tunAllocate : Int × String × String
  /-- `tun::TunConfigure name ip configureRouting`: result, error text -/
  tunConfigure : String → String → Bool → Bool × String
  /-- `utils::OctetStringToIp` -/
  octetStringToIp : List Nat → String
  /-- `nas::utils::EnumToString` -/
  enumToString : EPduSessionType → String

def UeAppTask.err (text detail : String) (app : UeAppTask) : UeAppTask :=
  { app with log := app.log ++ [AppLogEntry.err text detail] }

def setupTunInterface (env : AppEnv) (pduSession : PduSession) (app : UeAppTask) :
    Option UeAppTask :=
  if !env.isRoot then
    some (app.err
      "TUN interface could not be setup. Permission denied. Please run the UE with 'sudo'" "")
  else
    match pduSession.pduAddress with
    | none => some (app.err "Connection could not setup. PDU address is missing." "")
    | some pduAddress =>
      if pduAddress.sessionType ≠ EPduSessionType.IPV4
          ∨ pduSession.sessionType ≠ EPduSessionType.IPV4 then
        some (app.err "Connection could not setup. PDU session type is not supported." "")
      else
        let psi := pduSession.id
        if psi = 0 ∨ psi > 15 then
          some (app.err "Connection could not setup. Invalid PSI." "")
        else
          match arrayGet? app.m_tunTasks psi with
          | none => none
          | some (some _) =>
            some (app.err
              "Connection could not setup. TUN task for specified PSI is non-null." "")
          | some none =>
            let fd := env.tunAllocate.1
            let allocatedName := env.tunAllocate.2.1
            let error := env.tunAllocate.2.2
            if fd = 0 ∨ error.length > 0 then
              some (app.err "TUN allocation failure [%s]" error)
            else
              let ipAddress := env.octetStringToIp pduAddress.pduAddressInformation
              let configured := env.tunConfigure allocatedName ipAddress app.configureRouting
              if !configured.1 ∨ configured.2.length > 0 then
                some (app.err "TUN configuration failure [%s]" configured.2)
              else
                let task : TunTask := ⟨psi, fd⟩
                some { app with
                  m_tunTasks := app.m_tunTasks.set psi.toNat (some task)
                  startedTasks := app.startedTasks ++ [task]
                  log := app.log ++ [AppLogEntry.info
                    "Connection setup for PDU session[%d] is successful, TUN interface[%s, %s] is up."
                    pduSession.id allocatedName ipAddress] }

def receiveStatusUpdate (env : AppEnv) (msg : NwUeStatusUpdate) (app : UeAppTask) :
    Option UeAppTask :=
  match msg with
  | NwUeStatusUpdate.SESSION_ESTABLISHMENT session =>
    let sessionInfo : UePduSessionInfo :=
      { type := env.enumToString session.sessionType
        address :=
          match session.pduAddress with
          | some a => env.octetStringToIp a.pduAddressInformation
          | none => "" }
    match arrayGet? app.m_pduSessions session.id with
    | none => none
    | some _ =>
      setupTunInterface env session
        { app with m_pduSessions := app.m_pduSessions.set session.id.toNat (some sessionInfo) }
  | NwUeStatusUpdate.SESSION_RELEASE psi =>
    match arrayGet? app.m_tunTasks psi, arrayGet? app.m_pduSessions psi with
    | some tunTask, some info =>
      let app1 :=
        match tunTask with
        | some task =>
          { app with
            quitTasks := app.quitTasks ++ [task]
            m_tunTasks := app.m_tunTasks.set psi.toNat none }
        | none => app
      match info with
      | some _ =>
        some { app1 with
          log := app1.log ++ [AppLogEntry.info "PDU session[%d] released" psi "" ""]
          m_pduSessions := app1.m_pduSessions.set psi.toNat none }
      | none => some app1
    | _, _ => none

/-- The App task after handling the given status updates in order. -/
def receiveStatusUpdates (env : AppEnv) : List NwUeStatusUpdate → UeAppTask → Option UeAppTask
  | [], app => some app
  | msg :: rest, app => (receiveStatusUpdate env msg app).bind (receiveStatusUpdates env rest)

/-- A host that runs as root and on which TUN allocation and configuration succeed. -/
def sampleEnv : AppEnv :=
  { isRoot := true
    tunAllocate := (5, "uesimtun0", "")
    tunConfigure := fun _ _ _ => (true, "")
    octetStringToIp := fun _ => "10.45.0.2"
    enumToString := fun _ => "IPv4" }

/-- An App task with a TUN task in slot 2 only. -/
def sampleApp : UeAppTask :=
  { m_tunTasks := (List.replicate 16 none).set 2 (some ⟨2, 9⟩)
    m_pduSessions := List.replicate 16 none
    configureRouting := true
    quitTasks := []
    startedTasks := []
    log := [] }

/-- An established IPv4 session in the slot of its id. -/
def sampleSession (id : Int) : PduSession :=
  ⟨id, true, EPduSessionType.IPV4, some ⟨EPduSessionType.IPV4, [10, 45, 0, 2]⟩⟩

/-- A free slot. -/
def freeSlot : PduSession := ⟨0, false, EPduSessionType.IPV4, none⟩

/-- A session table with slot 2 established, slot 5 allocated and not yet
established, and every other slot free. -/
def sampleSm : NasSm :=
  { m_pduSessions :=
      ((List.replicate 16 freeSlot).set 2 (sampleSession 2)).set 5
        { sampleSession 5 with isEstablished := false }
    appTask := []
    log := [] }

end nr.ue

/-!
Part VI embeds the Xn handover path switch of the NGAP task
(`src/gnb/ngap/interface.cpp`) and the gNB RRC handlers
(`src/gnb/rrc/handler.cpp`). The ASN.1 codec is outside the translated sources:
its answers are parameters.
-/

namespace nr.gnb

inductive ProtocolIeId where
  | AMF_UE_NGAP_ID
  | RAN_UE_NGAP_ID
  | UserLocationInformation
  | UESecurityCapabilities
  deriving DecidableEq, Repr

structure UserLocationInformationNR where
  nrCgiPlmn : Nat
  nrCellIdentity : Nat
  taiPlmn : Nat
  tac : Nat
  timeStamp : Nat
  deriving DecidableEq, Repr

structure UESecurityCapabilities where
  nRencryptionAlgorithms : List Nat
  nRintegrityProtectionAlgorithms : List Nat
  eUTRAencryptionAlgorithms : List Nat
  eUTRAintegrityProtectionAlgorithms : List Nat
  deriving DecidableEq, Repr

/-- The PathSwitchRequest PDU as the information elements added to it. -/
structure PathSwitchRequest where
  amfUeNgapId : Option Int
  ranUeNgapId : Option Int
  userLocationInformation : Option UserLocationInformationNR
  ueSecurityCapabilities : Option UESecurityCapabilities
  deriving DecidableEq, Repr

/-- The answers of the ASN.1 library to `handleXnHandover`. -/
structure AsnEnv where
  /-- whether `AddProtocolIeIfUsable` finds the element usable in the message -/
  ieUsable : ProtocolIeId → Bool
  /-- whether `asn_check_constraints` returns 0 -/
  checkConstraints : PathSwitchRequest → Bool
  /-- `ngap_encode::Encode`: the encoded bytes, or `none` when it fails -/
  encode : PathSwitchRequest → Option (List Nat)
  /-- `ngap_encode::EncodeXer` -/
  encodeXer : PathSwitchRequest → String
  /-- `utils::CurrentTimeStamp().seconds32()` -/
  seconds32 : Nat

/-- One `nodeListener->onSend(GNB, from, AMF, to, NGAP, xer)` call. -/
structure NodeListenerSend where
  fromNode : String
  toNode : String
  xer : String
  deriving DecidableEq, Repr

/-- Modelled from the spec: `findUeContext` is not among the translated sources;
it looks the UE context up in the table by its id and yields null when there is
none. -/
def findUeContext (ueId : Int) (t : NgapTask) : Option NgapUeContext :=
  (t.m_ueCtx.find? fun e => e.1 = ueId).map Prod.snd

/-- The block of `handleXnHandover` that inserts the UE-related information
elements into the empty PDU. -/
def handleXnHandover.insertIes (env : AsnEnv) (config : GnbConfig) (ue : NgapUeContext) :
    PathSwitchRequest :=
  let pdu0 : PathSwitchRequest := ⟨none, none, none, none⟩
  let pdu1 :=
    if ue.amfUeNgapId > 0 ∧ env.ieUsable ProtocolIeId.AMF_UE_NGAP_ID = true then
      { pdu0 with amfUeNgapId := some ue.amfUeNgapId }
    else pdu0
  let pdu2 :=
    if env.ieUsable ProtocolIeId.RAN_UE_NGAP_ID then
      { pdu1 with ranUeNgapId := some ue.ranUeNgapId }
    else pdu1
  let loc : UserLocationInformationNR :=
    ⟨config.plmn, config.nci, config.plmn, config.tac, env.seconds32⟩
  let pdu3 :=
    if env.ieUsable ProtocolIeId.UserLocationInformation then
      { pdu2 with userLocationInformation := some loc }
    else pdu2
  if env.ieUsable ProtocolIeId.UESecurityCapabilities then
    { pdu3 with ueSecurityCapabilities := some ⟨[255], [255], [255], [255]⟩ }
  else pdu3

/-- The parameterless `handleXnHandover`. Returns the task and the node listener
calls made; `nodeListener` tells whether a listener is installed. -/
def handleXnHandover (env : AsnEnv) (nodeListener : Bool) (t : NgapTask) :
    NgapTask × List NodeListenerSend :=
  let ueId : Int := 3
  let t1 := t.logLine LogLevel.debug "handle Xn handover ueId: %d" [ueId] none
  match findUeContext ueId t1 with
  | none => (t1, [])
  | some ue =>
    match findAmfContext ue.associatedAmfId t1 with
    | none => (t1, [])
    | some amf =>
      let pdu := handleXnHandover.insertIes env t1.config ue
      if !env.checkConstraints pdu then
        (t1.logLine LogLevel.err "NGAP PDU ASN constraint validation failed" [] none, [])
      else
        match env.encode pdu with
        | none => (t1.logLine LogLevel.err "NGAP APER encoding failed" [] none, [])
        | some buffer =>
          let t2 := { t1 with sctpTask := t1.sctpTask ++
            [NwGnbSctp.SEND_MESSAGE amf.ctxId ue.uplinkStream buffer] }
          if nodeListener then
            let xer := env.encodeXer pdu
            if xer.length > 0 then (t2, [⟨t2.config.name, amf.amfName, xer⟩])
            else (t2, [])
          else (t2, [])

/-! ### gNB RRC -/

/-- An ASN.1 BIT STRING: its bits, most significant first. -/
structure BIT_STRING where
  bits : List Bool
  deriving DecidableEq, Repr

structure ASN_NGAP_FiveG_S_TMSI where
  aMFSetID : BIT_STRING
  aMFPointer : BIT_STRING
  fiveG_TMSI : List Nat
  deriving DecidableEq, Repr

/-- The `criticalExtensions` choice of ULInformationTransfer; the NAS message
is an optional element of the first alternative. -/
inductive ASN_RRC_ULInformationTransfer_criticalExtensions where
  | ulInformationTransfer (dedicatedNAS_Message : Option (List Nat))
  | criticalExtensionsFuture
  deriving DecidableEq, Repr

structure ASN_RRC_ULInformationTransfer where
  criticalExtensions : ASN_RRC_ULInformationTransfer_criticalExtensions
  deriving DecidableEq, Repr

/-- A paging record whose UE identity is the ng-5G-S-TMSI alternative; the bit
string is given by the octets it was set from. -/
structure ASN_RRC_PagingRecord where
  ng_5G_S_TMSI : List Nat
  deriving DecidableEq, Repr

/-- The RRC messages built by `handler.cpp`. -/
inductive RrcPdu where
  | dlInformationTransfer (dedicatedNAS_Message : List Nat)
  | rrcReconfiguration
  | paging (pagingRecordList : List ASN_RRC_PagingRecord)
  deriving DecidableEq, Repr

/-- Messages pushed to the NGAP task. -/
inductive NmGnbRrcToNgap where
  | UPLINK_NAS_DELIVERY (ueId : Int) (pdu : List Nat)
  | RADIO_LINK_FAILURE (ueId : Int)
  deriving DecidableEq, Repr

/-- The members of `GnbRrcTask` used by `handler.cpp`, followed by its effects. -/
structure GnbRrcTask where
  /-- the keys of `m_ueCtx` -/
  m_ueCtx : List Int
  /-- messages pushed to `m_base->ngapTask` -/
  ngapTask : List NmGnbRrcToNgap
  /-- calls of `sendRrcMessage`: the addressed UE, if any, and the message -/
  rrcSent : List (Option Int × RrcPdu)
  log : List (String × Int)
  deriving DecidableEq, Repr

/-- Modelled from the spec: `asn::GetBitStringInt<BitCount>` is not among the
translated sources; it is the integer written by the first `BitCount` bits of
the bit string, most significant first, a bit past the end reading 0. -/
def GetBitStringInt (bitCount : Nat) (source : BIT_STRING) : Nat :=
  (List.range bitCount).foldl
    (fun acc i => 2 * acc + (if source.bits.getD i false then 1 else 0)) 0

/-- Modelled from the spec: `bits::Ranged16` is not among the translated
sources; it packs the (width, value) pairs into 16 bits, the first pair in the
most significant bits, each value in a field of its width. -/
def Ranged16 (fields : List (Nat × Nat)) : Nat :=
  (fields.foldl (fun acc f => acc * 2 ^ f.1 + f.2 % 2 ^ f.1) 0) % 2 ^ 16

/-- `OctetString::appendOctet2`: the two octets of a 16-bit value, high first. -/
def appendOctet2 (octets : List Nat) (v : Nat) : List Nat :=
  octets ++ [v / 256 % 256, v % 256]

/-- Modelled from the spec: `sendRrcMessage` is not among the translated sources;
it hands the message to the lower layers. The call is recorded. -/
def sendRrcMessage (ueId : Option Int) (pdu : RrcPdu) (r : GnbRrcTask) : GnbRrcTask :=
  { r with rrcSent := r.rrcSent ++ [(ueId, pdu)] }

/-- The downlink NAS handler. `asn::SetOctetString`, of the ASN.1 library outside
the translated sources, copies the octets into the message. -/
def handleDownlinkNasDelivery (ueId : Int) (nasPdu : List Nat) (r : GnbRrcTask) : GnbRrcTask :=
  let r1 := { r with log := r.log ++ [("handleDownlinkNasDelivery [%d]", ueId)] }
  sendRrcMessage (some ueId) (RrcPdu.dlInformationTransfer nasPdu) r1

def rrcConnReconfigurationCommand (ueId : Int) (r : GnbRrcTask) : GnbRrcTask :=
  let r1 := { r with log := r.log ++ [("rrcConnReconfigurationCommand[%d]", ueId)] }
  sendRrcMessage (some ueId) RrcPdu.rrcReconfiguration r1

def deliverUplinkNas (ueId : Int) (nasPdu : List Nat) (r : GnbRrcTask) : GnbRrcTask :=
  { r with ngapTask := r.ngapTask ++ [NmGnbRrcToNgap.UPLINK_NAS_DELIVERY ueId nasPdu] }

/-- The uplink handler; `none` is the dereference of an absent
`dedicatedNAS_Message`. `asn::GetOctetString`, of the ASN.1 library outside the
translated sources, copies the octets out of the message. -/
def receiveUplinkInformationTransfer (ueId : Int) (msg : ASN_RRC_ULInformationTransfer)
    (r : GnbRrcTask) : Option GnbRrcTask :=
  match msg.criticalExtensions with
  | ASN_RRC_ULInformationTransfer_criticalExtensions.ulInformationTransfer nas =>
    match nas with
    | some octets => some (deliverUplinkNas ueId octets r)
    | none => none
  | ASN_RRC_ULInformationTransfer_criticalExtensions.criticalExtensionsFuture => some r

def handleRadioLinkFailure (ueId : Int) (r : GnbRrcTask) : GnbRrcTask :=
  { r with
    ngapTask := r.ngapTask ++ [NmGnbRrcToNgap.RADIO_LINK_FAILURE ueId]
    m_ueCtx := r.m_ueCtx.filter fun k => ¬ k = ueId }

def handlePaging (tmsi : ASN_NGAP_FiveG_S_TMSI) (r : GnbRrcTask) : GnbRrcTask :=
  let tmsiOctets0 : List Nat := []
  let tmsiOctets1 := appendOctet2 tmsiOctets0
    (Ranged16 [(10, GetBitStringInt 10 tmsi.aMFSetID), (6, GetBitStringInt 10 tmsi.aMFPointer)])
  let tmsiOctets := tmsiOctets1 ++ tmsi.fiveG_TMSI
  let record : ASN_RRC_PagingRecord := ⟨tmsiOctets⟩
  sendRrcMessage none (RrcPdu.paging [record]) r

/-- The bits of `v` in a field of `width` bits, most significant first. -/
def bitsOfNat : Nat → Nat → List Bool
  | 0, _ => []
  | width + 1, v => bitsOfNat width (v / 2) ++ [decide (v % 2 = 1)]

/-- The 5G-S-TMSI with the given AMF Set ID (10 bits), AMF Pointer (6 bits) and
5G-TMSI octets. -/
def mkTmsi (s p : Nat) (t : List Nat) : ASN_NGAP_FiveG_S_TMSI :=
  ⟨⟨bitsOfNat 10 s⟩, ⟨bitsOfNat 6 p⟩, t⟩

/-- An RRC task that has sent nothing. -/
def sampleRrc : GnbRrcTask := ⟨[1, 2, 3], [], [], []⟩

/-- An ASN.1 library that accepts and encodes every PDU. -/
def sampleAsn : AsnEnv :=
  { ieUsable := fun _ => true
    checkConstraints := fun _ => true
    encode := fun pdu => some [0, (pdu.ranUeNgapId.getD 0).toNat]
    encodeXer := fun _ => "<PathSwitchRequest/>"
    seconds32 := 1000 }

/-- An NGAP task with AMF 1 and the UE context 3 associated with it. -/
def sampleNgapUe : NgapTask :=
  { sampleNgap [1] with m_ueCtx := [(3, ⟨3, 10, 3, 1, 4, 4⟩)] }

end nr.gnb

/-!
Part VII adds the observations used for the listener notifications, the
timeout response and the state the sampling commands touch.
-/

namespace nr.ue

/-- Whether the payload of a listener notification is of the kind its state
type names: primary MM states under `MM`, MM sub-states under `MM_SUB`, and so
on for the other registers. -/
def SwitchEvent.labelMatchesPayload (e : SwitchEvent) : Bool :=
  match e.stateType, e.fromState, e.toState with
  | StateType.MM, StateLabel.mm _, StateLabel.mm _ => true
  | StateType.MM_SUB, StateLabel.mmSub _, StateLabel.mmSub _ => true
  | StateType.RM, StateLabel.rm _, StateLabel.rm _ => true
  | StateType.CM, StateLabel.cm _, StateLabel.cm _ => true
  | StateType.U5, StateLabel.u5 _, StateLabel.u5 _ => true
  | _, _, _ => false

/-- A UE in DEREGISTERED/NORMAL_SERVICE with a node listener installed. -/
def sampleListenedMm : NasMm :=
  { sampleMm with
    m_rmState := ERmState.RM_DEREGISTERED
    m_mmState := EMmState.MM_DEREGISTERED
    m_mmSubState := EMmSubState.MM_DEREGISTERED_NORMAL_SERVICE
    m_lastDeregistrationRequest := none
    nodeListener := true }

/-- A UE in DEREGISTERED_INITIATED and CM_CONNECTED whose cached de-registration
request asks for switch-off. -/
def sampleSwitchOffMm : NasMm :=
  { sampleMm with m_lastDeregistrationRequest := some ⟨⟨ESwitchOff.SWITCH_OFF⟩, 0⟩ }

/-- A UE in DEREGISTERED_INITIATED and CM_CONNECTED with no cached
de-registration request. -/
def sampleNoRequestMm : NasMm :=
  { sampleMm with m_lastDeregistrationRequest := none }

end nr.ue

namespace nr.gnb

/-- The text `handleCmd` hands to `sendError` when the pause is not confirmed. -/
def pausingTimeoutText : String := "gNB is unable process command due to pausing timeout"

/-- The tables a sampling command reads: the AMF and UE context tables of the
NGAP task and the UE map of the MR task. -/
def GnbCmdHandler.tables (h : GnbCmdHandler) :
    List (Int × NgapAmfContext) × List (Int × NgapUeContext) × List (Int × MrUeContext) :=
  (h.m_amfCtx, h.m_ueCtx, h.m_ueMap)

/-- The UE_LIST command of requester 7. -/
def sampleUeList : NwGnbCliCommand :=
  ⟨⟨GnbCliCommandPR.UE_LIST, 0, 0, 0, 0, 0, 0, 0, ""⟩, 7⟩

/-- The AMF_INFO command of requester 7 for AMF id 9. -/
def sampleAmfInfo : NwGnbCliCommand :=
  ⟨⟨GnbCliCommandPR.AMF_INFO, 9, 0, 0, 0, 0, 0, 0, ""⟩, 7⟩

/-- A handler state in which the NGAP task holds a context for UE 4 while the MR
task's map has entries for UEs 1 to 3 only. -/
def sampleStaleHandler : GnbCmdHandler :=
  { sampleHandler with m_ueCtx := sampleHandler.m_ueCtx ++ [(4, ⟨4, 13, 4, 1, 1, 1⟩)] }

end nr.gnb

namespace nr.ue

/-! ## Facts about the switch operations -/

theorem switchMmState_mm (state : EMmState) (subState : EMmSubState) (s : NasMm) :
    (switchMmState state subState s).m_mmState = state
      ∧ (switchMmState state subState s).m_mmSubState = subState := by
  unfold switchMmState onSwitchMmState triggerMmCycle logLine
  constructor <;> (simp only []; repeat' split) <;> rfl

theorem switchMmState_frame (state : EMmState) (subState : EMmSubState) (s : NasMm) :
    (switchMmState state subState s).m_lastPlmnSearchTrigger = s.m_lastPlmnSearchTrigger
      ∧ (switchMmState state subState s).rrcTask = s.rrcTask
      ∧ (switchMmState state subState s).m_lastDeregistrationRequest
          = s.m_lastDeregistrationRequest
      ∧ (switchMmState state subState s).m_lastDeregDueToDisable5g
          = s.m_lastDeregDueToDisable5g
      ∧ (switchMmState state subState s).m_timers = s.m_timers
      ∧ (switchMmState state subState s).nasSent = s.nasSent
      ∧ (switchMmState state subState s).m_cmState = s.m_cmState
      ∧ (switchMmState state subState s).m_validSim = s.m_validSim
      ∧ (switchMmState state subState s).m_autoBehaviour = s.m_autoBehaviour := by
  unfold switchMmState onSwitchMmState triggerMmCycle logLine
  refine ⟨?_, ?_, ?_, ?_, ?_, ?_, ?_, ?_, ?_⟩ <;> (simp only []; repeat' split) <;> rfl

/-- C1: leaving DEREGISTERED for a state other than DEREGISTERED and NULL through
`switchMmState` leaves both the current and the non-current NAS security
context empty. -/
theorem switchMmState_leaving_deregistered_wipes_contexts (s : NasMm) (state : EMmState)
    (subState : EMmSubState) (hold : s.m_mmState = EMmState.MM_DEREGISTERED)
    (hne : state ≠ EMmState.MM_DEREGISTERED) (hnull : state ≠ EMmState.MM_NULL) :
    (switchMmState state subState s).m_currentNsCtx = none
      ∧ (switchMmState state subState s).m_nonCurrentNsCtx = none := by
  have hcond : (s.m_mmState = EMmState.MM_DEREGISTERED ∧ state ≠ EMmState.MM_DEREGISTERED
      ∧ state ≠ EMmState.MM_NULL) := ⟨hold, hne, hnull⟩
  cases hc : s.m_currentNsCtx <;> cases hn : s.m_nonCurrentNsCtx <;>
    simp [switchMmState, onSwitchMmState, triggerMmCycle, logLine, hcond, hc, hn] <;>
    (repeat' split) <;> simp [hc, hn]

theorem switchMmState_leaving_deregistered_wipes_contexts_witness :
    (switchMmState EMmState.MM_REGISTERED_INITIATED EMmSubState.MM_REGISTERED_INITIATED_NA
        { sampleMm with m_mmState := EMmState.MM_DEREGISTERED }).m_currentNsCtx = none
      ∧ (switchMmState EMmState.MM_REGISTERED_INITIATED EMmSubState.MM_REGISTERED_INITIATED_NA
        { sampleMm with m_mmState := EMmState.MM_DEREGISTERED }).m_nonCurrentNsCtx = none :=
  switchMmState_leaving_deregistered_wipes_contexts
    { sampleMm with m_mmState := EMmState.MM_DEREGISTERED }
    EMmState.MM_REGISTERED_INITIATED EMmSubState.MM_REGISTERED_INITIATED_NA rfl
    (by decide) (by decide)

/-! ## De-registration aborts -/

/-- C4: when CM goes from CM_CONNECTED to CM_IDLE in DEREGISTERED_INITIATED with a
pending de-registration request, `switchCmState` returns, ends in NULL/NULL_NA
if the de-registration was due to disabling 5GS, otherwise in
DEREGISTERED/DEREGISTERED_NA if the request asked for a normal de-registration,
and in every case clears the pending request and the disable-5GS flag. -/
theorem switchCmState_idle_aborts_deregistration (s : NasMm) (req : DeRegistrationRequest)
    (hmm : s.m_mmState = EMmState.MM_DEREGISTERED_INITIATED)
    (hcm : s.m_cmState = ECmState.CM_CONNECTED)
    (hreq : s.m_lastDeregistrationRequest = some req) :
    ∃ s1, switchCmState ECmState.CM_IDLE s = some s1
      ∧ (s.m_lastDeregDueToDisable5g = true →
          s1.m_mmState = EMmState.MM_NULL ∧ s1.m_mmSubState = EMmSubState.MM_NULL_NA)
      ∧ (s.m_lastDeregDueToDisable5g = false →
          req.deRegistrationType.switchOff = ESwitchOff.NORMAL_DE_REGISTRATION →
          s1.m_mmState = EMmState.MM_DEREGISTERED
            ∧ s1.m_mmSubState = EMmSubState.MM_DEREGISTERED_NA)
      ∧ s1.m_lastDeregistrationRequest = none
      ∧ s1.m_lastDeregDueToDisable5g = false := by
  cases hflag : s.m_lastDeregDueToDisable5g
  · by_cases hoff : req.deRegistrationType.switchOff = ESwitchOff.NORMAL_DE_REGISTRATION
    · refine ⟨_, by simp [switchCmState, onSwitchCmState, hmm, hcm, hreq, hflag, hoff]; rfl,
        ?_, ?_, ?_, ?_⟩
      · intro h; cases h
      · intro _ _
        simp only [triggerMmCycle, logLine]
        constructor <;> (repeat' split) <;>
          simp [(switchMmState_mm _ _ _).1, (switchMmState_mm _ _ _).2]
      · simp only [triggerMmCycle, logLine]; (repeat' split) <;> rfl
      · simp only [triggerMmCycle, logLine]; (repeat' split) <;> rfl
    · refine ⟨_, by simp [switchCmState, onSwitchCmState, hmm, hcm, hreq, hflag, hoff]; rfl,
        ?_, ?_, ?_, ?_⟩
      · intro h; cases h
      · intro _ h; exact absurd h hoff
      · simp only [triggerMmCycle, logLine]; (repeat' split) <;> rfl
      · simp only [triggerMmCycle, logLine]; (repeat' split) <;> rfl
  · refine ⟨_, by simp [switchCmState, onSwitchCmState, hmm, hcm, hflag]; rfl,
      ?_, ?_, ?_, ?_⟩
    · intro _
      simp only [triggerMmCycle, logLine]
      constructor <;> (repeat' split) <;>
        simp [(switchMmState_mm _ _ _).1, (switchMmState_mm _ _ _).2]
    · intro h; cases h
    · simp only [triggerMmCycle, logLine]; (repeat' split) <;> rfl
    · simp only [triggerMmCycle, logLine]; (repeat' split) <;> rfl

theorem switchCmState_idle_aborts_deregistration_witness :
    sampleMm.m_mmState = EMmState.MM_DEREGISTERED_INITIATED
      ∧ sampleMm.m_cmState = ECmState.CM_CONNECTED
      ∧ ∃ s1, switchCmState ECmState.CM_IDLE sampleMm = some s1
        ∧ (sampleMm.m_lastDeregDueToDisable5g = true →
            s1.m_mmState = EMmState.MM_NULL ∧ s1.m_mmSubState = EMmSubState.MM_NULL_NA)
        ∧ (sampleMm.m_lastDeregDueToDisable5g = false →
            ESwitchOff.NORMAL_DE_REGISTRATION = ESwitchOff.NORMAL_DE_REGISTRATION →
            s1.m_mmState = EMmState.MM_DEREGISTERED
              ∧ s1.m_mmSubState = EMmSubState.MM_DEREGISTERED_NA)
        ∧ s1.m_lastDeregistrationRequest = none
        ∧ s1.m_lastDeregDueToDisable5g = false :=
  ⟨rfl, rfl, switchCmState_idle_aborts_deregistration sampleMm
    ⟨⟨ESwitchOff.NORMAL_DE_REGISTRATION⟩, 0⟩ rfl rfl rfl⟩

/-- The fifth T3521 expiry reaches the same MM state and sub-state as the
CM_CONNECTED to CM_IDLE abort, but keeps the pending request and the flag. -/
theorem onTimerExpire_t3521_abort_outcome (reg : SendRegistration) (s : NasMm)
    (req : DeRegistrationRequest) (hcount : s.m_timers.t3521.expiryCount = 5)
    (hmm : s.m_mmState = EMmState.MM_DEREGISTERED_INITIATED)
    (hcm : s.m_cmState = ECmState.CM_CONNECTED)
    (hreq : s.m_lastDeregistrationRequest = some req) :
    ∃ s1, switchCmState ECmState.CM_IDLE s = some s1
      ∧ (onTimerExpire reg 3521 s).m_mmState = s1.m_mmState
      ∧ (onTimerExpire reg 3521 s).m_mmSubState = s1.m_mmSubState
      ∧ (onTimerExpire reg 3521 s).m_lastDeregistrationRequest = some req
      ∧ (onTimerExpire reg 3521 s).m_lastDeregDueToDisable5g = s.m_lastDeregDueToDisable5g
      ∧ s1.m_lastDeregistrationRequest = none
      ∧ s1.m_lastDeregDueToDisable5g = false := by
  cases hflag : s.m_lastDeregDueToDisable5g <;>
    by_cases hoff : req.deRegistrationType.switchOff = ESwitchOff.NORMAL_DE_REGISTRATION <;>
    refine ⟨_, by simp [switchCmState, onSwitchCmState, hmm, hcm, hreq, hflag, hoff]; rfl,
      ?_⟩ <;>
    simp [onTimerExpire, hcount, hmm, hreq, hflag, hoff, logLine, NasTimer.resetExpiryCount,
      triggerMmCycle, (switchMmState_mm _ _ _).1, (switchMmState_mm _ _ _).2,
      (switchMmState_frame _ _ _).2.2.1, (switchMmState_frame _ _ _).2.2.2.1] <;>
    (repeat' split) <;> simp [(switchMmState_mm _ _ _).1, (switchMmState_mm _ _ _).2, hmm]

/-- C5 (evaluation at the failing input): with the de-registration due to
disabling 5GS, the fifth T3521 expiry and the CM_CONNECTED to CM_IDLE abort both
end in NULL/NULL_NA, but the timer path leaves the pending request in place and
the disable-5GS flag set, where the CM path clears both. -/
theorem onTimerExpire_t3521_fifth_expiry_keeps_request :
    abortOutcome (onTimerExpire sendRegistrationSpec 3521
        { sampleMm with
          m_lastDeregDueToDisable5g := true
          m_timers := { sampleMm.m_timers with t3521 := ⟨3521, false, 5⟩ } })
      = (EMmState.MM_NULL, EMmSubState.MM_NULL_NA,
          some ⟨⟨ESwitchOff.NORMAL_DE_REGISTRATION⟩, 0⟩, true)
    ∧ (switchCmState ECmState.CM_IDLE
        { sampleMm with
          m_lastDeregDueToDisable5g := true
          m_timers := { sampleMm.m_timers with t3521 := ⟨3521, false, 5⟩ } }).map abortOutcome
      = some (EMmState.MM_NULL, EMmSubState.MM_NULL_NA, none, false) := by
  constructor <;> rfl

/-! ## T3521 retransmissions -/

theorem expireT3521Times_succ (reg : SendRegistration) (n : Nat) (s : NasMm) :
    expireT3521Times reg (n + 1) s = expireT3521 reg (expireT3521Times reg n s) := by
  induction n generalizing s with
  | zero => rfl
  | succ n ih =>
    show expireT3521Times reg (n + 1) (expireT3521 reg s) = _
    rw [ih]; rfl

/-- An expiry that is not the fifth retransmits the cached request and restarts
T3521 with the expiry count kept. -/
theorem expireT3521_retransmits (reg : SendRegistration) (s : NasMm)
    (req : DeRegistrationRequest) (hcount : s.m_timers.t3521.expiryCount + 1 ≠ 5)
    (hmm : s.m_mmState = EMmState.MM_DEREGISTERED_INITIATED)
    (hreq : s.m_lastDeregistrationRequest = some req) :
    (expireT3521 reg s).nasSent = s.nasSent ++ [req]
      ∧ (expireT3521 reg s).m_timers.t3521.expiryCount = s.m_timers.t3521.expiryCount + 1
      ∧ (expireT3521 reg s).m_timers.t3521.running = true
      ∧ (expireT3521 reg s).m_mmState = s.m_mmState
      ∧ (expireT3521 reg s).m_mmSubState = s.m_mmSubState
      ∧ (expireT3521 reg s).m_lastDeregistrationRequest = s.m_lastDeregistrationRequest
      ∧ (expireT3521 reg s).m_lastDeregDueToDisable5g = s.m_lastDeregDueToDisable5g := by
  simp [expireT3521, onTimerExpire, NasTimer.expire, NasTimer.start, hcount, hmm, hreq,
    sendNasMessage, logLine]

/-- The fifth expiry sends nothing, resets the expiry count and aborts. -/
theorem expireT3521_aborts (reg : SendRegistration) (s : NasMm)
    (req : DeRegistrationRequest) (hcount : s.m_timers.t3521.expiryCount + 1 = 5)
    (hmm : s.m_mmState = EMmState.MM_DEREGISTERED_INITIATED)
    (hreq : s.m_lastDeregistrationRequest = some req) :
    (expireT3521 reg s).nasSent = s.nasSent
      ∧ (expireT3521 reg s).m_timers.t3521.expiryCount = 0
      ∧ (s.m_lastDeregDueToDisable5g = true →
          (expireT3521 reg s).m_mmState = EMmState.MM_NULL
            ∧ (expireT3521 reg s).m_mmSubState = EMmSubState.MM_NULL_NA)
      ∧ (s.m_lastDeregDueToDisable5g = false →
          req.deRegistrationType.switchOff = ESwitchOff.NORMAL_DE_REGISTRATION →
          (expireT3521 reg s).m_mmState = EMmState.MM_DEREGISTERED
            ∧ (expireT3521 reg s).m_mmSubState = EMmSubState.MM_DEREGISTERED_NA)
      ∧ (s.m_lastDeregDueToDisable5g = false →
          req.deRegistrationType.switchOff ≠ ESwitchOff.NORMAL_DE_REGISTRATION →
          (expireT3521 reg s).m_mmState = EMmState.MM_DEREGISTERED_INITIATED
            ∧ (expireT3521 reg s).m_mmSubState = s.m_mmSubState) := by
  cases hflag : s.m_lastDeregDueToDisable5g <;>
    by_cases hoff : req.deRegistrationType.switchOff = ESwitchOff.NORMAL_DE_REGISTRATION <;>
    simp [expireT3521, onTimerExpire, NasTimer.expire, NasTimer.resetExpiryCount, hcount, hmm,
      hreq, hflag, hoff, logLine, (switchMmState_mm _ _ _).1, (switchMmState_mm _ _ _).2,
      (switchMmState_frame _ _ _).2.2.2.2.1, (switchMmState_frame _ _ _).2.2.2.2.2.1]

/-- The state after `k ≤ 4` expiries from expiry count 0. -/
theorem expireT3521Times_retransmits (reg : SendRegistration) (s : NasMm)
    (req : DeRegistrationRequest) (hcount : s.m_timers.t3521.expiryCount = 0)
    (hmm : s.m_mmState = EMmState.MM_DEREGISTERED_INITIATED)
    (hreq : s.m_lastDeregistrationRequest = some req) (k : Nat) (hk : k ≤ 4) :
    (expireT3521Times reg k s).nasSent = s.nasSent ++ List.replicate k req
      ∧ (expireT3521Times reg k s).m_timers.t3521.expiryCount = k
      ∧ (0 < k → (expireT3521Times reg k s).m_timers.t3521.running = true)
      ∧ (expireT3521Times reg k s).m_mmState = EMmState.MM_DEREGISTERED_INITIATED
      ∧ (expireT3521Times reg k s).m_mmSubState = s.m_mmSubState
      ∧ (expireT3521Times reg k s).m_lastDeregistrationRequest = some req
      ∧ (expireT3521Times reg k s).m_lastDeregDueToDisable5g = s.m_lastDeregDueToDisable5g := by
  induction k with
  | zero => simp [expireT3521Times, hcount, hmm, hreq]
  | succ k ih =>
    obtain ⟨h1, h2, _, h4, h5, h6, h7⟩ := ih (by omega)
    have hstep := expireT3521_retransmits reg (expireT3521Times reg k s) req
      (by rw [h2]; omega) h4 h6
    rw [expireT3521Times_succ]
    obtain ⟨g1, g2, g3, g4, g5, g6, g7⟩ := hstep
    refine ⟨?_, ?_, fun _ => g3, ?_, ?_, ?_, ?_⟩
    · rw [g1, h1, List.replicate_succ', List.append_assoc]
    · rw [g2, h2]
    · rw [g4, h4]
    · rw [g5, h5]
    · rw [g6, h6]
    · rw [g7, h7]

/-- C6: from expiry count 0 in DEREGISTERED_INITIATED with a cached request, each
of the first four T3521 expiries retransmits the request once and restarts the
timer with the expiry count kept; the fifth retransmits nothing, leaves the
expiry count at 0 and the MM state at the abort terminal state. -/
theorem t3521_five_expiries (reg : SendRegistration) (s : NasMm)
    (req : DeRegistrationRequest) (hcount : s.m_timers.t3521.expiryCount = 0)
    (hmm : s.m_mmState = EMmState.MM_DEREGISTERED_INITIATED)
    (hreq : s.m_lastDeregistrationRequest = some req) :
    (∀ k, k ≤ 4 →
      (expireT3521Times reg k s).nasSent = s.nasSent ++ List.replicate k req
        ∧ (expireT3521Times reg k s).m_timers.t3521.expiryCount = k
        ∧ (0 < k → (expireT3521Times reg k s).m_timers.t3521.running = true)
        ∧ (expireT3521Times reg k s).m_mmState = EMmState.MM_DEREGISTERED_INITIATED)
    ∧ (expireT3521Times reg 5 s).nasSent = s.nasSent ++ List.replicate 4 req
    ∧ (expireT3521Times reg 5 s).m_timers.t3521.expiryCount = 0
    ∧ (s.m_lastDeregDueToDisable5g = true →
        (expireT3521Times reg 5 s).m_mmState = EMmState.MM_NULL
          ∧ (expireT3521Times reg 5 s).m_mmSubState = EMmSubState.MM_NULL_NA)
    ∧ (s.m_lastDeregDueToDisable5g = false →
        req.deRegistrationType.switchOff = ESwitchOff.NORMAL_DE_REGISTRATION →
        (expireT3521Times reg 5 s).m_mmState = EMmState.MM_DEREGISTERED
          ∧ (expireT3521Times reg 5 s).m_mmSubState = EMmSubState.MM_DEREGISTERED_NA)
    ∧ (s.m_lastDeregDueToDisable5g = false →
        req.deRegistrationType.switchOff ≠ ESwitchOff.NORMAL_DE_REGISTRATION →
        (expireT3521Times reg 5 s).m_mmState = EMmState.MM_DEREGISTERED_INITIATED
          ∧ (expireT3521Times reg 5 s).m_mmSubState = s.m_mmSubState) := by
  obtain ⟨h1, h2, _, h4, h5, h6, h7⟩ :=
    expireT3521Times_retransmits reg s req hcount hmm hreq 4 (le_refl 4)
  obtain ⟨a1, a2, a3, a4, a5⟩ := expireT3521_aborts reg (expireT3521Times reg 4 s) req
    (by rw [h2]) h4 h6
  refine ⟨fun k hk => ?_, ?_, ?_, ?_, ?_, ?_⟩
  · obtain ⟨b1, b2, b3, b4, _⟩ := expireT3521Times_retransmits reg s req hcount hmm hreq k hk
    exact ⟨b1, b2, b3, b4⟩
  · rw [expireT3521Times_succ, a1, h1]
  · rw [expireT3521Times_succ, a2]
  · intro hf; rw [expireT3521Times_succ]; exact a3 (by rw [h7, hf])
  · intro hf hoff; rw [expireT3521Times_succ]; exact a4 (by rw [h7, hf]) hoff
  · intro hf hoff; rw [expireT3521Times_succ, ← h5]; exact a5 (by rw [h7, hf]) hoff

theorem t3521_five_expiries_witness :
    sampleMm.m_timers.t3521.expiryCount = 0
      ∧ sampleMm.m_mmState = EMmState.MM_DEREGISTERED_INITIATED
      ∧ (expireT3521Times sendRegistrationSpec 5 sampleMm).nasSent
          = sampleMm.nasSent ++ List.replicate 4 ⟨⟨ESwitchOff.NORMAL_DE_REGISTRATION⟩, 0⟩
      ∧ (expireT3521Times sendRegistrationSpec 5 sampleMm).m_timers.t3521.expiryCount = 0 :=
  ⟨rfl, rfl,
    (t3521_five_expiries sendRegistrationSpec sampleMm
      ⟨⟨ESwitchOff.NORMAL_DE_REGISTRATION⟩, 0⟩ rfl rfl rfl).2.1,
    (t3521_five_expiries sendRegistrationSpec sampleMm
      ⟨⟨ESwitchOff.NORMAL_DE_REGISTRATION⟩, 0⟩ rfl rfl rfl).2.2.1⟩

/-! ## The MM cycle -/

theorem wrapLong_gt_of_nonneg (x : Int) (hx : 0 ≤ x) (h : 50 < wrapLong x) : 50 < x := by
  unfold wrapLong at h
  norm_num at h
  omega

theorem chooseSubState_plmn (s : NasMm) :
    plmnSearchRequests (performMmCycle.chooseSubState s) = plmnSearchRequests s
      ∧ (performMmCycle.chooseSubState s).m_lastPlmnSearchTrigger
          = s.m_lastPlmnSearchTrigger := by
  have hsw : ∀ a b, plmnSearchRequests (switchMmState a b s) = plmnSearchRequests s
      ∧ (switchMmState a b s).m_lastPlmnSearchTrigger = s.m_lastPlmnSearchTrigger := by
    intro a b
    exact ⟨by unfold plmnSearchRequests; rw [(switchMmState_frame a b s).2.1],
      (switchMmState_frame a b s).1⟩
  unfold performMmCycle.chooseSubState
  split_ifs <;> first | exact hsw _ _ | exact ⟨rfl, rfl⟩

theorem act_plmn (reg : SendRegistration)
    (hreg : ∀ t f x, (reg t f x).m_lastPlmnSearchTrigger = x.m_lastPlmnSearchTrigger
      ∧ plmnSearchRequests (reg t f x) = plmnSearchRequests x)
    (now : Int) (s : NasMm) :
    (plmnSearchRequests (performMmCycle.act reg now s) = plmnSearchRequests s
        ∧ (performMmCycle.act reg now s).m_lastPlmnSearchTrigger = s.m_lastPlmnSearchTrigger)
      ∨ (plmnSearchRequests (performMmCycle.act reg now s) = plmnSearchRequests s + 1
        ∧ (performMmCycle.act reg now s).m_lastPlmnSearchTrigger = now
        ∧ 50 < wrapLong (now - s.m_lastPlmnSearchTrigger)) := by
  unfold performMmCycle.act
  dsimp only
  split_ifs with h1 h2 <;>
    first
    | exact Or.inl ⟨rfl, rfl⟩
    | exact Or.inl ⟨(hreg _ _ _).2, (hreg _ _ _).1⟩
    | exact Or.inr ⟨by simp [plmnSearchRequests, List.count_append], rfl, h2⟩

/-- One cycle either pushes no PLMN search request and keeps the trigger time,
or pushes exactly one, at a clock reading whose wrapped distance from the
previous trigger exceeds 50, and records that reading. -/
theorem performMmCycle_plmn (reg : SendRegistration)
    (hreg : ∀ t f x, (reg t f x).m_lastPlmnSearchTrigger = x.m_lastPlmnSearchTrigger
      ∧ plmnSearchRequests (reg t f x) = plmnSearchRequests x)
    (now : Int) (s : NasMm) :
    (plmnSearchRequests (performMmCycle reg now s) = plmnSearchRequests s
        ∧ (performMmCycle reg now s).m_lastPlmnSearchTrigger = s.m_lastPlmnSearchTrigger)
      ∨ (plmnSearchRequests (performMmCycle reg now s) = plmnSearchRequests s + 1
        ∧ (performMmCycle reg now s).m_lastPlmnSearchTrigger = now
        ∧ 50 < wrapLong (now - s.m_lastPlmnSearchTrigger)) := by
  unfold performMmCycle
  split
  · exact Or.inl ⟨rfl, rfl⟩
  · have hc := chooseSubState_plmn s
    rcases act_plmn reg hreg now (performMmCycle.chooseSubState s) with h | h
    · exact Or.inl ⟨h.1.trans hc.1, h.2.trans hc.2⟩
    · exact Or.inr ⟨by rw [h.1, hc.1], h.2.1, by rw [← hc.2]; exact h.2.2⟩

theorem cycleLog_spacing (reg : SendRegistration)
    (hreg : ∀ t f x, (reg t f x).m_lastPlmnSearchTrigger = x.m_lastPlmnSearchTrigger
      ∧ plmnSearchRequests (reg t f x) = plmnSearchRequests x) :
    ∀ (nows : List Int) (s : NasMm), nows.Pairwise (fun a b => a ≤ b) →
      (∀ e ∈ cycleLog reg s nows, e.2 ≤ 1)
        ∧ (cycleLog reg s nows).Pairwise (fun a b => 1 ≤ a.2 → 1 ≤ b.2 → 50 < b.1 - a.1)
        ∧ ((∀ n ∈ nows, s.m_lastPlmnSearchTrigger ≤ n) →
            ∀ e ∈ cycleLog reg s nows, 1 ≤ e.2 → 50 < e.1 - s.m_lastPlmnSearchTrigger) := by
  intro nows
  induction nows with
  | nil => intro s _; simp [cycleLog]
  | cons now rest ih =>
    intro s hmono
    rw [List.pairwise_cons] at hmono
    obtain ⟨hhead, hrest⟩ := hmono
    obtain ⟨ih1, ih2, ih3⟩ := ih (performMmCycle reg now s) hrest
    simp only [cycleLog]
    rcases performMmCycle_plmn reg hreg now s with ⟨hc, hl⟩ | ⟨hc, hl, hw⟩
    · refine ⟨?_, ?_, ?_⟩
      · intro e he
        rcases List.mem_cons.1 he with rfl | he
        · simp [hc]
        · exact ih1 e he
      · rw [List.pairwise_cons]
        refine ⟨?_, ih2⟩
        intro e _ h1
        simp [hc] at h1
      · intro hall e he
        rcases List.mem_cons.1 he with rfl | he
        · intro h1; simp [hc] at h1
        · intro h1
          have := ih3 (fun n hn => by rw [hl]; exact hall n (List.mem_cons_of_mem _ hn)) e he h1
          rw [hl] at this
          exact this
    · have hnext : ∀ e ∈ cycleLog reg (performMmCycle reg now s) rest, 1 ≤ e.2 →
          50 < e.1 - now := by
        intro e he h1
        have := ih3 (fun n hn => by rw [hl]; exact hhead n hn) e he h1
        rw [hl] at this
        exact this
      refine ⟨?_, ?_, ?_⟩
      · intro e he
        rcases List.mem_cons.1 he with rfl | he
        · simp [hc]
        · exact ih1 e he
      · rw [List.pairwise_cons]
        exact ⟨fun e he _ h1 => hnext e he h1, ih2⟩
      · intro hall e he
        have hnow : s.m_lastPlmnSearchTrigger ≤ now := hall now (List.mem_cons_self _ _)
        have hgap : 50 < now - s.m_lastPlmnSearchTrigger :=
          wrapLong_gt_of_nonneg _ (by omega) hw
        rcases List.mem_cons.1 he with rfl | he
        · intro _; exact hgap
        · intro h1
          have := hnext e he h1
          omega

/-- C8: over any run of MM cycles whose clock readings never decrease, every
cycle pushes at most one PLMN_SEARCH_REQUEST to RRC, and the readings of any two
cycles that pushed one are more than 50 ms (hence at least 50 ms) apart. The
registration request a cycle may send is taken not to push a PLMN search request
nor to touch the last-trigger time. -/
theorem plmn_search_request_throttled (reg : SendRegistration)
    (hreg : ∀ t f x, (reg t f x).m_lastPlmnSearchTrigger = x.m_lastPlmnSearchTrigger
      ∧ plmnSearchRequests (reg t f x) = plmnSearchRequests x)
    (s : NasMm) (nows : List Int) (hmono : nows.Pairwise (fun a b => a ≤ b)) :
    (∀ e ∈ cycleLog reg s nows, e.2 ≤ 1)
      ∧ (cycleLog reg s nows).Pairwise (fun a b => 1 ≤ a.2 → 1 ≤ b.2 → 50 ≤ b.1 - a.1)
      ∧ (cycleLog reg s nows).Pairwise (fun a b => 1 ≤ a.2 → 1 ≤ b.2 → 50 < b.1 - a.1) := by
  obtain ⟨h1, h2, _⟩ := cycleLog_spacing reg hreg nows s hmono
  exact ⟨h1, h2.imp (fun h ha hb => le_of_lt (h ha hb)), h2⟩

theorem plmn_search_request_throttled_witness :
    [10, 20, 60, 61, 100, 112, 150, 163].Pairwise (fun (a b : Int) => a ≤ b)
      ∧ (cycleLog sendRegistrationSpec (NasMm.ctor ⟨true, some 1⟩ sampleMm)
          [10, 20, 60, 61, 100, 112, 150, 163]).Pairwise
            (fun a b => 1 ≤ a.2 → 1 ≤ b.2 → 50 ≤ b.1 - a.1) :=
  ⟨by decide,
    (plmn_search_request_throttled sendRegistrationSpec (fun _ _ _ => ⟨rfl, rfl⟩)
      (NasMm.ctor ⟨true, some 1⟩ sampleMm) [10, 20, 60, 61, 100, 112, 150, 163]
      (by decide)).2.1⟩

end nr.ue

namespace nr.gnb

/-! ## NG Setup and the NGAP_IS_UP notification -/

theorem findAmfContext_updateAmfTable (amfId : Int) (f : NgapAmfContext → NgapAmfContext)
    (tbl : List (Int × NgapAmfContext)) :
    ((updateAmfTable amfId f tbl).find? fun e => e.1 = amfId)
      = (tbl.find? fun e => e.1 = amfId).map fun e => (e.1, f e.2) := by
  induction tbl with
  | nil => rfl
  | cons e rest ih =>
    by_cases h : e.1 = amfId
    · simp [updateAmfTable, h, List.find?_cons]
    · simp [updateAmfTable, h, List.find?_cons, ih]

theorem mem_updateAmfTable_of_ne (amfId : Int) (f : NgapAmfContext → NgapAmfContext)
    (tbl : List (Int × NgapAmfContext)) (e : Int × NgapAmfContext) (he : e ∈ tbl)
    (hne : e.1 ≠ amfId) : e ∈ updateAmfTable amfId f tbl := by
  induction tbl with
  | nil => cases he
  | cons x rest ih =>
    rcases List.mem_cons.1 he with rfl | h
    · simp [updateAmfTable, hne]
    · by_cases hx : x.1 = amfId
      · simp [updateAmfTable, hx, h]
      · simp [updateAmfTable, hx, ih h]

/-- The AMF table left by an NG Setup Response for `amfId`. -/
theorem receiveNgSetupResponse_table (amfId : Int) (msg : ASN_NGSetupResponse) (t : NgapTask)
    (amf : NgapAmfContext) (hfind : findAmfContext amfId t = some amf) :
    (receiveNgSetupResponse amfId msg t).m_amfCtx
        = updateAmfTable amfId (fun a => { a with state := EAmfState.CONNECTED })
            (updateAmfTable amfId (AssignDefaultAmfConfigs msg.ies) t.m_amfCtx) := by
  have hfind1 : findAmfContext amfId
      (t.logLine LogLevel.debug "NG Setup Response received" [] none) = some amf := hfind
  unfold receiveNgSetupResponse
  simp only [hfind1]
  split <;> rfl

/-- The exact effect of an NG Setup Response for a known AMF. -/
theorem receiveNgSetupResponse_known (amfId : Int) (msg : ASN_NGSetupResponse) (t : NgapTask)
    (amf : NgapAmfContext) (hfind : findAmfContext amfId t = some amf) :
    (receiveNgSetupResponse amfId msg t).m_isInitialized
          = (t.m_isInitialized || allAmfConnected (receiveNgSetupResponse amfId msg t))
      ∧ (receiveNgSetupResponse amfId msg t).appTask
          = t.appTask ++
              (if !t.m_isInitialized && allAmfConnected (receiveNgSetupResponse amfId msg t)
                then [NwGnbStatusUpdate.NGAP_IS_UP true] else [])
      ∧ (receiveNgSetupResponse amfId msg t).rrcTask
          = t.rrcTask ++
              (if !t.m_isInitialized && allAmfConnected (receiveNgSetupResponse amfId msg t)
                then [NwGnbNgapToRrc.NGAP_LAYER_INITIALIZED] else []) := by
  have htbl := receiveNgSetupResponse_table amfId msg t amf hfind
  have hall : allAmfConnected (receiveNgSetupResponse amfId msg t)
      = (updateAmfTable amfId (fun a => { a with state := EAmfState.CONNECTED })
          (updateAmfTable amfId (AssignDefaultAmfConfigs msg.ies) t.m_amfCtx)).all
          fun amfCtx => amfCtx.2.state = EAmfState.CONNECTED := by
    unfold allAmfConnected; rw [htbl]
  rw [hall]
  have hfind1 : findAmfContext amfId
      (t.logLine LogLevel.debug "NG Setup Response received" [] none) = some amf := hfind
  unfold receiveNgSetupResponse
  simp only [hfind1]
  cases hinit : t.m_isInitialized <;>
    cases hc : (updateAmfTable amfId (fun a => { a with state := EAmfState.CONNECTED })
          (updateAmfTable amfId (AssignDefaultAmfConfigs msg.ies) t.m_amfCtx)).all
          fun amfCtx => amfCtx.2.state = EAmfState.CONNECTED <;>
    simp [NgapTask.logLine, updateAmf, allAmfConnected, hinit, hc]

/-- C2: an NG Setup Response for a known AMF leaves that AMF CONNECTED; it appends
exactly one NGAP_IS_UP to the App task and exactly one NGAP_LAYER_INITIALIZED to
the RRC task when NGAP was not yet initialised and every AMF context of the
updated table is CONNECTED, and appends nothing to either task otherwise; in
particular nothing is posted while another AMF of the table is not CONNECTED. -/
theorem receiveNgSetupResponse_marks_and_posts (amfId : Int) (msg : ASN_NGSetupResponse)
    (t : NgapTask) (amf : NgapAmfContext) (hfind : findAmfContext amfId t = some amf) :
    (∃ amf1, findAmfContext amfId (receiveNgSetupResponse amfId msg t) = some amf1
        ∧ amf1.state = EAmfState.CONNECTED)
      ∧ ((t.m_isInitialized = false
            ∧ ∀ e ∈ (receiveNgSetupResponse amfId msg t).m_amfCtx,
                e.2.state = EAmfState.CONNECTED) →
          (receiveNgSetupResponse amfId msg t).appTask
              = t.appTask ++ [NwGnbStatusUpdate.NGAP_IS_UP true]
            ∧ (receiveNgSetupResponse amfId msg t).rrcTask
              = t.rrcTask ++ [NwGnbNgapToRrc.NGAP_LAYER_INITIALIZED])
      ∧ (¬ (t.m_isInitialized = false
            ∧ ∀ e ∈ (receiveNgSetupResponse amfId msg t).m_amfCtx,
                e.2.state = EAmfState.CONNECTED) →
          (receiveNgSetupResponse amfId msg t).appTask = t.appTask
            ∧ (receiveNgSetupResponse amfId msg t).rrcTask = t.rrcTask)
      ∧ (∀ other ∈ t.m_amfCtx, other.1 ≠ amfId → other.2.state ≠ EAmfState.CONNECTED →
          (receiveNgSetupResponse amfId msg t).appTask = t.appTask
            ∧ (receiveNgSetupResponse amfId msg t).rrcTask = t.rrcTask) := by
  have htbl := receiveNgSetupResponse_table amfId msg t amf hfind
  obtain ⟨_, happ, hrrc⟩ := receiveNgSetupResponse_known amfId msg t amf hfind
  have hallIff : allAmfConnected (receiveNgSetupResponse amfId msg t) = true
      ↔ ∀ e ∈ (receiveNgSetupResponse amfId msg t).m_amfCtx,
          e.2.state = EAmfState.CONNECTED := by
    simp [allAmfConnected, List.all_eq_true]
  have hno : ¬ (t.m_isInitialized = false
        ∧ ∀ e ∈ (receiveNgSetupResponse amfId msg t).m_amfCtx,
            e.2.state = EAmfState.CONNECTED) →
      (receiveNgSetupResponse amfId msg t).appTask = t.appTask
        ∧ (receiveNgSetupResponse amfId msg t).rrcTask = t.rrcTask := by
    intro hn
    have hcond : (!t.m_isInitialized
        && allAmfConnected (receiveNgSetupResponse amfId msg t)) = false := by
      cases hi : t.m_isInitialized
      · cases hc : allAmfConnected (receiveNgSetupResponse amfId msg t)
        · rfl
        · exact absurd ⟨hi, hallIff.1 hc⟩ hn
      · rfl
    rw [happ, hrrc, hcond]; simp
  refine ⟨?_, ?_, hno, ?_⟩
  · have hf : findAmfContext amfId t = some amf := hfind
    unfold findAmfContext at hf ⊢
    rw [htbl, findAmfContext_updateAmfTable, findAmfContext_updateAmfTable]
    cases hx : t.m_amfCtx.find? fun e => e.1 = amfId with
    | none => rw [hx] at hf; cases hf
    | some e => exact ⟨_, rfl, rfl⟩
  · rintro ⟨hi, hall⟩
    have hc := hallIff.2 hall
    rw [happ, hrrc, hi, hc]; simp
  · intro other hmem hne hstate
    apply hno
    rintro ⟨_, hall⟩
    have h1 := mem_updateAmfTable_of_ne amfId (AssignDefaultAmfConfigs msg.ies) _ other hmem hne
    have h2 := mem_updateAmfTable_of_ne amfId
      (fun a => { a with state := EAmfState.CONNECTED }) _ other h1 hne
    rw [← htbl] at h2
    exact hstate (hall other h2)

theorem receiveNgSetupResponse_marks_and_posts_witness :
    findAmfContext 1 (sampleNgap [1]) = some (sampleAmf 1)
      ∧ (receiveNgSetupResponse 1 sampleSetupResponse (sampleNgap [1])).appTask
          = [NwGnbStatusUpdate.NGAP_IS_UP true]
      ∧ (receiveNgSetupResponse 1 sampleSetupResponse (sampleNgap [1])).rrcTask
          = [NwGnbNgapToRrc.NGAP_LAYER_INITIALIZED]
      ∧ (receiveNgSetupResponse 1 sampleSetupResponse (sampleNgap [1, 2])).appTask = []
      ∧ (receiveNgSetupResponse 1 sampleSetupResponse (sampleNgap [1, 2])).rrcTask = [] :=
  ⟨by decide,
    ((receiveNgSetupResponse_marks_and_posts 1 sampleSetupResponse (sampleNgap [1])
      (sampleAmf 1) (by decide)).2.1 ⟨rfl, by decide⟩).1,
    ((receiveNgSetupResponse_marks_and_posts 1 sampleSetupResponse (sampleNgap [1])
      (sampleAmf 1) (by decide)).2.1 ⟨rfl, by decide⟩).2,
    ((receiveNgSetupResponse_marks_and_posts 1 sampleSetupResponse (sampleNgap [1, 2])
      (sampleAmf 1) (by decide)).2.2.2 (2, sampleAmf 2) (by decide) (by decide)
      (by decide)).1,
    ((receiveNgSetupResponse_marks_and_posts 1 sampleSetupResponse (sampleNgap [1, 2])
      (sampleAmf 1) (by decide)).2.2.2 (2, sampleAmf 2) (by decide) (by decide)
      (by decide)).2⟩

/-! ## NGAP_IS_UP over runs of handler invocations -/

theorem sendNgSetupRequest_frame (amfId : Int) (t : NgapTask) :
    (sendNgSetupRequest amfId t).appTask = t.appTask
      ∧ (sendNgSetupRequest amfId t).m_isInitialized = t.m_isInitialized := by
  unfold sendNgSetupRequest
  simp only []
  split <;> exact ⟨rfl, rfl⟩

/-- Every handler other than an NG Setup Response leaves the App task's queue
and the initialisation flag alone. -/
theorem call_frame (t : NgapTask) (c : NgapCall)
    (hc : ∀ amfId msg, c ≠ NgapCall.ngSetupResponse amfId msg) :
    (t.call c).appTask = t.appTask ∧ (t.call c).m_isInitialized = t.m_isInitialized := by
  cases c with
  | associationSetup amfId ascId inCount outCount =>
    simp only [NgapTask.call, handleAssociationSetup]
    split
    · rw [(sendNgSetupRequest_frame _ _).1, (sendNgSetupRequest_frame _ _).2]
      exact ⟨rfl, rfl⟩
    · exact ⟨rfl, rfl⟩
  | associationShutdown amfId =>
    simp only [NgapTask.call, handleAssociationShutdown]
    split <;> exact ⟨rfl, rfl⟩
  | ngSetupResponse amfId msg => exact absurd rfl (hc amfId msg)
  | ngSetupFailure amfId msg =>
    simp only [NgapTask.call, receiveNgSetupFailure]
    (repeat' split) <;> exact ⟨rfl, rfl⟩
  | errorIndication amfId msg =>
    simp only [NgapTask.call, receiveErrorIndication]
    (repeat' split) <;> exact ⟨rfl, rfl⟩
  | sendErrorIndication amfId cause ueId =>
    simp only [NgapTask.call, sendErrorIndication]
    split <;> exact ⟨rfl, rfl⟩
  | amfConfigurationUpdate amfId msg =>
    simp only [NgapTask.call, receiveAmfConfigurationUpdate]
    (repeat' split) <;> exact ⟨rfl, rfl⟩
  | overloadStart amfId msg =>
    simp only [NgapTask.call, receiveOverloadStart]
    (repeat' split) <;> exact ⟨rfl, rfl⟩
  | overloadStop amfId msg => exact ⟨rfl, rfl⟩

/-- A completing NG Setup Response appends one NGAP_IS_UP unless NGAP was
initialised before; no other invocation touches the App task's queue. -/
theorem call_effect (t : NgapTask) (c : NgapCall) :
    (t.call c).appTask = t.appTask ++
        (if !t.m_isInitialized && completesNgSetup t c
          then [NwGnbStatusUpdate.NGAP_IS_UP true] else [])
      ∧ (t.call c).m_isInitialized = (t.m_isInitialized || completesNgSetup t c) := by
  by_cases hc : ∃ amfId msg, c = NgapCall.ngSetupResponse amfId msg
  · obtain ⟨amfId, msg, rfl⟩ := hc
    simp only [NgapTask.call, completesNgSetup]
    obtain hfind | ⟨amf, hfind⟩ := Option.eq_none_or_eq_some (findAmfContext amfId t)
    · have hfind1 : findAmfContext amfId
          (t.logLine LogLevel.debug "NG Setup Response received" [] none) = none := hfind
      have hs : (findAmfContext amfId t).isSome = false := by rw [hfind]; rfl
      have hr : receiveNgSetupResponse amfId msg t
          = t.logLine LogLevel.debug "NG Setup Response received" [] none := by
        unfold receiveNgSetupResponse
        simp only [hfind1]
      simp only [hr, hs]
      simp [NgapTask.logLine]
    · obtain ⟨h1, h2, _⟩ := receiveNgSetupResponse_known amfId msg t amf hfind
      have hs : (findAmfContext amfId t).isSome = true := by rw [hfind]; rfl
      simp [hs, h1, h2]
  · have hne : ∀ amfId msg, c ≠ NgapCall.ngSetupResponse amfId msg :=
      fun amfId msg h => hc ⟨amfId, msg, h⟩
    have hfalse : completesNgSetup t c = false := by
      cases c <;> first | rfl | exact absurd rfl (hne _ _)
    obtain ⟨h1, h2⟩ := call_frame t c hne
    rw [h1, h2, hfalse]; simp

theorem ngapIsUpCount_call (t : NgapTask) (c : NgapCall) :
    ngapIsUpCount (t.call c)
      = ngapIsUpCount t + (if !t.m_isInitialized && completesNgSetup t c then 1 else 0) := by
  unfold ngapIsUpCount
  rw [(call_effect t c).1, List.countP_append]
  split <;> simp

theorem run_snoc (t : NgapTask) (pre : List NgapCall) (c : NgapCall) :
    t.run (pre ++ [c]) = (t.run pre).call c := by
  simp [NgapTask.run, List.foldl_append]

/-- The initialisation flag records whether some earlier invocation completed
NG Setup, and the number of NGAP_IS_UP updates pushed follows the flag. -/
theorem run_invariant (t0 : NgapTask) (h0 : t0.m_isInitialized = false) (calls : List NgapCall) :
    ((t0.run calls).m_isInitialized = true ↔
        ∃ p1 d p2, calls = p1 ++ d :: p2 ∧ completesNgSetup (t0.run p1) d = true)
      ∧ ngapIsUpCount (t0.run calls)
          = ngapIsUpCount t0 + (if (t0.run calls).m_isInitialized then 1 else 0) := by
  induction calls using List.reverseRecOn with
  | nil => simp [NgapTask.run, h0]
  | append_singleton pre c ih =>
    obtain ⟨ihflag, ihcount⟩ := ih
    rw [run_snoc]
    have hflag := (call_effect (t0.run pre) c).2
    constructor
    · rw [hflag]
      constructor
      · intro h
        cases hi : (t0.run pre).m_isInitialized
        · rw [hi] at h
          exact ⟨pre, c, [], rfl, by simpa using h⟩
        · obtain ⟨p1, d, p2, hsplit, hd⟩ := ihflag.1 hi
          exact ⟨p1, d, p2 ++ [c], by rw [hsplit]; simp, hd⟩
      · rintro ⟨p1, d, p2, hsplit, hd⟩
        rcases List.eq_nil_or_concat p2 with rfl | ⟨p2a, x, rfl⟩
        · have hh := List.append_inj' hsplit rfl
          obtain ⟨hp, hc⟩ := hh
          have hc1 : c = d := by simpa using hc
          subst hp; subst hc1
          simp [hd]
        · have hsplit1 : pre ++ [c] = (p1 ++ d :: p2a) ++ [x] := by
            rw [hsplit]; simp
          have hh := List.append_inj' hsplit1 rfl
          have : (t0.run pre).m_isInitialized = true := ihflag.2 ⟨p1, d, p2a, hh.1, hd⟩
          simp [this]
    · rw [ngapIsUpCount_call, ihcount, hflag]
      cases (t0.run pre).m_isInitialized <;> cases completesNgSetup (t0.run pre) c <;> rfl

/-- C3 (as stated, refuted): with AMFs 1 and 2 configured, after an NG Setup
Response for AMF 1 and the shutdown of AMF 2's association every AMF context of
the table is CONNECTED for the first time, yet no NGAP_IS_UP was pushed; in the
opposite order NGAP_IS_UP is pushed although the configured AMF 2 never was
CONNECTED; and a run in which NG Setup only fails pushes none. -/
theorem ngapIsUp_not_at_first_all_connected :
    (allAmfConnected ((sampleNgap [1, 2]).run
          [NgapCall.ngSetupResponse 1 sampleSetupResponse]) = false
        ∧ allAmfConnected ((sampleNgap [1, 2]).run
          [NgapCall.ngSetupResponse 1 sampleSetupResponse,
            NgapCall.associationShutdown 2]) = true
        ∧ ngapIsUpCount ((sampleNgap [1, 2]).run
          [NgapCall.ngSetupResponse 1 sampleSetupResponse,
            NgapCall.associationShutdown 2]) = 0)
      ∧ (ngapIsUpCount ((sampleNgap [1, 2]).run
          [NgapCall.associationShutdown 2,
            NgapCall.ngSetupResponse 1 sampleSetupResponse]) = 1
        ∧ findAmfContext 2 ((sampleNgap [1, 2]).run
          [NgapCall.associationShutdown 2,
            NgapCall.ngSetupResponse 1 sampleSetupResponse]) = none)
      ∧ ngapIsUpCount ((sampleNgap [1]).run
          [NgapCall.associationSetup 1 1 2 2, NgapCall.ngSetupFailure 1 ⟨none⟩]) = 0 := by
  decide

/-- C3 (amended): over every sequence of handler invocations from a task that is
not yet initialised, NGAP_IS_UP is pushed at most once; it is pushed once in
all exactly when some invocation completes NG Setup (an NG Setup Response for a
known AMF after which every AMF context of the table is CONNECTED); and an
invocation pushes it exactly when it is the first such invocation of the run,
every other invocation leaving the App task's queue as it was. -/
theorem ngapIsUp_pushed_at_first_completion (t0 : NgapTask)
    (h0 : t0.m_isInitialized = false) (calls : List NgapCall) :
    ngapIsUpCount (t0.run calls) ≤ ngapIsUpCount t0 + 1
      ∧ (ngapIsUpCount (t0.run calls) = ngapIsUpCount t0 + 1 ↔
          ∃ p1 d p2, calls = p1 ++ d :: p2 ∧ completesNgSetup (t0.run p1) d = true)
      ∧ ∀ pre c post, calls = pre ++ c :: post →
          ((completesNgSetup (t0.run pre) c = true
              ∧ ∀ p1 d p2, pre = p1 ++ d :: p2 → completesNgSetup (t0.run p1) d = false) →
            ((t0.run pre).call c).appTask
              = (t0.run pre).appTask ++ [NwGnbStatusUpdate.NGAP_IS_UP true])
          ∧ (¬ (completesNgSetup (t0.run pre) c = true
              ∧ ∀ p1 d p2, pre = p1 ++ d :: p2 → completesNgSetup (t0.run p1) d = false) →
            ((t0.run pre).call c).appTask = (t0.run pre).appTask) := by
  obtain ⟨hflag, hcount⟩ := run_invariant t0 h0 calls
  refine ⟨?_, ?_, ?_⟩
  · rw [hcount]; split <;> omega
  · rw [hcount, ← hflag]
    cases (t0.run calls).m_isInitialized <;> simp
  · intro pre c post _
    obtain ⟨hpre, _⟩ := run_invariant t0 h0 pre
    have happ := (call_effect (t0.run pre) c).1
    constructor
    · rintro ⟨hc, hfirst⟩
      have hinit : (t0.run pre).m_isInitialized = false := by
        cases hi : (t0.run pre).m_isInitialized
        · rfl
        · obtain ⟨p1, d, p2, hsplit, hd⟩ := hpre.1 hi
          rw [hfirst p1 d p2 hsplit] at hd
          cases hd
      rw [happ, hinit, hc]; simp
    · intro hn
      have hcond : (!(t0.run pre).m_isInitialized && completesNgSetup (t0.run pre) c) = false := by
        cases hi : (t0.run pre).m_isInitialized
        · cases hc : completesNgSetup (t0.run pre) c
          · rfl
          · refine absurd ⟨hc, fun p1 d p2 hsplit => ?_⟩ hn
            cases hd : completesNgSetup (t0.run p1) d
            · rfl
            · have := hpre.2 ⟨p1, d, p2, hsplit, hd⟩
              rw [hi] at this
              cases this
        · rfl
      rw [happ, hcond]; simp

theorem ngapIsUp_pushed_at_first_completion_witness :
    (sampleNgap [1, 2]).m_isInitialized = false
      ∧ ngapIsUpCount ((sampleNgap [1, 2]).run
          [NgapCall.ngSetupResponse 1 sampleSetupResponse,
            NgapCall.ngSetupResponse 2 sampleSetupResponse,
            NgapCall.ngSetupFailure 1 ⟨none⟩,
            NgapCall.ngSetupResponse 1 sampleSetupResponse])
        ≤ ngapIsUpCount (sampleNgap [1, 2]) + 1 :=
  ⟨rfl, (ngapIsUp_pushed_at_first_completion (sampleNgap [1, 2]) rfl
      [NgapCall.ngSetupResponse 1 sampleSetupResponse,
        NgapCall.ngSetupResponse 2 sampleSetupResponse,
        NgapCall.ngSetupFailure 1 ⟨none⟩,
        NgapCall.ngSetupResponse 1 sampleSetupResponse]).1⟩

/-! ## The pause protocol of the command handler -/

theorem isAllPaused_spec (flags : Worker → Bool) :
    ((isAllPaused flags).1 = true ↔ ∀ w, flags w = true)
      ∧ ∀ e ∈ (isAllPaused flags).2, e.isPolling = true := by
  have hall : (∀ w, flags w = true) ↔ (flags Worker.GTP = true ∧ flags Worker.MR = true
      ∧ flags Worker.NGAP = true ∧ flags Worker.RRC = true ∧ flags Worker.SCTP = true) :=
    ⟨fun h => ⟨h _, h _, h _, h _, h _⟩,
      fun ⟨a, b, c, d, e⟩ w => by cases w <;> assumption⟩
  rw [hall]
  unfold isAllPaused
  cases flags Worker.GTP <;> cases flags Worker.MR <;> cases flags Worker.NGAP <;>
    cases flags Worker.RRC <;> cases flags Worker.SCTP <;>
    simp [CmdEvent.isPolling]

theorem emit_emit (h : GnbCmdHandler) (a b : List CmdEvent) :
    (h.emit a).emit b = h.emit (a ++ b) := by
  simp [GnbCmdHandler.emit, List.append_assoc]

/-- What the polling loop returns when it returns: the events it adds are
polling events; `true` comes from a poll that saw all five tasks confirmed in an
iteration entered before the deadline; `false` comes from a clock reading at or
past the deadline with no earlier poll confirming all five. -/
theorem pollLoop_spec (clock : Nat → Nat) (confirmed : Nat → Worker → Bool) (endTime : Nat) :
    ∀ (fuel k : Nat) (h : GnbCmdHandler) (r : Bool × GnbCmdHandler),
      pollLoop clock confirmed endTime fuel k (toU64 (clock k)) h = some r →
      ∃ polls, r.2 = h.emit polls ∧ (∀ e ∈ polls, e.isPolling = true)
        ∧ (r.1 = true → ∃ j, k ≤ j ∧ (∀ i, k ≤ i → i ≤ j → toU64 (clock i) < endTime)
            ∧ (∀ w, confirmed j w = true)
            ∧ ∀ i, k ≤ i → i < j → ¬ ∀ w, confirmed i w = true)
        ∧ (r.1 = false → ∃ j, k ≤ j ∧ endTime ≤ toU64 (clock j)
            ∧ ∀ i, k ≤ i → i < j →
                toU64 (clock i) < endTime ∧ ¬ ∀ w, confirmed i w = true) := by
  intro fuel
  induction fuel with
  | zero => intro k h r hr; simp [pollLoop] at hr
  | succ fuel ih =>
    intro k h r hr
    unfold pollLoop at hr
    by_cases hguard : toU64 (clock k) < endTime
    · simp only [hguard, if_true] at hr
      obtain ⟨hiff, hpoll⟩ := isAllPaused_spec (confirmed k)
      by_cases hp : (isAllPaused (confirmed k)).1 = true
      · simp only [hp, if_true, Option.some.injEq] at hr
        subst hr
        refine ⟨(isAllPaused (confirmed k)).2, rfl, hpoll, fun _ => ?_, fun hf => by cases hf⟩
        refine ⟨k, le_refl k, fun i h1 h2 => ?_, hiff.1 hp, fun i h1 h2 => by omega⟩
        have : i = k := by omega
        subst this; exact hguard
      · simp only [hp] at hr
        obtain ⟨polls, hpolls, hall, htrue, hfalse⟩ := ih (k + 1) _ r hr
        refine ⟨(isAllPaused (confirmed k)).2 ++ [CmdEvent.sleep PAUSE_POLLING] ++ polls,
          ?_, ?_, ?_, ?_⟩
        · rw [hpolls, emit_emit, emit_emit, List.append_assoc]
        · intro e he
          rcases List.mem_append.1 he with he | he
          · rcases List.mem_append.1 he with he | he
            · exact hpoll e he
            · rw [List.mem_singleton.1 he]; rfl
          · exact hall e he
        · intro h1
          obtain ⟨j, hj, hg, hc, hn⟩ := htrue h1
          refine ⟨j, by omega, fun i h1 h2 => ?_, hc, fun i h1 h2 => ?_⟩
          · by_cases hik : i = k
            · subst hik; exact hguard
            · exact hg i (by omega) h2
          · by_cases hik : i = k
            · subst hik; exact fun hc => hp (hiff.2 hc)
            · exact hn i (by omega) h2
        · intro h1
          obtain ⟨j, hj, hg, hn⟩ := hfalse h1
          refine ⟨j, by omega, hg, fun i h1 h2 => ?_⟩
          by_cases hik : i = k
          · subst hik; exact ⟨hguard, fun hc => hp (hiff.2 hc)⟩
          · exact hn i (by omega) h2
    · simp only [hguard, if_false, Option.some.injEq] at hr
      subst hr
      refine ⟨[], ?_, ?_, ?_, ?_⟩
      · simp [GnbCmdHandler.emit]
      · intro e he; cases he
      · intro hf; cases hf
      · intro _
        exact ⟨k, le_refl k, Nat.le_of_not_lt hguard, fun i h1 h2 => by omega⟩

/-- The polling loop ends within `m + 1` iterations when iteration `k + m` would
find the deadline reached or all five tasks confirmed. -/
theorem pollLoop_returns (clock : Nat → Nat) (confirmed : Nat → Worker → Bool) (endTime : Nat) :
    ∀ (m k : Nat) (h : GnbCmdHandler),
      (endTime ≤ toU64 (clock (k + m)) ∨ ∀ w, confirmed (k + m) w = true) →
      (pollLoop clock confirmed endTime (m + 1) k (toU64 (clock k)) h).isSome = true := by
  intro m
  induction m with
  | zero =>
    intro k h hstop
    unfold pollLoop
    by_cases hguard : toU64 (clock k) < endTime
    · have hc : (isAllPaused (confirmed k)).1 = true := by
        rcases hstop with hs | hs
        · simp at hs; omega
        · exact (isAllPaused_spec (confirmed k)).1.2 (by simpa using hs)
      simp [hguard, hc]
    · simp [hguard]
  | succ m ih =>
    intro k h hstop
    unfold pollLoop
    by_cases hguard : toU64 (clock k) < endTime
    · by_cases hc : (isAllPaused (confirmed k)).1 = true
      · simp [hguard, hc]
      · simp only [hguard, if_true, hc]
        apply ih
        have : k + 1 + m = k + (m + 1) := by omega
        rw [this]; exact hstop
    · simp [hguard]

theorem handleCmdImpl_trace (msg : NwGnbCliCommand) (x : GnbCmdHandler) :
    ∃ evs, (handleCmdImpl msg x).trace = x.trace ++ CmdEvent.handleCmdImpl :: evs
      ∧ ∀ e ∈ evs, e.isPauseControl = false ∧ e.isPolling = false := by
  unfold handleCmdImpl
  cases msg.cmd.present
  case AMF_INFO =>
    simp only []
    split
    · exact ⟨_, by simp [sendError, GnbCmdHandler.emit]; rfl,
        by simp [CmdEvent.isPauseControl, CmdEvent.isPolling]⟩
    · split
      · exact ⟨_, by simp [sendResult, GnbCmdHandler.emit]; rfl,
          by simp [CmdEvent.isPauseControl, CmdEvent.isPolling]⟩
      · exact ⟨_, by simp [GnbCmdHandler.emit]; rfl,
          by simp [CmdEvent.isPauseControl, CmdEvent.isPolling]⟩
  all_goals
    exact ⟨_, by simp [sendResult, GnbCmdHandler.emit]; rfl,
      by simp [CmdEvent.isPauseControl, CmdEvent.isPolling]⟩

/-- The shape of every returning run of `handleCmd`: five pause requests, the
polling reads, then either the timeout error (the deadline was reached with no
poll confirming all five tasks) or `handleCmdImpl` (a poll in an iteration entered
before the deadline saw all five confirmed), then five unpause requests. -/
theorem handleCmd_trace (clock : Nat → Nat) (confirmed : Nat → Worker → Bool) (fuel : Nat)
    (msg : NwGnbCliCommand) (h h1 : GnbCmdHandler)
    (hret : handleCmd clock confirmed fuel msg h = some h1) :
    ∃ polls outcome, h1.trace = h.trace ++ (pauseEvents ++ polls ++ outcome ++ unpauseEvents)
      ∧ (∀ e ∈ polls, e.isPolling = true)
      ∧ ((outcome = [timeoutError msg]
            ∧ ∃ j, pauseDeadline clock ≤ toU64 (clock j)
                ∧ ∀ i, i < j → toU64 (clock i) < pauseDeadline clock
                    ∧ ¬ ∀ w, confirmed i w = true)
          ∨ ((∃ evs, outcome = CmdEvent.handleCmdImpl :: evs
                ∧ ∀ e ∈ evs, e.isPauseControl = false ∧ e.isPolling = false)
            ∧ ∃ j, (∀ i, i ≤ j → toU64 (clock i) < pauseDeadline clock)
                ∧ (∀ w, confirmed j w = true)
                ∧ ∀ i, i < j → ¬ ∀ w, confirmed i w = true)) := by
  unfold handleCmd at hret
  simp only [Option.map_eq_some'] at hret
  obtain ⟨r, hloop, hh1⟩ := hret
  obtain ⟨polls, hpolls, hall, htrue, hfalse⟩ :=
    pollLoop_spec clock confirmed _ fuel 0 (pauseTasks h) r hloop
  cases hr1 : r.1
  · obtain ⟨j, _, hdead, hbefore⟩ := hfalse hr1
    refine ⟨polls, [timeoutError msg], ?_, hall, Or.inl ⟨rfl, j, hdead, ?_⟩⟩
    · rw [← hh1, hr1, hpolls]
      simp [unpauseTasks, sendError, pauseTasks, GnbCmdHandler.emit, pauseEvents,
        unpauseEvents, timeoutError]
    · intro i hi; exact hbefore i (Nat.zero_le i) hi
  · obtain ⟨j, _, hg, hc, hn⟩ := htrue hr1
    obtain ⟨evs, hevs, hclean⟩ := handleCmdImpl_trace msg r.2
    refine ⟨polls, CmdEvent.handleCmdImpl :: evs, ?_, hall,
      Or.inr ⟨⟨evs, rfl, hclean⟩, j, fun i hi => hg i (Nat.zero_le i) hi, hc,
        fun i hi => hn i (Nat.zero_le i) hi⟩⟩
    rw [← hh1, hr1]
    simp only [Bool.not_true, Bool.false_eq_true, if_false, unpauseTasks, GnbCmdHandler.emit]
    rw [hevs, hpolls]
    simp [pauseTasks, GnbCmdHandler.emit, pauseEvents, unpauseEvents]

theorem isSampling_false_of_isPolling (e : CmdEvent) (h : e.isPolling = true) :
    e.isSampling = false := by
  cases e <;> first | rfl | cases h

theorem isPauseControl_false_of_isPolling (e : CmdEvent) (h : e.isPolling = true) :
    e.isPauseControl = false := by
  cases e <;> first | rfl | cases h

/-- C9: whenever `handleCmd` returns, its calls contain a read of another task's
state (`handleCmdImpl` and what it samples) only if some poll saw
`isPauseConfirmed()` true for all five worker tasks, in a loop iteration entered
while every clock reading so far was below the start time plus 3000 ms; and if
one task never confirms, none of its calls reads another task's state. -/
theorem handleCmd_samples_only_when_all_confirmed (clock : Nat → Nat)
    (confirmed : Nat → Worker → Bool) (fuel : Nat) (msg : NwGnbCliCommand)
    (h h1 : GnbCmdHandler) (hret : handleCmd clock confirmed fuel msg h = some h1) :
    ∃ new, h1.trace = h.trace ++ new
      ∧ ((∃ e ∈ new, e.isSampling = true) →
          ∃ j, (∀ i, i ≤ j → toU64 (clock i) < toU64 (toU64 (clock 0) + 3000))
            ∧ ∀ w, confirmed j w = true)
      ∧ ((∃ w, ∀ k, confirmed k w = false) → ∀ e ∈ new, e.isSampling = false) := by
  obtain ⟨polls, outcome, htrace, hpolls, hout⟩ :=
    handleCmd_trace clock confirmed fuel msg h h1 hret
  refine ⟨_, htrace, ?_, ?_⟩
  · rcases hout with ⟨hto, _⟩ | ⟨_, j, hg, hc, _⟩
    · rintro ⟨e, he, hs⟩
      exfalso
      subst hto
      simp only [List.mem_append] at he
      rcases he with ((he | he) | he) | he
      · simp [pauseEvents] at he
        rcases he with rfl | rfl | rfl | rfl | rfl <;> cases hs
      · rw [isSampling_false_of_isPolling e (hpolls e he)] at hs; cases hs
      · simp [timeoutError] at he
        subst he; cases hs
      · simp [unpauseEvents] at he
        rcases he with rfl | rfl | rfl | rfl | rfl <;> cases hs
    · intro _
      exact ⟨j, hg, hc⟩
  · rintro ⟨w, hw⟩ e he
    rcases hout with ⟨hto, _⟩ | ⟨_, j, _, hc, _⟩
    · subst hto
      simp only [List.mem_append] at he
      rcases he with ((he | he) | he) | he
      · simp [pauseEvents] at he
        rcases he with rfl | rfl | rfl | rfl | rfl <;> rfl
      · exact isSampling_false_of_isPolling e (hpolls e he)
      · simp [timeoutError] at he
        subst he; rfl
      · simp [unpauseEvents] at he
        rcases he with rfl | rfl | rfl | rfl | rfl <;> rfl
    · have := hc w
      rw [hw j] at this
      cases this

theorem handleCmd_samples_only_when_all_confirmed_witness :
    handleCmd sampleClock (fun k _ => decide (2 ≤ k)) 10 sampleUeCount sampleHandler
        = some (unpauseTasks (handleCmdImpl sampleUeCount
            ((pauseTasks sampleHandler).emit
              [CmdEvent.isPauseConfirmed Worker.GTP false, CmdEvent.sleep 10,
                CmdEvent.isPauseConfirmed Worker.GTP false, CmdEvent.sleep 10,
                CmdEvent.isPauseConfirmed Worker.GTP true,
                CmdEvent.isPauseConfirmed Worker.MR true,
                CmdEvent.isPauseConfirmed Worker.NGAP true,
                CmdEvent.isPauseConfirmed Worker.RRC true,
                CmdEvent.isPauseConfirmed Worker.SCTP true])))
      ∧ ∃ new, (unpauseTasks (handleCmdImpl sampleUeCount
            ((pauseTasks sampleHandler).emit
              [CmdEvent.isPauseConfirmed Worker.GTP false, CmdEvent.sleep 10,
                CmdEvent.isPauseConfirmed Worker.GTP false, CmdEvent.sleep 10,
                CmdEvent.isPauseConfirmed Worker.GTP true,
                CmdEvent.isPauseConfirmed Worker.MR true,
                CmdEvent.isPauseConfirmed Worker.NGAP true,
                CmdEvent.isPauseConfirmed Worker.RRC true,
                CmdEvent.isPauseConfirmed Worker.SCTP true]))).trace
          = sampleHandler.trace ++ new
        ∧ ((∃ e ∈ new, e.isSampling = true) →
            ∃ j, (∀ i, i ≤ j → toU64 (sampleClock i) < toU64 (toU64 (sampleClock 0) + 3000))
              ∧ ∀ w, (fun k (_ : Worker) => decide (2 ≤ k)) j w = true)
        ∧ ((∃ w, ∀ k, (fun k (_ : Worker) => decide (2 ≤ k)) k w = false) →
            ∀ e ∈ new, e.isSampling = false) :=
  ⟨by decide,
    handleCmd_samples_only_when_all_confirmed sampleClock (fun k _ => decide (2 ≤ k)) 10
      sampleUeCount sampleHandler _ (by decide)⟩

theorem count_eq_zero_of_forall {l : List CmdEvent} {x : CmdEvent} {p : CmdEvent → Bool}
    (hl : ∀ e ∈ l, p e = false) (hx : p x = true) : l.count x = 0 := by
  apply List.count_eq_zero_of_not_mem
  intro hmem
  rw [hl x hmem] at hx
  cases hx

/-- C10: for every command, once the polling ends (the deadline is reached or a
poll sees all five tasks confirmed) `handleCmd` returns, and every returning run
consists of the five `requestPause()` calls, then polling reads only, then
either the timeout error or `handleCmdImpl`, then the five `requestUnpause()`
calls: each worker task is asked to pause exactly once, before anything samples
state, and to unpause exactly once, after the command was handled or the error
was sent. -/
theorem handleCmd_pauses_then_unpauses (clock : Nat → Nat) (confirmed : Nat → Worker → Bool)
    (msg : NwGnbCliCommand) (h : GnbCmdHandler) (n : Nat)
    (hstop : toU64 (toU64 (clock 0) + 3000) ≤ toU64 (clock n) ∨ ∀ w, confirmed n w = true) :
    (∃ h1, handleCmd clock confirmed (n + 1) msg h = some h1)
      ∧ ∀ fuel h1, handleCmd clock confirmed fuel msg h = some h1 →
        ∃ polls outcome,
          h1.trace = h.trace ++ (pauseEvents ++ polls ++ outcome ++ unpauseEvents)
            ∧ (∀ e ∈ pauseEvents ++ polls, e.isSampling = false)
            ∧ (∀ e ∈ polls ++ outcome, e.isPauseControl = false)
            ∧ (outcome = [timeoutError msg] ∨ ∃ evs, outcome = CmdEvent.handleCmdImpl :: evs)
            ∧ ∀ w, (pauseEvents ++ polls ++ outcome ++ unpauseEvents).count
                  (CmdEvent.requestPause w) = 1
                ∧ (pauseEvents ++ polls ++ outcome ++ unpauseEvents).count
                  (CmdEvent.requestUnpause w) = 1 := by
  constructor
  · have hsome := pollLoop_returns clock confirmed (toU64 (toU64 (clock 0) + 3000)) n 0
      (pauseTasks h) (by simpa using hstop)
    obtain ⟨r, hr⟩ := Option.isSome_iff_exists.1 hsome
    exact ⟨_, by unfold handleCmd; simp only [PAUSE_CONFIRM_TIMEOUT]; rw [hr]; rfl⟩
  · intro fuel h1 hret
    obtain ⟨polls, outcome, htrace, hpolls, hout⟩ :=
      handleCmd_trace clock confirmed fuel msg h h1 hret
    have houtClean : ∀ e ∈ outcome, e.isPauseControl = false := by
      rcases hout with ⟨hto, _⟩ | ⟨⟨evs, hevs, hclean⟩, _⟩
      · subst hto; intro e he
        rw [List.mem_singleton.1 he]; rfl
      · subst hevs; intro e he
        rcases List.mem_cons.1 he with rfl | he
        · rfl
        · exact (hclean e he).1
    have hpollsClean : ∀ e ∈ polls, e.isPauseControl = false :=
      fun e he => isPauseControl_false_of_isPolling e (hpolls e he)
    refine ⟨polls, outcome, htrace, ?_, ?_, ?_, ?_⟩
    · intro e he
      rcases List.mem_append.1 he with he | he
      · simp [pauseEvents] at he
        rcases he with rfl | rfl | rfl | rfl | rfl <;> rfl
      · exact isSampling_false_of_isPolling e (hpolls e he)
    · intro e he
      rcases List.mem_append.1 he with he | he
      · exact hpollsClean e he
      · exact houtClean e he
    · rcases hout with ⟨hto, _⟩ | ⟨⟨evs, hevs, _⟩, _⟩
      · exact Or.inl hto
      · exact Or.inr ⟨evs, hevs⟩
    · intro w
      have c1 : polls.count (CmdEvent.requestPause w) = 0 :=
        count_eq_zero_of_forall hpollsClean rfl
      have c2 : outcome.count (CmdEvent.requestPause w) = 0 :=
        count_eq_zero_of_forall houtClean rfl
      have c3 : polls.count (CmdEvent.requestUnpause w) = 0 :=
        count_eq_zero_of_forall hpollsClean rfl
      have c4 : outcome.count (CmdEvent.requestUnpause w) = 0 :=
        count_eq_zero_of_forall houtClean rfl
      have c5 : pauseEvents.count (CmdEvent.requestPause w) = 1
          ∧ unpauseEvents.count (CmdEvent.requestPause w) = 0
          ∧ pauseEvents.count (CmdEvent.requestUnpause w) = 0
          ∧ unpauseEvents.count (CmdEvent.requestUnpause w) = 1 := by
        cases w <;> decide
      simp [List.count_append, c1, c2, c3, c4, c5.1, c5.2.1, c5.2.2.1, c5.2.2.2]

theorem handleCmd_pauses_then_unpauses_witness :
    (toU64 (toU64 (sampleClock 0) + 3000) ≤ toU64 (sampleClock 300)
        ∨ ∀ w, (fun (_ : Nat) (w : Worker) => decide (w ≠ Worker.SCTP)) 300 w = true)
      ∧ ∃ h1, handleCmd sampleClock (fun _ w => decide (w ≠ Worker.SCTP)) (300 + 1)
          sampleUeCount sampleHandler = some h1 :=
  ⟨Or.inl (by decide),
    (handleCmd_pauses_then_unpauses sampleClock (fun _ w => decide (w ≠ Worker.SCTP))
      sampleUeCount sampleHandler 300 (Or.inl (by decide))).1⟩

end nr.gnb

namespace nr.gnb

/-! ## AMF configuration update -/

/-- What `AssignDefaultAmfConfigs` stores: each information element that is
present replaces the stored value, each absent one leaves it. -/
theorem AssignDefaultAmfConfigs_spec (msg : AmfConfigIEs) (amf : NgapAmfContext) :
    (AssignDefaultAmfConfigs msg amf).amfName = msg.amfName.getD amf.amfName
      ∧ (AssignDefaultAmfConfigs msg amf).relativeCapacity
          = msg.relativeAMFCapacity.getD amf.relativeCapacity
      ∧ (AssignDefaultAmfConfigs msg amf).servedGuamiList
          = (msg.servedGUAMIList.map fun items =>
              items.map fun item => (⟨item.gUAMI, item.backupAMFName.getD ""⟩ : ServedGuami)).getD
              amf.servedGuamiList
      ∧ (AssignDefaultAmfConfigs msg amf).plmnSupportList
          = (msg.plmnSupportList.map fun items =>
              items.map fun item => (⟨item.pLMNIdentity, item.sliceSupportList⟩ : PlmnSupport)).getD
              amf.plmnSupportList
      ∧ (AssignDefaultAmfConfigs msg amf).state = amf.state
      ∧ (AssignDefaultAmfConfigs msg amf).ctxId = amf.ctxId := by
  unfold AssignDefaultAmfConfigs
  cases msg.amfName <;> cases msg.relativeAMFCapacity <;> cases msg.servedGUAMIList <;>
    cases msg.plmnSupportList <;> simp

theorem findAmfContext_updateAmf (amfId : Int) (f : NgapAmfContext → NgapAmfContext)
    (t : NgapTask) :
    findAmfContext amfId (updateAmf amfId f t) = (findAmfContext amfId t).map f := by
  unfold findAmfContext updateAmf
  simp only [findAmfContext_updateAmfTable]
  cases t.m_amfCtx.find? fun e => e.1 = amfId <;> rfl

/-- C13: for a known AMF, `receiveAmfConfigurationUpdate` makes exactly one
`sendNgapNonUe` call, to that AMF, and no UE-associated send: when one of the
three TNL lists is present and non-empty it sends an
AMFConfigurationUpdateFailure whose only IE is Cause = Transport_unspecified and
leaves the AMF table as it was; otherwise it stores the received AMF defaults
(each present information element replaces the stored value) and sends an
AMFConfigurationUpdateAcknowledge with an empty TNLAssociationSetupList. -/
theorem receiveAmfConfigurationUpdate_answers_once (amfId : Int)
    (msg : ASN_AMFConfigurationUpdate) (t : NgapTask) (amf : NgapAmfContext)
    (hfind : findAmfContext amfId t = some amf) :
    (((∃ l, msg.tnlAssociationToAddList = some l ∧ l ≠ [])
          ∨ (∃ l, msg.tnlAssociationToRemoveList = some l ∧ l ≠ [])
          ∨ (∃ l, msg.tnlAssociationToUpdateList = some l ∧ l ≠ [])) →
        (receiveAmfConfigurationUpdate amfId msg t).nonUeSent
            = t.nonUeSent ++ [(amfId,
                NgapPdu.amfConfigurationUpdateFailure [NgapCause.Transport_unspecified])]
          ∧ (receiveAmfConfigurationUpdate amfId msg t).m_amfCtx = t.m_amfCtx)
      ∧ (¬ ((∃ l, msg.tnlAssociationToAddList = some l ∧ l ≠ [])
          ∨ (∃ l, msg.tnlAssociationToRemoveList = some l ∧ l ≠ [])
          ∨ (∃ l, msg.tnlAssociationToUpdateList = some l ∧ l ≠ [])) →
        (receiveAmfConfigurationUpdate amfId msg t).nonUeSent
            = t.nonUeSent ++ [(amfId, NgapPdu.amfConfigurationUpdateAcknowledge [])]
          ∧ findAmfContext amfId (receiveAmfConfigurationUpdate amfId msg t)
              = some (AssignDefaultAmfConfigs msg.ies amf)
          ∧ (AssignDefaultAmfConfigs msg.ies amf).amfName = msg.ies.amfName.getD amf.amfName
          ∧ (AssignDefaultAmfConfigs msg.ies amf).relativeCapacity
              = msg.ies.relativeAMFCapacity.getD amf.relativeCapacity
          ∧ (∀ items, msg.ies.servedGUAMIList = some items →
              (AssignDefaultAmfConfigs msg.ies amf).servedGuamiList
                = items.map fun item => ⟨item.gUAMI, item.backupAMFName.getD ""⟩)
          ∧ (∀ items, msg.ies.plmnSupportList = some items →
              (AssignDefaultAmfConfigs msg.ies amf).plmnSupportList
                = items.map fun item => ⟨item.pLMNIdentity, item.sliceSupportList⟩))
      ∧ (receiveAmfConfigurationUpdate amfId msg t).ueSent = t.ueSent
      ∧ (receiveAmfConfigurationUpdate amfId msg t).sctpTask = t.sctpTask := by
  have hne : ∀ ie : Option (List Nat),
      (match ie with
        | some l => decide (l.length > 0)
        | none => false) = true ↔ ∃ l, ie = some l ∧ l ≠ [] := by
    intro ie
    cases ie with
    | none => simp
    | some l => cases l <;> simp
  have hfind1 : findAmfContext amfId
      (t.logLine LogLevel.debug "AMF configuration update received" [] none) = some amf := hfind
  obtain ⟨a1, a2, a3, a4, _, _⟩ := AssignDefaultAmfConfigs_spec msg.ies amf
  unfold receiveAmfConfigurationUpdate
  simp only [hfind1]
  by_cases hmod : (∃ l, msg.tnlAssociationToAddList = some l ∧ l ≠ [])
        ∨ (∃ l, msg.tnlAssociationToRemoveList = some l ∧ l ≠ [])
        ∨ (∃ l, msg.tnlAssociationToUpdateList = some l ∧ l ≠ [])
  · have hcond : ((match msg.tnlAssociationToAddList with
          | some l => decide (l.length > 0)
          | none => false)
        || (match msg.tnlAssociationToRemoveList with
          | some l => decide (l.length > 0)
          | none => false)
        || (match msg.tnlAssociationToUpdateList with
          | some l => decide (l.length > 0)
          | none => false)) = true := by
      simp only [Bool.or_eq_true, hne]
      rcases hmod with h | h | h
      · exact Or.inl (Or.inl h)
      · exact Or.inl (Or.inr h)
      · exact Or.inr h
    simp only [hcond, if_true]
    refine ⟨fun _ => ⟨rfl, rfl⟩, fun h => absurd hmod h, rfl, rfl⟩
  · have hcond : ((match msg.tnlAssociationToAddList with
          | some l => decide (l.length > 0)
          | none => false)
        || (match msg.tnlAssociationToRemoveList with
          | some l => decide (l.length > 0)
          | none => false)
        || (match msg.tnlAssociationToUpdateList with
          | some l => decide (l.length > 0)
          | none => false)) = false := by
      rw [Bool.eq_false_iff]
      intro h
      simp only [Bool.or_eq_true, hne] at h
      apply hmod
      rcases h with (h | h) | h
      · exact Or.inl h
      · exact Or.inr (Or.inl h)
      · exact Or.inr (Or.inr h)
    simp only [hcond]
    refine ⟨fun h => absurd h hmod, fun _ => ⟨rfl, ?_, a1, a2, ?_, ?_⟩, rfl, rfl⟩
    · show findAmfContext amfId (updateAmf amfId (AssignDefaultAmfConfigs msg.ies)
        (t.logLine LogLevel.debug "AMF configuration update received" [] none)) = _
      rw [findAmfContext_updateAmf, hfind1]; rfl
    · intro items hitems; rw [a3, hitems]; rfl
    · intro items hitems; rw [a4, hitems]; rfl

theorem receiveAmfConfigurationUpdate_answers_once_witness :
    findAmfContext 1 (sampleNgap [1]) = some (sampleAmf 1)
      ∧ (receiveAmfConfigurationUpdate 1 ⟨⟨some "AMF1", none, none, none⟩, some [5], none, none⟩
          (sampleNgap [1])).nonUeSent
        = (sampleNgap [1]).nonUeSent ++ [(1,
            NgapPdu.amfConfigurationUpdateFailure [NgapCause.Transport_unspecified])]
      ∧ (receiveAmfConfigurationUpdate 1 ⟨⟨some "AMF1", none, none, none⟩, some [5], none, none⟩
          (sampleNgap [1])).m_amfCtx = (sampleNgap [1]).m_amfCtx :=
  ⟨by decide,
    ((receiveAmfConfigurationUpdate_answers_once 1
      ⟨⟨some "AMF1", none, none, none⟩, some [5], none, none⟩ (sampleNgap [1]) (sampleAmf 1)
      (by decide)).1 (Or.inl ⟨[5], rfl, by decide⟩)).1,
    ((receiveAmfConfigurationUpdate_answers_once 1
      ⟨⟨some "AMF1", none, none, none⟩, some [5], none, none⟩ (sampleNgap [1]) (sampleAmf 1)
      (by decide)).1 (Or.inl ⟨[5], rfl, by decide⟩)).2⟩

end nr.gnb

namespace nr.gnb

/-! ## Overload start -/

theorem updateAmf_updateAmf (amfId : Int) (f g : NgapAmfContext → NgapAmfContext)
    (t : NgapTask) :
    updateAmf amfId g (updateAmf amfId f t) = updateAmf amfId (fun a => g (f a)) t := by
  unfold updateAmf
  simp only
  congr 1
  induction t.m_amfCtx with
  | nil => rfl
  | cons e rest ih =>
    by_cases h : e.1 = amfId
    · simp [updateAmfTable, h]
    · simp [updateAmfTable, h, ih]

theorem findAmfContext_logLine (amfId : Int) (level : LogLevel) (text : String)
    (args : List Int) (cause : Option NgapCause) (t : NgapTask) :
    findAmfContext amfId (t.logLine level text args cause) = findAmfContext amfId t := rfl

/-- C16 (evaluation at the failing input): two Overload Start messages for the
known AMF 1 that differ only in their per-NSSAI overload list leave the same
task state, and the stored overload info holds the status, the load reduction
and the action only: the branch that is to store the received per-NSSAI list is
an unfinished `// TODO`, so the list is dropped. -/
theorem receiveOverloadStart_drops_nssai_list :
    receiveOverloadStart 1
        ⟨some (ASN_OverloadResponse.overloadAction ASN_OverloadAction.reject_rrc_cr_signalling),
          some 50, some [⟨1, none⟩]⟩ (sampleNgap [1])
      = receiveOverloadStart 1
        ⟨some (ASN_OverloadResponse.overloadAction ASN_OverloadAction.reject_rrc_cr_signalling),
          some 50, some [⟨2, some 5⟩, ⟨3, none⟩]⟩ (sampleNgap [1])
    ∧ (findAmfContext 1 (receiveOverloadStart 1
        ⟨some (ASN_OverloadResponse.overloadAction ASN_OverloadAction.reject_rrc_cr_signalling),
          some 50, some [⟨1, none⟩]⟩ (sampleNgap [1]))).map (fun amf => amf.overloadInfo)
      = some ⟨EOverloadStatus.OVERLOADED, ⟨50, EOverloadAction.REJECT_SIGNALLING⟩⟩ := by
  decide

/-- What `receiveOverloadStart` stores, for every known AMF and message: status
OVERLOADED, the action corresponding to the received overloadAction (for each of
the four actions) and the received load-reduction percentage when that IE is
present; nothing of the state depends on the per-NSSAI overload list. -/
theorem receiveOverloadStart_stores (amfId : Int) (msg : ASN_OverloadStart) (t : NgapTask)
    (amf : NgapAmfContext) (hfind : findAmfContext amfId t = some amf) :
    (∃ amf1, findAmfContext amfId (receiveOverloadStart amfId msg t) = some amf1
        ∧ amf1.overloadInfo.status = EOverloadStatus.OVERLOADED
        ∧ (msg.overloadResponse = some (ASN_OverloadResponse.overloadAction
              ASN_OverloadAction.reject_non_emergency_mo_dt) →
            amf1.overloadInfo.indication.action = EOverloadAction.REJECT_NON_EMERGENCY_MO_DATA)
        ∧ (msg.overloadResponse = some (ASN_OverloadResponse.overloadAction
              ASN_OverloadAction.reject_rrc_cr_signalling) →
            amf1.overloadInfo.indication.action = EOverloadAction.REJECT_SIGNALLING)
        ∧ (msg.overloadResponse = some (ASN_OverloadResponse.overloadAction
              ASN_OverloadAction.permit_emergency_sessions_and_mobile_terminated_services_only) →
            amf1.overloadInfo.indication.action = EOverloadAction.ONLY_EMERGENCY_AND_MT)
        ∧ (msg.overloadResponse = some (ASN_OverloadResponse.overloadAction
              ASN_OverloadAction.permit_high_priority_sessions_and_mobile_terminated_services_only) →
            amf1.overloadInfo.indication.action = EOverloadAction.ONLY_HIGH_PRI_AND_MT)
        ∧ (∀ perc, msg.trafficLoadReductionIndication = some perc →
            amf1.overloadInfo.indication.loadReductionPerc = perc))
      ∧ ∀ nssai, receiveOverloadStart amfId { msg with overloadStartNSSAIList := nssai } t
          = receiveOverloadStart amfId msg t := by
  have hfind1 : findAmfContext amfId
      (t.logLine LogLevel.debug "AMF overload start received" [] none) = some amf := hfind
  refine ⟨?_, fun nssai => rfl⟩
  unfold receiveOverloadStart
  simp only [hfind1]
  rcases hresp : msg.overloadResponse with _ | (action | _) <;>
    rcases hperc : msg.trafficLoadReductionIndication with _ | perc
  all_goals first
    | (cases action <;>
        simp only [findAmfContext_updateAmf, findAmfContext_logLine, hfind1, Option.map_some'] <;>
        refine ⟨_, rfl, rfl, ?_, ?_, ?_, ?_, ?_⟩ <;>
        first
        | (intro q hq; cases hq <;> rfl)
        | (intro h; first | rfl | cases h))
    | (simp only [findAmfContext_updateAmf, findAmfContext_logLine, hfind1, Option.map_some']
       refine ⟨_, rfl, rfl, ?_, ?_, ?_, ?_, ?_⟩ <;>
        first
        | (intro q hq; cases hq <;> rfl)
        | (intro h; cases h))

end nr.gnb

namespace nr.ue

/-! ## Logging and cycle triggering of the switch operations -/

theorem onSwitchMmState_log (a b : EMmState) (c d : EMmSubState) (x : NasMm) :
    (∃ hook, (∀ e ∈ hook, e = LogEntry.debug "Deleting NAS security context")
        ∧ (onSwitchMmState a b c d x).log = x.log ++ hook)
      ∧ (onSwitchMmState a b c d x).nasTask = x.nasTask
      ∧ (onSwitchMmState a b c d x).nodeListener = x.nodeListener
      ∧ (onSwitchMmState a b c d x).m_cmState = x.m_cmState := by
  unfold onSwitchMmState logLine
  split_ifs
  · refine ⟨⟨[LogEntry.debug "Deleting NAS security context"], ?_, rfl⟩, rfl, rfl, rfl⟩
    intro e he
    exact List.mem_singleton.1 he
  · refine ⟨⟨[], ?_, ?_⟩, rfl, rfl, rfl⟩
    · intro e he; cases he
    · simp
  · refine ⟨⟨[], ?_, ?_⟩, rfl, rfl, rfl⟩
    · intro e he; cases he
    · simp

/-- The log and the NAS task queue after `switchMmState`: the hook may add its
debug line, the switch line follows exactly when state or sub-state changed, and
one PERFORM_MM_CYCLE is enqueued. -/
theorem switchMmState_log (state : EMmState) (subState : EMmSubState) (s : NasMm) :
    (∃ hook, (∀ e ∈ hook, e = LogEntry.debug "Deleting NAS security context")
        ∧ (switchMmState state subState s).log = s.log ++ hook ++
            (if state ≠ s.m_mmState ∨ subState ≠ s.m_mmSubState
              then [LogEntry.infoMmSwitch subState] else []))
      ∧ (switchMmState state subState s).nasTask
          = s.nasTask ++ [NwUeNasToNas.PERFORM_MM_CYCLE]
      ∧ (switchMmState state subState s).m_cmState = s.m_cmState := by
  obtain ⟨⟨hook, hhook, hlog⟩, hq, _, hcm⟩ := onSwitchMmState_log s.m_mmState state
    s.m_mmSubState subState { s with m_mmState := state, m_mmSubState := subState }
  unfold switchMmState triggerMmCycle logLine
  refine ⟨⟨hook, hhook, ?_⟩, ?_, ?_⟩
  · simp only []
    split_ifs <;> simp [hlog]
  · simp only []
    split_ifs <;> simp [hq]
  · simp only []
    split_ifs <;> simp [hcm]

theorem cmSwitchLogs_switchMmState (state : EMmState) (subState : EMmSubState) (s : NasMm) :
    cmSwitchLogs (switchMmState state subState s) = cmSwitchLogs s := by
  obtain ⟨⟨hook, hhook, hlog⟩, _, _⟩ := switchMmState_log state subState s
  unfold cmSwitchLogs
  rw [hlog, List.countP_append, List.countP_append]
  have h0 : hook.countP (fun e => match e with
      | LogEntry.infoCmSwitch _ => true
      | _ => false) = 0 := by
    rw [List.countP_eq_zero]
    intro e he
    rw [hhook e he]; simp
  rw [h0]
  split <;> simp

/-- The hook of `switchCmState` writes no CM switch line, only appends to the
NAS task queue and keeps the CM register. -/
theorem onSwitchCmState_effect (a b : ECmState) (x s2 : NasMm)
    (h : onSwitchCmState a b x = some s2) :
    cmSwitchLogs s2 = cmSwitchLogs x
      ∧ (∃ hook, s2.nasTask = x.nasTask ++ hook)
      ∧ s2.m_cmState = x.m_cmState := by
  have hsw : ∀ st sub,
      cmSwitchLogs (switchMmState st sub x) = cmSwitchLogs x
        ∧ (∃ hook, (switchMmState st sub x).nasTask = x.nasTask ++ hook)
        ∧ (switchMmState st sub x).m_cmState = x.m_cmState := fun st sub =>
    ⟨cmSwitchLogs_switchMmState st sub x, ⟨_, (switchMmState_log st sub x).2.1⟩,
      (switchMmState_log st sub x).2.2⟩
  unfold onSwitchCmState at h
  split_ifs at h with h1 h2 h3
  · simp only [Option.map_some', Option.some.injEq] at h
    subst h
    exact hsw _ _
  · cases hreq : x.m_lastDeregistrationRequest with
    | none => simp [hreq] at h
    | some req =>
      simp only [hreq] at h
      split_ifs at h
      · simp only [Option.map_some', Option.some.injEq] at h
        subst h
        exact hsw _ _
      · simp only [Option.map_some', Option.some.injEq] at h
        subst h
        exact ⟨rfl, ⟨[], by simp⟩, rfl⟩
  · simp only [Option.some.injEq] at h
    subst h
    exact ⟨rfl, ⟨[], by simp⟩, rfl⟩
  · simp only [Option.some.injEq] at h
    subst h
    exact ⟨rfl, ⟨[], by simp⟩, rfl⟩

/-- C19 (as stated, refuted): `switchRmState` to a different RM state writes no
log line. -/
theorem switchRmState_changed_not_logged :
    sampleMm.m_rmState ≠ ERmState.RM_DEREGISTERED
      ∧ (switchRmState ERmState.RM_DEREGISTERED sampleMm).m_rmState = ERmState.RM_DEREGISTERED
      ∧ (switchRmState ERmState.RM_DEREGISTERED sampleMm).log = sampleMm.log := by
  decide

/-- C19 (amended): `switchMmState`, `switchCmState` and `switchUState` log the
state switch if and only if the new value differs from the old one (for
`switchMmState`: the state or the sub-state), `switchRmState` never logs, and all
four enqueue a PERFORM_MM_CYCLE message to the NAS task as their last step
whether or not the value changed (`switchCmState` whenever it completes, which
it does when a de-registration request is cached). -/
theorem switch_operations_log_and_trigger (s : NasMm) :
    (∀ state subState,
        mmSwitchLogs (switchMmState state subState s) = mmSwitchLogs s
            + (if state ≠ s.m_mmState ∨ subState ≠ s.m_mmSubState then 1 else 0)
          ∧ (switchMmState state subState s).nasTask
              = s.nasTask ++ [NwUeNasToNas.PERFORM_MM_CYCLE])
      ∧ (∀ state,
          (switchRmState state s).log = s.log
            ∧ (switchRmState state s).nasTask = s.nasTask ++ [NwUeNasToNas.PERFORM_MM_CYCLE])
      ∧ (∀ state,
          (s.m_lastDeregistrationRequest.isSome = true → (switchCmState state s).isSome = true)
            ∧ ∀ s1, switchCmState state s = some s1 →
                cmSwitchLogs s1 = cmSwitchLogs s + (if state ≠ s.m_cmState then 1 else 0)
                  ∧ ∃ hook, s1.nasTask = s.nasTask ++ hook ++ [NwUeNasToNas.PERFORM_MM_CYCLE])
      ∧ (∀ state,
          (switchUState state s).log
              = s.log ++ (if state ≠ s.m_uState then [LogEntry.infoUSwitch state] else [])
            ∧ (switchUState state s).nasTask
              = s.nasTask ++ [NwUeNasToNas.PERFORM_MM_CYCLE]) := by
  refine ⟨fun state subState => ?_, fun state => ?_, fun state => ?_, fun state => ?_⟩
  · obtain ⟨⟨hook, hhook, hlog⟩, hq, _⟩ := switchMmState_log state subState s
    refine ⟨?_, hq⟩
    unfold mmSwitchLogs
    rw [hlog, List.countP_append, List.countP_append]
    have h0 : hook.countP (fun e => match e with
        | LogEntry.infoMmSwitch _ => true
        | _ => false) = 0 := by
      rw [List.countP_eq_zero]
      intro e he
      rw [hhook e he]; simp
    rw [h0]
    split <;> simp
  · unfold switchRmState onSwitchRmState triggerMmCycle
    simp only []
    constructor <;> split <;> rfl
  · constructor
    · intro hreq
      obtain ⟨req, hreq1⟩ := Option.isSome_iff_exists.1 hreq
      unfold switchCmState onSwitchCmState
      simp only [hreq1]
      split_ifs <;> rfl
    · intro s1 hs1
      unfold switchCmState at hs1
      simp only [Option.map_eq_some'] at hs1
      obtain ⟨s2, hs2, rfl⟩ := hs1
      obtain ⟨h1, ⟨hook, h2⟩, _⟩ := onSwitchCmState_effect _ _ _ s2 hs2
      unfold triggerMmCycle logLine
      constructor
      · unfold cmSwitchLogs at h1 ⊢
        simp only []
        split_ifs <;> simp [List.countP_append, h1, cmSwitchLogs]
      · refine ⟨hook, ?_⟩
        simp only []
        split_ifs <;> simp [h2]
  · unfold switchUState onSwitchUState triggerMmCycle logLine
    dsimp only
    constructor <;> split_ifs <;> simp

theorem switch_operations_log_and_trigger_witness :
    (switchUState E5UState.U2_NOT_UPDATED sampleMm).log
        = sampleMm.log ++ (if E5UState.U2_NOT_UPDATED ≠ sampleMm.m_uState
            then [LogEntry.infoUSwitch E5UState.U2_NOT_UPDATED] else [])
      ∧ (switchUState E5UState.U2_NOT_UPDATED sampleMm).nasTask
        = sampleMm.nasTask ++ [NwUeNasToNas.PERFORM_MM_CYCLE] :=
  (switch_operations_log_and_trigger sampleMm).2.2.2 E5UState.U2_NOT_UPDATED

end nr.ue

namespace nr.gnb

/-! ## Responses of the command handler -/

theorem cliResponses_append (a b : List CmdEvent) :
    cliResponses (a ++ b) = cliResponses a ++ cliResponses b := by
  simp [cliResponses, List.filterMap_append]

/-- The responses of `handleCmdImpl`: none for HANDOVERPREPARE and HANDOVER, and
exactly one, addressed to the requester, for every other command. -/
theorem handleCmdImpl_responses (msg : NwGnbCliCommand) (x : GnbCmdHandler) :
    ((msg.cmd.present = GnbCliCommandPR.HANDOVERPREPARE
          ∨ msg.cmd.present = GnbCliCommandPR.HANDOVER) →
        cliResponses (handleCmdImpl msg x).trace = cliResponses x.trace)
      ∧ (¬ (msg.cmd.present = GnbCliCommandPR.HANDOVERPREPARE
          ∨ msg.cmd.present = GnbCliCommandPR.HANDOVER) →
        ∃ r, cliResponses (handleCmdImpl msg x).trace = cliResponses x.trace ++ [r]
          ∧ r.address = msg.address) := by
  unfold handleCmdImpl
  cases hp : msg.cmd.present
  case AMF_INFO =>
    refine ⟨fun h => ?_, fun _ => ?_⟩
    · rcases h with h | h <;> cases h
    simp only []
    split
    · exact ⟨_, by simp [sendError, GnbCmdHandler.emit, cliResponses_append, cliResponses]; rfl,
        rfl⟩
    · rename_i hcount
      split
      · exact ⟨_, by simp [sendResult, GnbCmdHandler.emit, cliResponses_append, cliResponses]; rfl,
          rfl⟩
      · rename_i hnone
        exfalso
        apply hcount
        simp only [GnbCmdHandler.emit] at hnone
        simp [mapCount, GnbCmdHandler.emit, hnone]
  case HANDOVERPREPARE =>
    refine ⟨fun _ => ?_, fun h => absurd (Or.inl rfl) h⟩
    simp [GnbCmdHandler.emit, cliResponses_append, cliResponses]
  case HANDOVER =>
    refine ⟨fun _ => ?_, fun h => absurd (Or.inr rfl) h⟩
    simp [GnbCmdHandler.emit, cliResponses_append, cliResponses]
  all_goals
    refine ⟨fun h => ?_, fun _ => ?_⟩
    · rcases h with h | h <;> cases h
    exact ⟨_, by simp [sendResult, GnbCmdHandler.emit, cliResponses_append, cliResponses]; rfl,
      rfl⟩

/-- C20 (evaluation at the failing input): with all five tasks confirming pause at
the first poll, `handleCmd` for HANDOVERPREPARE and for HANDOVER returns having
pushed no response to the CLI callback task, where UE_COUNT pushes the one
result "3" to the requester. -/
theorem handleCmd_handover_sends_no_response :
    (handleCmd sampleClock (fun _ _ => true) 1 sampleHandoverPrepare sampleHandler).map
        (fun h => cliResponses h.trace) = some []
      ∧ (handleCmd sampleClock (fun _ _ => true) 1 sampleHandover sampleHandler).map
        (fun h => cliResponses h.trace) = some []
      ∧ (handleCmd sampleClock (fun _ _ => true) 1 sampleUeCount sampleHandler).map
        (fun h => cliResponses h.trace) = some [⟨7, CliOutput.text "3", false⟩] := by
  decide

end nr.gnb

namespace nr.ue

/-! ## Local release of PDU sessions -/

theorem length_arrayModify {α : Type} (f : α → α) (i : Nat) (l : List α) :
    (arrayModify f i l).length = l.length := by
  induction l generalizing i with
  | nil => simp [arrayModify]
  | cons x xs ih => cases i <;> simp [arrayModify, ih]

theorem getElem?_arrayModify {α : Type} (f : α → α) (i j : Nat) (l : List α) :
    (arrayModify f i l)[j]? = if j = i then l[j]?.map f else l[j]? := by
  induction l generalizing i j with
  | nil => simp [arrayModify]
  | cons x xs ih =>
    cases i with
    | zero => cases j <;> simp [arrayModify]
    | succ i => cases j <;> simp [arrayModify, ih]

/-- The exact effect of `localReleaseSession` on a slot inside the array. -/
theorem localReleaseSession_spec (psi : Int) (s : NasSm) (session : PduSession)
    (hget : arrayGet? s.m_pduSessions psi = some session) :
    ∃ s1, localReleaseSession psi s = some s1
      ∧ s1.m_pduSessions = arrayModify (fun x => { x with id := 0 }) psi.toNat s.m_pduSessions
      ∧ s1.appTask = s.appTask ++
          (if session.isEstablished = true then [NwUeStatusUpdate.SESSION_RELEASE psi] else []) := by
  unfold localReleaseSession
  simp only [hget]
  cases session.isEstablished <;> simp [freePduSessionId]

/-- C12: for every psi in 1..15 of the 16-slot table, `localReleaseSession(psi)`
returns with slot psi free (id 0) and every other slot as it was, and it pushes
exactly one SESSION_RELEASE with that psi to the App task if the slot was
established when the call began, and nothing if it was not. -/
theorem localReleaseSession_frees_and_notifies (psi : Int) (s : NasSm)
    (hlo : 1 ≤ psi) (hhi : psi ≤ 15) (hlen : s.m_pduSessions.length = 16) :
    ∃ session s1, arrayGet? s.m_pduSessions psi = some session
      ∧ localReleaseSession psi s = some s1
      ∧ arrayGet? s1.m_pduSessions psi = some { session with id := 0 }
      ∧ (∀ j : Int, j ≠ psi → arrayGet? s1.m_pduSessions j = arrayGet? s.m_pduSessions j)
      ∧ (session.isEstablished = true →
          s1.appTask = s.appTask ++ [NwUeStatusUpdate.SESSION_RELEASE psi])
      ∧ (session.isEstablished = false → s1.appTask = s.appTask) := by
  have hpos : 0 ≤ psi := by omega
  have hlt : psi.toNat < s.m_pduSessions.length := by omega
  have hget : arrayGet? s.m_pduSessions psi = some (s.m_pduSessions[psi.toNat]) := by
    simp [arrayGet?, hpos, List.getElem?_eq_getElem hlt]
  obtain ⟨s1, hs1, htbl, happ⟩ := localReleaseSession_spec psi s _ hget
  refine ⟨_, s1, hget, hs1, ?_, ?_, ?_, ?_⟩
  · simp [arrayGet?, hpos, htbl, getElem?_arrayModify, List.getElem?_eq_getElem hlt]
  · intro j hj
    unfold arrayGet?
    by_cases hj0 : 0 ≤ j
    · have hne : j.toNat ≠ psi.toNat := by omega
      simp [hj0, htbl, getElem?_arrayModify, hne]
    · simp [hj0]
  · intro hest; rw [happ, hest]; rfl
  · intro hest; rw [happ, hest]; simp

theorem localReleaseSession_frees_and_notifies_witness :
    (1 : Int) ≤ 2 ∧ (2 : Int) ≤ 15 ∧ sampleSm.m_pduSessions.length = 16
      ∧ ∃ session s1, arrayGet? sampleSm.m_pduSessions 2 = some session
        ∧ localReleaseSession 2 sampleSm = some s1
        ∧ arrayGet? s1.m_pduSessions 2 = some { session with id := 0 }
        ∧ (∀ j : Int, j ≠ 2 → arrayGet? s1.m_pduSessions j = arrayGet? sampleSm.m_pduSessions j)
        ∧ (session.isEstablished = true →
            s1.appTask = sampleSm.appTask ++ [NwUeStatusUpdate.SESSION_RELEASE 2])
        ∧ (session.isEstablished = false → s1.appTask = sampleSm.appTask) :=
  ⟨by decide, by decide, by decide,
    localReleaseSession_frees_and_notifies 2 sampleSm (by decide) (by decide) (by decide)⟩

end nr.ue

namespace nr.ue

theorem drop_arrayModify {α : Type} (f : α → α) (i k : Nat) (l : List α) (h : i < k) :
    (arrayModify f i l).drop k = l.drop k := by
  induction l generalizing i k with
  | nil => simp [arrayModify]
  | cons x xs ih =>
    cases k with
    | zero => omega
    | succ k =>
      cases i with
      | zero => simp [arrayModify]
      | succ i => simp [arrayModify, ih i k (by omega)]

theorem arrayGet?_natCast {α : Type} (l : List α) (i : Nat) :
    arrayGet? l (i : Int) = l[i]? := by
  simp [arrayGet?]

/-- The release loop from slot `i` on: it returns, frees every slot from `i` on,
leaves the earlier slots alone and pushes the releases owed for the slots it
visits. -/
theorem localReleaseAllSessions_loop_spec :
    ∀ (n i : Nat) (s : NasSm), i + n = 16 → s.m_pduSessions.length = 16 →
      (∀ (j : Nat) (session : PduSession), i ≤ j → s.m_pduSessions[j]? = some session →
        session.id = 0 ∨ session.id = j) →
      ∃ s1, localReleaseAllSessions.loop n i s = some s1
        ∧ s1.m_pduSessions.length = 16
        ∧ (∀ (j : Nat) (session : PduSession), i ≤ j → s1.m_pduSessions[j]? = some session →
            session.id = 0)
        ∧ (∀ j : Nat, j < i → s1.m_pduSessions[j]? = s.m_pduSessions[j]?)
        ∧ s1.appTask = s.appTask ++ owedReleases i (s.m_pduSessions.drop i) := by
  intro n
  induction n with
  | zero =>
    intro i s hi hlen _
    have hi16 : i = 16 := by omega
    refine ⟨s, rfl, hlen, ?_, fun _ _ => rfl, ?_⟩
    · intro j session hj hget
      have : s.m_pduSessions[j]? = none := List.getElem?_eq_none (by omega)
      rw [this] at hget; cases hget
    · have : s.m_pduSessions.drop i = [] := List.drop_eq_nil_of_le (by omega)
      rw [this]; simp [owedReleases]
  | succ n ih =>
    intro i s hi hlen hinv
    have hlt : i < s.m_pduSessions.length := by omega
    have hget : s.m_pduSessions[i]? = some (s.m_pduSessions[i]) := List.getElem?_eq_getElem hlt
    have hdrop : s.m_pduSessions.drop i = s.m_pduSessions[i] :: s.m_pduSessions.drop (i + 1) :=
      List.drop_eq_getElem_cons hlt
    unfold localReleaseAllSessions.loop
    simp only [hget]
    by_cases hid : (s.m_pduSessions[i]).id ≠ 0
    · rw [if_pos hid]
      have hidx : (s.m_pduSessions[i]).id = (i : Int) := by
        rcases hinv i _ (le_refl i) hget with h | h
        · exact absurd h hid
        · exact h
      rw [hidx]
      obtain ⟨s1, hs1, htbl, happ⟩ := localReleaseSession_spec (i : Int) s (s.m_pduSessions[i])
        (by rw [arrayGet?_natCast]; exact hget)
      simp only [Int.toNat_ofNat] at htbl
      rw [hs1]
      simp only [Option.some_bind]
      have hlen1 : s1.m_pduSessions.length = 16 := by rw [htbl, length_arrayModify]; exact hlen
      have hinv1 : ∀ (j : Nat) (session : PduSession), i + 1 ≤ j →
          s1.m_pduSessions[j]? = some session → session.id = 0 ∨ session.id = j := by
        intro j session hj hg
        rw [htbl, getElem?_arrayModify] at hg
        have hne : j ≠ i := by omega
        simp only [hne, if_false] at hg
        exact hinv j session (by omega) hg
      obtain ⟨s2, hs2, hlen2, hfree2, hkeep2, happ2⟩ := ih (i + 1) s1 (by omega) hlen1 hinv1
      refine ⟨s2, hs2, hlen2, ?_, ?_, ?_⟩
      · intro j session hj hg
        by_cases hji : j = i
        · subst hji
          rw [hkeep2 j (by omega), htbl, getElem?_arrayModify] at hg
          simp only [if_true, hget, Option.map_some', Option.some.injEq] at hg
          rw [← hg]
        · exact hfree2 j session (by omega) hg
      · intro j hj
        rw [hkeep2 j (by omega), htbl, getElem?_arrayModify]
        have hne : j ≠ i := by omega
        simp [hne]
      · rw [happ2, happ, htbl, drop_arrayModify _ _ _ _ (Nat.lt_succ_self i), hdrop]
        simp only [owedReleases, List.append_assoc]
        cases (s.m_pduSessions[i]).isEstablished <;> simp [hid]
    · rw [if_neg hid]
      have hinv1 : ∀ (j : Nat) (session : PduSession), i + 1 ≤ j →
          s.m_pduSessions[j]? = some session → session.id = 0 ∨ session.id = j :=
        fun j session hj hg => hinv j session (by omega) hg
      obtain ⟨s2, hs2, hlen2, hfree2, hkeep2, happ2⟩ := ih (i + 1) s (by omega) hlen hinv1
      refine ⟨s2, hs2, hlen2, ?_, fun j hj => hkeep2 j (by omega), ?_⟩
      · intro j session hj hg
        by_cases hji : j = i
        · subst hji
          rw [hkeep2 j (by omega), hget] at hg
          simp only [Option.some.injEq] at hg
          rw [← hg]
          exact not_not.1 hid
        · exact hfree2 j session (by omega) hg
      · rw [happ2, hdrop]
        simp [owedReleases, hid]

end nr.ue

namespace nr.ue

/-- Every owed release names a slot of the table. -/
theorem mem_owedReleases (k : Nat) (l : List PduSession) (m : NwUeStatusUpdate)
    (hm : m ∈ owedReleases k l) :
    ∃ psi : Nat, k ≤ psi ∧ psi < k + l.length ∧ m = NwUeStatusUpdate.SESSION_RELEASE psi := by
  induction l generalizing k with
  | nil => simp [owedReleases] at hm
  | cons x xs ih =>
    simp only [owedReleases, List.mem_append] at hm
    rcases hm with hm | hm
    · split_ifs at hm
      · exact ⟨k, le_refl k, by simp, List.mem_singleton.1 hm⟩
      · cases hm
    · obtain ⟨psi, h1, h2, h3⟩ := ih (k + 1) hm
      exact ⟨psi, by omega, by simp only [List.length_cons]; omega, h3⟩

/-- An occupied, established slot is owed exactly one release. -/
theorem count_owedReleases (k i : Nat) (l : List PduSession) (session : PduSession)
    (hget : l[i]? = some session) (hid : session.id ≠ 0) (hest : session.isEstablished = true) :
    (owedReleases k l).count (NwUeStatusUpdate.SESSION_RELEASE ((k + i : Nat) : Int)) = 1 := by
  induction l generalizing k i with
  | nil => simp at hget
  | cons x xs ih =>
    have htail : ∀ j : Nat, j ≤ k →
        (owedReleases (k + 1) xs).count (NwUeStatusUpdate.SESSION_RELEASE (j : Int)) = 0 := by
      intro j hj
      apply List.count_eq_zero_of_not_mem
      intro hmem
      obtain ⟨psi, h1, _, h3⟩ := mem_owedReleases (k + 1) xs _ hmem
      simp only [NwUeStatusUpdate.SESSION_RELEASE.injEq] at h3
      omega
    cases i with
    | zero =>
      simp only [List.getElem?_cons_zero, Option.some.injEq] at hget
      subst hget
      simp only [owedReleases, hid, hest, ne_eq, not_false_eq_true, and_self, if_true,
        List.count_append, Nat.add_zero]
      rw [htail k (le_refl k)]
      simp
    | succ i =>
      simp only [List.getElem?_cons_succ] at hget
      have := ih (k + 1) i hget
      simp only [owedReleases, List.count_append]
      have hk : k + 1 + i = k + (i + 1) := by omega
      rw [hk] at this
      rw [this]
      have hne : NwUeStatusUpdate.SESSION_RELEASE ((k + (i + 1) : Nat) : Int)
          ≠ NwUeStatusUpdate.SESSION_RELEASE (k : Int) := by
        intro h
        simp only [NwUeStatusUpdate.SESSION_RELEASE.injEq] at h
        omega
      split_ifs
      · rw [List.count_eq_zero_of_not_mem (fun hm => hne (List.mem_singleton.1 hm))]
      · simp

/-- Handling one SESSION_RELEASE for a slot inside the arrays: the App task
returns, the slot's TUN entry is null and the task that was there has been
quit; nothing else of the TUN array changes. -/
theorem receiveStatusUpdate_release (env : AppEnv) (psi : Nat) (app : UeAppTask)
    (hpsi : psi < 16) (htun : app.m_tunTasks.length = 16)
    (hses : app.m_pduSessions.length = 16) :
    ∃ app1, receiveStatusUpdate env (NwUeStatusUpdate.SESSION_RELEASE psi) app = some app1
      ∧ app1.m_tunTasks.length = 16 ∧ app1.m_pduSessions.length = 16
      ∧ app1.m_tunTasks[psi]? = some none
      ∧ (∀ t, app.m_tunTasks[psi]? = some (some t) → t ∈ app1.quitTasks)
      ∧ (∀ j : Nat, j ≠ psi → app1.m_tunTasks[j]? = app.m_tunTasks[j]?)
      ∧ (∀ t ∈ app.quitTasks, t ∈ app1.quitTasks) := by
  have h1 : psi < app.m_tunTasks.length := by omega
  have h2 : psi < app.m_pduSessions.length := by omega
  have g1 : app.m_tunTasks[psi]? = some (app.m_tunTasks[psi]) := List.getElem?_eq_getElem h1
  have g2 : app.m_pduSessions[psi]? = some (app.m_pduSessions[psi]) :=
    List.getElem?_eq_getElem h2
  unfold receiveStatusUpdate
  simp only [arrayGet?_natCast, g1, g2, Int.toNat_ofNat]
  cases ht : app.m_tunTasks[psi] with
  | none =>
    cases app.m_pduSessions[psi] with
    | none =>
      refine ⟨_, rfl, htun, hses, ?_, ?_, fun _ _ => rfl, fun _ h => h⟩
      · first | rfl | rw [g1, ht]
      · intro t h; cases h
    | some info =>
      refine ⟨_, rfl, htun, ?_, ?_, ?_, fun _ _ => rfl, fun _ h => h⟩
      · simp [hses]
      · first | rfl | (show app.m_tunTasks[psi]? = some none; rw [g1, ht])
      · intro t h; cases h
  | some task =>
    cases app.m_pduSessions[psi] with
    | none =>
      refine ⟨_, rfl, ?_, hses, ?_, ?_, ?_, ?_⟩
      · simp [htun]
      · simp [List.getElem?_set, h1]
      · intro t h
        simp only [Option.some.injEq] at h
        subst h; simp
      · intro j hj
        simp [List.getElem?_set, Ne.symm hj]
      · intro t h; simp [h]
    | some info =>
      refine ⟨_, rfl, ?_, ?_, ?_, ?_, ?_, ?_⟩
      · simp [htun]
      · simp [hses]
      · simp [List.getElem?_set, h1]
      · intro t h
        simp only [Option.some.injEq] at h
        subst h; simp
      · intro j hj
        simp [List.getElem?_set, Ne.symm hj]
      · intro t h; simp [h]

end nr.ue

namespace nr.ue

/-- Handling a sequence of SESSION_RELEASE updates for slots inside the arrays:
the App task returns; every TUN entry is either as before or null with the task
that was there quit; the entry of every released slot is null. -/
theorem receiveStatusUpdates_releases (env : AppEnv) :
    ∀ (msgs : List NwUeStatusUpdate) (app : UeAppTask),
      app.m_tunTasks.length = 16 → app.m_pduSessions.length = 16 →
      (∀ m ∈ msgs, ∃ psi : Nat, psi < 16 ∧ m = NwUeStatusUpdate.SESSION_RELEASE psi) →
      ∃ app1, receiveStatusUpdates env msgs app = some app1
        ∧ (∀ t ∈ app.quitTasks, t ∈ app1.quitTasks)
        ∧ (∀ j : Nat, app1.m_tunTasks[j]? = app.m_tunTasks[j]?
            ∨ (app1.m_tunTasks[j]? = some none
                ∧ ∀ t, app.m_tunTasks[j]? = some (some t) → t ∈ app1.quitTasks))
        ∧ (∀ psi : Nat, NwUeStatusUpdate.SESSION_RELEASE psi ∈ msgs →
            app1.m_tunTasks[psi]? = some none
              ∧ ∀ t, app.m_tunTasks[psi]? = some (some t) → t ∈ app1.quitTasks) := by
  intro msgs
  induction msgs with
  | nil =>
    intro app _ _ _
    exact ⟨app, rfl, fun _ h => h, fun _ => Or.inl rfl, fun _ h => by cases h⟩
  | cons m rest ih =>
    intro app htun hses hall
    obtain ⟨psi, hpsi, rfl⟩ := hall m (List.mem_cons_self _ _)
    obtain ⟨app1, hstep, htun1, hses1, hnull, hquit, hkeep, hmono⟩ :=
      receiveStatusUpdate_release env psi app hpsi htun hses
    obtain ⟨app2, hrest, hmono2, hslots2, hrel2⟩ :=
      ih app1 htun1 hses1 (fun x hx => hall x (List.mem_cons_of_mem _ hx))
    have hslot : ∀ j : Nat, app2.m_tunTasks[j]? = app.m_tunTasks[j]?
        ∨ (app2.m_tunTasks[j]? = some none
            ∧ ∀ t, app.m_tunTasks[j]? = some (some t) → t ∈ app2.quitTasks) := by
      intro j
      by_cases hj : j = psi
      · subst hj
        right
        refine ⟨?_, fun t ht => hmono2 t (hquit t ht)⟩
        rcases hslots2 j with h | h
        · rw [h, hnull]
        · exact h.1
      · rcases hslots2 j with h | h
        · left; rw [h, hkeep j hj]
        · right
          exact ⟨h.1, fun t ht => h.2 t (by rw [hkeep j hj]; exact ht)⟩
    refine ⟨app2, ?_, fun t ht => hmono2 t (hmono t ht), hslot, ?_⟩
    · simp only [receiveStatusUpdates, hstep, Option.some_bind]
      exact hrest
    · intro q hq
      rcases List.mem_cons.1 hq with hq | hq
      · simp only [NwUeStatusUpdate.SESSION_RELEASE.injEq, Nat.cast_inj] at hq
        subst hq
        rcases hslot q with h | h
        · refine ⟨?_, fun t ht => hmono2 t (hquit t ht)⟩
          rcases hslots2 q with h2 | h2
          · rw [h2, hnull]
          · exact h2.1
        · exact h
      · obtain ⟨h1, h2⟩ := hrel2 q hq
        refine ⟨h1, fun t ht => ?_⟩
        by_cases hj : q = psi
        · subst hj; exact hmono2 t (hquit t ht)
        · exact h2 t (by rw [hkeep q hj]; exact ht)

/-- C11: for a 16-slot session table in which every occupied slot carries its
own index as id, `localReleaseAllSessions` returns with every slot free (id 0),
having pushed to the App task exactly the releases owed: one SESSION_RELEASE
with its psi for every occupied, established slot, in slot order; and the App
task, handling those messages, returns with the TUN entry of every such slot
null and the TUN task that was there quit. -/
theorem localReleaseAllSessions_releases_all (env : AppEnv) (s : NasSm) (app : UeAppTask)
    (hlen : s.m_pduSessions.length = 16)
    (hinv : ∀ (i : Nat) (session : PduSession), s.m_pduSessions[i]? = some session →
      session.id = 0 ∨ session.id = i)
    (htun : app.m_tunTasks.length = 16) (hses : app.m_pduSessions.length = 16) :
    ∃ s1 app1, localReleaseAllSessions s = some s1
      ∧ s1.m_pduSessions.length = 16
      ∧ (∀ session ∈ s1.m_pduSessions, session.id = 0)
      ∧ s1.appTask = s.appTask ++ owedReleases 0 s.m_pduSessions
      ∧ (∀ m ∈ owedReleases 0 s.m_pduSessions,
          ∃ psi : Nat, psi < 16 ∧ m = NwUeStatusUpdate.SESSION_RELEASE psi)
      ∧ receiveStatusUpdates env (owedReleases 0 s.m_pduSessions) app = some app1
      ∧ ∀ (i : Nat) (session : PduSession), s.m_pduSessions[i]? = some session →
          session.id ≠ 0 → session.isEstablished = true →
          (owedReleases 0 s.m_pduSessions).count (NwUeStatusUpdate.SESSION_RELEASE i) = 1
            ∧ app1.m_tunTasks[i]? = some none
            ∧ ∀ t, app.m_tunTasks[i]? = some (some t) → t ∈ app1.quitTasks := by
  obtain ⟨s1, hs1, hlen1, hfree, _, happ⟩ :=
    localReleaseAllSessions_loop_spec 16 0 s rfl hlen (fun j session _ h => hinv j session h)
  have hmsgs : ∀ m ∈ owedReleases 0 s.m_pduSessions,
      ∃ psi : Nat, psi < 16 ∧ m = NwUeStatusUpdate.SESSION_RELEASE psi := by
    intro m hm
    obtain ⟨psi, _, h2, h3⟩ := mem_owedReleases 0 s.m_pduSessions m hm
    exact ⟨psi, by omega, h3⟩
  obtain ⟨app1, happ1, _, _, hrel⟩ :=
    receiveStatusUpdates_releases env (owedReleases 0 s.m_pduSessions) app htun hses hmsgs
  refine ⟨s1, app1, hs1, hlen1, ?_, by simpa using happ, hmsgs, happ1, ?_⟩
  · intro session hmem
    obtain ⟨j, hj, hget⟩ := List.getElem_of_mem hmem
    exact hfree j session (Nat.zero_le j) (by rw [List.getElem?_eq_getElem hj, hget])
  · intro i session hget hid hest
    have hcount := count_owedReleases 0 i s.m_pduSessions session hget hid hest
    simp only [Nat.zero_add] at hcount
    refine ⟨hcount, hrel i ?_⟩
    apply List.count_pos_iff.1
    rw [hcount]; exact Nat.one_pos

theorem localReleaseAllSessions_releases_all_witness :
    sampleSm.m_pduSessions.length = 16
      ∧ sampleApp.m_tunTasks.length = 16 ∧ sampleApp.m_pduSessions.length = 16
      ∧ owedReleases 0 sampleSm.m_pduSessions = [NwUeStatusUpdate.SESSION_RELEASE 2]
      ∧ ∃ s1 app1, localReleaseAllSessions sampleSm = some s1
        ∧ s1.m_pduSessions.length = 16
        ∧ (∀ session ∈ s1.m_pduSessions, session.id = 0)
        ∧ s1.appTask = sampleSm.appTask ++ owedReleases 0 sampleSm.m_pduSessions
        ∧ (∀ m ∈ owedReleases 0 sampleSm.m_pduSessions,
            ∃ psi : Nat, psi < 16 ∧ m = NwUeStatusUpdate.SESSION_RELEASE psi)
        ∧ receiveStatusUpdates sampleEnv (owedReleases 0 sampleSm.m_pduSessions) sampleApp
            = some app1
        ∧ ∀ (i : Nat) (session : PduSession), sampleSm.m_pduSessions[i]? = some session →
            session.id ≠ 0 → session.isEstablished = true →
            (owedReleases 0 sampleSm.m_pduSessions).count (NwUeStatusUpdate.SESSION_RELEASE i) = 1
              ∧ app1.m_tunTasks[i]? = some none
              ∧ ∀ t, sampleApp.m_tunTasks[i]? = some (some t) → t ∈ app1.quitTasks :=
  ⟨by decide, by decide, by decide, by decide,
    localReleaseAllSessions_releases_all sampleEnv sampleSm sampleApp (by decide)
      (by
        intro i session h
        have hi : i < 16 := by
          by_contra hge
          have : sampleSm.m_pduSessions[i]? = none :=
            List.getElem?_eq_none (by simp [sampleSm]; omega)
          rw [this] at h; cases h
        interval_cases i <;> simp [sampleSm, freeSlot, sampleSession] at h <;> subst h <;> simp)
      (by decide) (by decide)⟩

end nr.ue

namespace nr.ue

/-! ## Setting up the TUN interface -/

end nr.ue

namespace nr.gnb

/-! ## Xn handover path switch -/

/-- C14: `handleXnHandover` appends to the SCTP task's queue exactly one
SEND_MESSAGE, with clientId the AMF's context id, stream the UE's uplink stream
and the encoded bytes, when the UE context (of the UE id 3 it handles) and its
AMF context exist, the built PathSwitchRequest passes the constraint check and
the encoding succeeds; in every other case, in particular when the constraint
check fails, the SCTP task's queue is left as it was. -/
theorem handleXnHandover_sends (env : AsnEnv) (nodeListener : Bool) (t : NgapTask) :
    (∀ ue amf buffer, findUeContext 3 t = some ue →
        findAmfContext ue.associatedAmfId t = some amf →
        env.checkConstraints (handleXnHandover.insertIes env t.config ue) = true →
        env.encode (handleXnHandover.insertIes env t.config ue) = some buffer →
        (handleXnHandover env nodeListener t).1.sctpTask
          = t.sctpTask ++ [NwGnbSctp.SEND_MESSAGE amf.ctxId ue.uplinkStream buffer])
      ∧ (¬ (∃ ue amf buffer, findUeContext 3 t = some ue
            ∧ findAmfContext ue.associatedAmfId t = some amf
            ∧ env.checkConstraints (handleXnHandover.insertIes env t.config ue) = true
            ∧ env.encode (handleXnHandover.insertIes env t.config ue) = some buffer) →
          (handleXnHandover env nodeListener t).1.sctpTask = t.sctpTask)
      ∧ (∀ ue, findUeContext 3 t = some ue →
          env.checkConstraints (handleXnHandover.insertIes env t.config ue) = false →
          (handleXnHandover env nodeListener t).1.sctpTask = t.sctpTask) := by
  have hue : findUeContext 3 (t.logLine LogLevel.debug "handle Xn handover ueId: %d" [3] none)
      = findUeContext 3 t := rfl
  have hamf : ∀ id, findAmfContext id
      (t.logLine LogLevel.debug "handle Xn handover ueId: %d" [3] none)
      = findAmfContext id t := fun _ => rfl
  have hcfg : (t.logLine LogLevel.debug "handle Xn handover ueId: %d" [3] none).config
      = t.config := rfl
  have key : ∀ ue amf buffer, findUeContext 3 t = some ue →
      findAmfContext ue.associatedAmfId t = some amf →
      env.checkConstraints (handleXnHandover.insertIes env t.config ue) = true →
      env.encode (handleXnHandover.insertIes env t.config ue) = some buffer →
      (handleXnHandover env nodeListener t).1.sctpTask
        = t.sctpTask ++ [NwGnbSctp.SEND_MESSAGE amf.ctxId ue.uplinkStream buffer] := by
    intro ue amf buffer h1 h2 h3 h4
    unfold handleXnHandover
    simp only [hue, hamf, hcfg, h1, h2, h3, h4, Bool.not_true, Bool.false_eq_true, if_false]
    split_ifs <;> rfl
  have none_sent : ¬ (∃ ue amf buffer, findUeContext 3 t = some ue
        ∧ findAmfContext ue.associatedAmfId t = some amf
        ∧ env.checkConstraints (handleXnHandover.insertIes env t.config ue) = true
        ∧ env.encode (handleXnHandover.insertIes env t.config ue) = some buffer) →
      (handleXnHandover env nodeListener t).1.sctpTask = t.sctpTask := by
    intro hn
    unfold handleXnHandover
    simp only [hue, hamf, hcfg]
    cases h1 : findUeContext 3 t with
    | none => rfl
    | some ue =>
      simp only []
      cases h2 : findAmfContext ue.associatedAmfId t with
      | none => rfl
      | some amf =>
        simp only []
        cases h3 : env.checkConstraints (handleXnHandover.insertIes env t.config ue) with
        | false => rfl
        | true =>
          simp only [Bool.not_true, Bool.false_eq_true, if_false]
          cases h4 : env.encode (handleXnHandover.insertIes env t.config ue) with
          | none => rfl
          | some buffer => exact absurd ⟨ue, amf, buffer, h1, h2, h3, h4⟩ hn
  refine ⟨key, none_sent, fun ue h1 h3 => none_sent ?_⟩
  rintro ⟨ue1, _, _, g1, _, g3, _⟩
  rw [h1] at g1
  simp only [Option.some.injEq] at g1
  subst g1
  rw [h3] at g3
  cases g3

theorem handleXnHandover_sends_witness :
    findUeContext 3 sampleNgapUe = some ⟨3, 10, 3, 1, 4, 4⟩
      ∧ findAmfContext 1 sampleNgapUe = some (sampleAmf 1)
      ∧ (handleXnHandover sampleAsn true sampleNgapUe).1.sctpTask
        = sampleNgapUe.sctpTask ++ [NwGnbSctp.SEND_MESSAGE 1 4 [0, 3]] :=
  ⟨by decide, by decide,
    (handleXnHandover_sends sampleAsn true sampleNgapUe).1 ⟨3, 10, 3, 1, 4, 4⟩ (sampleAmf 1)
      [0, 3] (by decide) (by decide) rfl rfl⟩

end nr.gnb

namespace nr.gnb

/-! ## Paging and NAS transport through RRC -/

/-- What `handlePaging` sends: one PCCH paging message with one record, whose
identity is the two octets packed from the two reads, then the 5G-TMSI octets. -/
theorem handlePaging_record (tmsi : ASN_NGAP_FiveG_S_TMSI) (r : GnbRrcTask) :
    (handlePaging tmsi r).rrcSent = r.rrcSent ++ [(none, RrcPdu.paging
      [⟨appendOctet2 []
          (Ranged16 [(10, GetBitStringInt 10 tmsi.aMFSetID),
            (6, GetBitStringInt 10 tmsi.aMFPointer)]) ++ tmsi.fiveG_TMSI⟩])] := rfl

/-- A ten-bit read of a six-bit bit string yields sixteen times its value. -/
theorem GetBitStringInt_ten_of_six (b0 b1 b2 b3 b4 b5 : Bool) :
    GetBitStringInt 10 ⟨[b0, b1, b2, b3, b4, b5]⟩
      = 16 * GetBitStringInt 6 ⟨[b0, b1, b2, b3, b4, b5]⟩ := by
  cases b0 <;> cases b1 <;> cases b2 <;> cases b3 <;> cases b4 <;> cases b5 <;> rfl

/-- C17 (evaluation at the failing input): for AMF Set ID 1, AMF Pointer 1 and
5G-TMSI octets 1 2 3 4, `handlePaging` sends one paging message with one record,
but its identity starts with the octets of 80 = 1*64 + 16, not of 65 = 1*64 + 1:
the six-bit pointer is read with a ten-bit read. -/
theorem handlePaging_pointer_read_as_ten_bits :
    GetBitStringInt 10 (mkTmsi 1 1 [1, 2, 3, 4]).aMFSetID = 1
      ∧ GetBitStringInt 6 (mkTmsi 1 1 [1, 2, 3, 4]).aMFPointer = 1
      ∧ GetBitStringInt 10 (mkTmsi 1 1 [1, 2, 3, 4]).aMFPointer = 16
      ∧ (handlePaging (mkTmsi 1 1 [1, 2, 3, 4]) sampleRrc).rrcSent
        = [(none, RrcPdu.paging [⟨[0, 80, 1, 2, 3, 4]⟩])]
      ∧ appendOctet2 [] (1 * 64 + 1) ++ [1, 2, 3, 4] = [0, 65, 1, 2, 3, 4] := by
  decide

/-- C18: an ulInformationTransfer carrying the NAS message `n` from UE `u` makes
`receiveUplinkInformationTransfer` push exactly one UPLINK_NAS_DELIVERY with that
UE id and those octets to NGAP; `handleDownlinkNasDelivery(u, n)` sends UE `u`
exactly one dlInformationTransfer whose NAS message is `n`; so the octets pushed
up, handed back down, arrive as they were. -/
theorem nas_crosses_rrc_unchanged (u : Int) (n : List Nat) (r r2 : GnbRrcTask) :
    receiveUplinkInformationTransfer u
        ⟨ASN_RRC_ULInformationTransfer_criticalExtensions.ulInformationTransfer (some n)⟩ r
      = some { r with ngapTask := r.ngapTask ++ [NmGnbRrcToNgap.UPLINK_NAS_DELIVERY u n] }
    ∧ (handleDownlinkNasDelivery u n r2).rrcSent
      = r2.rrcSent ++ [(some u, RrcPdu.dlInformationTransfer n)]
    ∧ (handleDownlinkNasDelivery u n r2).ngapTask = r2.ngapTask
    ∧ ∀ r1 pushed ueId pdu,
        receiveUplinkInformationTransfer u
          ⟨ASN_RRC_ULInformationTransfer_criticalExtensions.ulInformationTransfer (some n)⟩ r
          = some r1 →
        r1.ngapTask = r.ngapTask ++ pushed →
        NmGnbRrcToNgap.UPLINK_NAS_DELIVERY ueId pdu ∈ pushed →
        (handleDownlinkNasDelivery ueId pdu r2).rrcSent
          = r2.rrcSent ++ [(some u, RrcPdu.dlInformationTransfer n)] := by
  refine ⟨rfl, rfl, rfl, ?_⟩
  intro r1 pushed ueId pdu h1 h2 h3
  have hr1 : r1 = { r with ngapTask := r.ngapTask ++ [NmGnbRrcToNgap.UPLINK_NAS_DELIVERY u n] } := by
    have : receiveUplinkInformationTransfer u
        ⟨ASN_RRC_ULInformationTransfer_criticalExtensions.ulInformationTransfer (some n)⟩ r
        = some { r with ngapTask := r.ngapTask ++ [NmGnbRrcToNgap.UPLINK_NAS_DELIVERY u n] } := rfl
    rw [this] at h1
    exact (Option.some.inj h1).symm
  subst hr1
  have hp : pushed = [NmGnbRrcToNgap.UPLINK_NAS_DELIVERY u n] :=
    (List.append_cancel_left h2).symm
  subst hp
  simp only [List.mem_singleton, NmGnbRrcToNgap.UPLINK_NAS_DELIVERY.injEq] at h3
  obtain ⟨rfl, rfl⟩ := h3
  rfl

end nr.gnb

namespace nr.gnb

theorem nas_crosses_rrc_unchanged_witness :
    receiveUplinkInformationTransfer 2
        ⟨ASN_RRC_ULInformationTransfer_criticalExtensions.ulInformationTransfer
          (some [126, 0, 65])⟩ sampleRrc
      = some { sampleRrc with
          ngapTask := sampleRrc.ngapTask ++ [NmGnbRrcToNgap.UPLINK_NAS_DELIVERY 2 [126, 0, 65]] }
    ∧ (handleDownlinkNasDelivery 2 [126, 0, 65] sampleRrc).rrcSent
      = sampleRrc.rrcSent ++ [(some 2, RrcPdu.dlInformationTransfer [126, 0, 65])] :=
  ⟨(nas_crosses_rrc_unchanged 2 [126, 0, 65] sampleRrc sampleRrc).1,
    (nas_crosses_rrc_unchanged 2 [126, 0, 65] sampleRrc sampleRrc).2.1⟩

end nr.gnb

namespace nr.gnb

/-! ## The response to a pausing timeout -/

theorem cliResponses_of_isPolling (l : List CmdEvent) (hl : ∀ e ∈ l, e.isPolling = true) :
    cliResponses l = [] := by
  induction l with
  | nil => rfl
  | cons e rest ih =>
    have he := hl e (List.mem_cons_self _ _)
    have hr := ih fun x hx => hl x (List.mem_cons_of_mem _ hx)
    cases e <;> first | (simpa [cliResponses] using hr) | cases he

/-- C21: when the clock reaches the pause deadline (the start time plus 3000 ms)
and no poll made before it saw all five worker tasks confirmed, `handleCmd`
returns, and every returning run pushes exactly one response to the CLI callback
task: an error, addressed to the requester, and no result. Its text is the
literal of `cmd_handler.cpp:90`, which contains "due to pausing timeout" but
not "unable to process command due to pausing timeout": the literal reads
"unable process command". -/
theorem handleCmd_timeout_error_text (clock : Nat → Nat) (confirmed : Nat → Worker → Bool)
    (msg : NwGnbCliCommand) (h : GnbCmdHandler) (n : Nat)
    (hstop : pauseDeadline clock ≤ toU64 (clock n))
    (hno : ∀ i, (∀ j, j ≤ i → toU64 (clock j) < pauseDeadline clock) →
      ¬ ∀ w, confirmed i w = true) :
    (∃ h1, handleCmd clock confirmed (n + 1) msg h = some h1)
      ∧ (∀ fuel h1, handleCmd clock confirmed fuel msg h = some h1 →
          cliResponses h1.trace
            = cliResponses h.trace ++ [⟨msg.address, CliOutput.text pausingTimeoutText, true⟩])
      ∧ "due to pausing timeout".toList <:+: pausingTimeoutText.toList
      ∧ ¬ ("unable to process command due to pausing timeout".toList
            <:+: pausingTimeoutText.toList) := by
  refine ⟨?_, ?_, by decide, by decide⟩
  · have hstop1 : toU64 (toU64 (clock 0) + 3000) ≤ toU64 (clock (0 + n)) := by
      rw [Nat.zero_add]; exact hstop
    have hsome := pollLoop_returns clock confirmed (toU64 (toU64 (clock 0) + 3000)) n 0
      (pauseTasks h) (Or.inl hstop1)
    obtain ⟨r, hr⟩ := Option.isSome_iff_exists.1 hsome
    exact ⟨_, by unfold handleCmd; simp only [PAUSE_CONFIRM_TIMEOUT]; rw [hr]; rfl⟩
  · intro fuel h1 hret
    obtain ⟨polls, outcome, htrace, hpolls, hout⟩ :=
      handleCmd_trace clock confirmed fuel msg h h1 hret
    rcases hout with ⟨hto, _⟩ | ⟨_, j, hg, hc, _⟩
    · subst hto
      rw [htrace]
      simp only [cliResponses_append, cliResponses_of_isPolling polls hpolls]
      rfl
    · exact absurd hc (hno j hg)

theorem handleCmd_timeout_error_text_witness :
    pauseDeadline sampleClock ≤ toU64 (sampleClock 300)
      ∧ (∃ h1, handleCmd sampleClock (fun _ w => decide (w ≠ Worker.SCTP)) (300 + 1)
          sampleUeCount sampleHandler = some h1)
      ∧ ¬ ("unable to process command due to pausing timeout".toList
            <:+: pausingTimeoutText.toList) :=
  ⟨by decide,
    (handleCmd_timeout_error_text sampleClock (fun _ w => decide (w ≠ Worker.SCTP))
      sampleUeCount sampleHandler 300 (by decide)
      (fun _ _ hall => by simpa using hall Worker.SCTP)).1,
    (handleCmd_timeout_error_text sampleClock (fun _ w => decide (w ≠ Worker.SCTP))
      sampleUeCount sampleHandler 300 (by decide)
      (fun _ _ hall => by simpa using hall Worker.SCTP)).2.2.2⟩

end nr.gnb

namespace nr.gnb

/-! ## Overload stop -/

/-- After `receiveOverloadStart` for a known AMF the stored status is OVERLOADED. -/
theorem receiveOverloadStart_status (amfId : Int) (msg : ASN_OverloadStart) (t : NgapTask)
    (amf : NgapAmfContext) (hfind : findAmfContext amfId t = some amf) :
    (findAmfContext amfId (receiveOverloadStart amfId msg t)).map
        (fun a => a.overloadInfo.status) = some EOverloadStatus.OVERLOADED := by
  have hfind1 : findAmfContext amfId
      (t.logLine LogLevel.debug "AMF overload start received" [] none) = some amf := hfind
  unfold receiveOverloadStart
  simp only [hfind1]
  rcases hresp : msg.overloadResponse with _ | (action | _) <;>
    rcases hperc : msg.trafficLoadReductionIndication with _ | perc
  all_goals first
    | (cases action <;>
        simp only [findAmfContext_updateAmf, findAmfContext_logLine, hfind1, Option.map_some'])
    | simp only [findAmfContext_updateAmf, findAmfContext_logLine, hfind1, Option.map_some']

/-- The whole effect of `receiveOverloadStop`: one debug line. -/
theorem receiveOverloadStop_effect (amfId : Int) (msg : ASN_OverloadStop) (t : NgapTask) :
    receiveOverloadStop amfId msg t
      = { t with log := t.log ++ [⟨LogLevel.debug, "AMF overload stop received", [], none⟩] } :=
  rfl

/-- C22: for a known AMF, after `receiveOverloadStart` followed by
`receiveOverloadStop` for the same AMF the stored overload status is still
OVERLOADED: `receiveOverloadStop` writes one debug line and leaves the AMF table
exactly as `receiveOverloadStart` left it. -/
theorem receiveOverloadStop_keeps_overloaded (amfId : Int) (start : ASN_OverloadStart)
    (stop : ASN_OverloadStop) (t : NgapTask) (amf : NgapAmfContext)
    (hfind : findAmfContext amfId t = some amf) :
    (∃ amf1, findAmfContext amfId
          (receiveOverloadStop amfId stop (receiveOverloadStart amfId start t)) = some amf1
        ∧ amf1.overloadInfo.status = EOverloadStatus.OVERLOADED)
      ∧ (receiveOverloadStop amfId stop (receiveOverloadStart amfId start t)).m_amfCtx
          = (receiveOverloadStart amfId start t).m_amfCtx := by
  refine ⟨?_, rfl⟩
  have hs := receiveOverloadStart_status amfId start t amf hfind
  have hstop : findAmfContext amfId
      (receiveOverloadStop amfId stop (receiveOverloadStart amfId start t))
        = findAmfContext amfId (receiveOverloadStart amfId start t) := rfl
  rw [hstop]
  rcases hf : findAmfContext amfId (receiveOverloadStart amfId start t) with _ | amf1
  · rw [hf] at hs; cases hs
  · rw [hf] at hs
    exact ⟨amf1, rfl, by simpa using hs⟩

theorem receiveOverloadStop_keeps_overloaded_witness :
    findAmfContext 1 (sampleNgap [1]) = some (sampleAmf 1)
      ∧ ∃ amf1, findAmfContext 1
          (receiveOverloadStop 1 ⟨0⟩ (receiveOverloadStart 1
            ⟨some (ASN_OverloadResponse.overloadAction
              ASN_OverloadAction.reject_rrc_cr_signalling), some 50, none⟩ (sampleNgap [1])))
            = some amf1
        ∧ amf1.overloadInfo.status = EOverloadStatus.OVERLOADED :=
  ⟨by decide,
    (receiveOverloadStop_keeps_overloaded 1
      ⟨some (ASN_OverloadResponse.overloadAction
        ASN_OverloadAction.reject_rrc_cr_signalling), some 50, none⟩ ⟨0⟩ (sampleNgap [1])
      (sampleAmf 1) (by decide)).1⟩

end nr.gnb

namespace nr.ue

/-! ## Listener notifications of the MM switch -/

/-- The notifications of `switchMmState`, for every state: with a listener
installed, the call labelled `MM` is handed the old and new sub-state and the
call labelled `MM_SUB` the old and new primary state; without one, nothing. -/
theorem switchMmState_listenerEvents (state : EMmState) (subState : EMmSubState) (s : NasMm) :
    (switchMmState state subState s).listenerEvents
      = s.listenerEvents ++
        (if s.nodeListener then
          [⟨StateType.MM, StateLabel.mmSub s.m_mmSubState, StateLabel.mmSub subState⟩,
           ⟨StateType.MM_SUB, StateLabel.mm s.m_mmState, StateLabel.mm state⟩]
        else []) := by
  unfold switchMmState onSwitchMmState triggerMmCycle logLine
  cases hl : s.nodeListener <;> (simp only []; repeat' split) <;> simp_all

/-- C23 (evaluation at the failing input): with a node listener installed, the
switch from DEREGISTERED/DEREGISTERED_NORMAL_SERVICE to
REGISTERED/REGISTERED_NORMAL_SERVICE emits two events whose labels are swapped:
the event of type `MM` carries the two sub-states and the event of type `MM_SUB`
the two primary states, so neither label matches its payload. -/
theorem switchMmState_listener_labels_swapped :
    (switchMmState EMmState.MM_REGISTERED EMmSubState.MM_REGISTERED_NORMAL_SERVICE
        sampleListenedMm).listenerEvents
      = [⟨StateType.MM, StateLabel.mmSub EMmSubState.MM_DEREGISTERED_NORMAL_SERVICE,
            StateLabel.mmSub EMmSubState.MM_REGISTERED_NORMAL_SERVICE⟩,
          ⟨StateType.MM_SUB, StateLabel.mm EMmState.MM_DEREGISTERED,
            StateLabel.mm EMmState.MM_REGISTERED⟩]
    ∧ (switchMmState EMmState.MM_REGISTERED EMmSubState.MM_REGISTERED_NORMAL_SERVICE
        sampleListenedMm).listenerEvents.map SwitchEvent.labelMatchesPayload
      = [false, false]
    ∧ (switchRmState ERmState.RM_REGISTERED sampleListenedMm).listenerEvents.map
        SwitchEvent.labelMatchesPayload = [true] := by
  decide

end nr.ue

namespace nr.gnb

/-! ## Association setup -/

/-- A write through `findAmfContext c` that keeps the part `g` of a context keeps
that part of what `findAmfContext amfId` finds, for every `amfId`. -/
theorem find?_updateAmfTable_keeps {γ : Type} (g : NgapAmfContext → γ)
    (f : NgapAmfContext → NgapAmfContext) (hf : ∀ a, g (f a) = g a) (c amfId : Int)
    (tbl : List (Int × NgapAmfContext)) :
    ((updateAmfTable c f tbl).find? fun e => e.1 = amfId).map (fun e => g e.2)
      = (tbl.find? fun e => e.1 = amfId).map fun e => g e.2 := by
  induction tbl with
  | nil => rfl
  | cons e rest ih =>
    obtain ⟨k, v⟩ := e
    unfold updateAmfTable
    dsimp only
    by_cases hc : k = c
    · rw [if_pos hc, List.find?_cons, List.find?_cons]
      by_cases ha : k = amfId
      · simp only [ha, decide_True, Option.map_some', hf]
      · simp only [ha, decide_False]
    · rw [if_neg hc, List.find?_cons, List.find?_cons]
      by_cases ha : k = amfId
      · simp only [ha, decide_True]
      · simp only [ha, decide_False]
        exact ih

/-- The NG Setup Request sent for context `c` leaves the association descriptor
of every AMF context as it was. -/
theorem sendNgSetupRequest_association (c amfId : Int) (t : NgapTask) :
    (findAmfContext amfId (sendNgSetupRequest c t)).map (fun a => a.association)
      = (findAmfContext amfId t).map fun a => a.association := by
  unfold sendNgSetupRequest
  simp only []
  split
  · rfl
  · have h := find?_updateAmfTable_keeps (fun a => a.association)
      (fun amf => { amf with state := EAmfState.WAITING_NG_SETUP }) (fun _ => rfl) c amfId
      t.m_amfCtx
    simpa [findAmfContext, sendNgapNonUe, updateAmf, NgapTask.logLine, Option.map_map,
      Function.comp_def] using h

/-- What association setup records, for every input: for a known AMF,
`handleAssociationSetup(amfId, ascId, inCount, outCount)` leaves the AMF
context with the in-stream and out-stream counts it was given and with the
association id set to `amfId`, whatever `ascId` is; for an unknown `amfId` the
task is unchanged, so nothing is sent. -/
theorem handleAssociationSetup_association (amfId ascId inCount outCount : Int) (t : NgapTask) :
    (∀ amf, findAmfContext amfId t = some amf →
        (findAmfContext amfId (handleAssociationSetup amfId ascId inCount outCount t)).map
          (fun a => a.association) = some ⟨amfId, inCount, outCount⟩)
      ∧ (findAmfContext amfId t = none →
        handleAssociationSetup amfId ascId inCount outCount t = t) := by
  constructor
  · intro amf hfind
    unfold handleAssociationSetup
    simp only [hfind]
    rw [sendNgSetupRequest_association, findAmfContext_updateAmf, hfind]
    rfl
  · intro hnone
    unfold handleAssociationSetup
    simp only [hnone]

/-- C24 (evaluation at the failing input): association setup for AMF 1 with
association id 42, 2 inbound and 3 outbound streams stores the stream counts but
records 1, the AMF id, as the association id; the NG Setup Request is sent. -/
theorem handleAssociationSetup_stores_amf_id :
    (findAmfContext 1 (handleAssociationSetup 1 42 2 3 (sampleNgap [1]))).map
        (fun a => a.association) = some ⟨1, 2, 3⟩
      ∧ (handleAssociationSetup 1 42 2 3 (sampleNgap [1])).nonUeSent.map Prod.fst = [1]
      ∧ handleAssociationSetup 5 42 2 3 (sampleNgap [1]) = sampleNgap [1] := by
  decide

end nr.gnb

namespace nr.gnb

/-! ## What the sampling commands write -/

theorem mapIndex_of_known {β : Type} (dflt : β) (key : Int) (m : List (Int × β))
    (h : mapCount key m = 1) : (mapIndex dflt key m).2 = m := by
  unfold mapCount at h
  unfold mapIndex
  cases hf : m.find? fun e => e.1 = key
  · rw [hf] at h; simp at h
  · rfl

/-- The UE_LIST loop leaves the MR task's map as it was when the map has an
entry for every UE id of the NGAP UE context table. -/
theorem ueListLoop_of_known (ueCtx : List (Int × NgapUeContext))
    (ueMap : List (Int × MrUeContext)) (hall : ∀ ue ∈ ueCtx, mapCount ue.1 ueMap = 1) :
    (ueListLoop ueCtx ueMap).2 = ueMap := by
  induction ueCtx with
  | nil => rfl
  | cons ue rest ih =>
    unfold ueListLoop
    dsimp only
    rw [mapIndex_of_known _ _ _ (hall ue (List.mem_cons_self _ _))]
    exact ih fun x hx => hall x (List.mem_cons_of_mem _ hx)

/-- The tables after `handleCmdImpl`, for every command and state: the NGAP AMF
and UE context tables are never written; the MR task's map is written by UE_LIST
only, where it becomes what the loop's `m_ueMap[ue.first]` lookups leave. -/
theorem handleCmdImpl_tables (msg : NwGnbCliCommand) (x : GnbCmdHandler) :
    (handleCmdImpl msg x).m_amfCtx = x.m_amfCtx
      ∧ (handleCmdImpl msg x).m_ueCtx = x.m_ueCtx
      ∧ (handleCmdImpl msg x).m_ueMap
          = if msg.cmd.present = GnbCliCommandPR.UE_LIST
              then (ueListLoop x.m_ueCtx x.m_ueMap).2 else x.m_ueMap := by
  unfold handleCmdImpl
  cases hp : msg.cmd.present
  case AMF_INFO =>
    simp only []
    split
    · exact ⟨rfl, rfl, rfl⟩
    · split <;> exact ⟨rfl, rfl, rfl⟩
  all_goals exact ⟨rfl, rfl, rfl⟩

/-- C25 (evaluation at the failing input): with all five tasks confirming pause
at the first poll, UE_LIST on a state where the NGAP task holds a context for
UE 4 and the MR task's map has no entry for it answers with an empty name for
that UE and returns with the entry `(4, MrUeContext())` added to the MR task's
map; AMF_INFO for the unknown AMF id 9 leaves all three tables as they were. -/
theorem handleCmd_ue_list_adds_map_entry :
    mapCount 4 sampleStaleHandler.m_ueMap = 0
      ∧ (handleCmd sampleClock (fun _ _ => true) 1 sampleUeList sampleStaleHandler).map
          GnbCmdHandler.tables
        = some (sampleStaleHandler.m_amfCtx, sampleStaleHandler.m_ueCtx,
            sampleStaleHandler.m_ueMap ++ [(4, ⟨""⟩)])
      ∧ (handleCmd sampleClock (fun _ _ => true) 1 sampleUeList sampleStaleHandler).map
          (fun h => cliResponses h.trace)
        = some [⟨7, CliOutput.ueListYaml
            [⟨"ue1", 1, 10⟩, ⟨"ue2", 2, 11⟩, ⟨"ue3", 3, 12⟩, ⟨"", 4, 13⟩], false⟩]
      ∧ (handleCmd sampleClock (fun _ _ => true) 1 sampleAmfInfo sampleStaleHandler).map
          GnbCmdHandler.tables
        = some sampleStaleHandler.tables := by
  refine ⟨by decide, ?_, by decide, ?_⟩
  · decide
  · decide

end nr.gnb

namespace nr.ue

/-! ## The CM switch without a cached de-registration request -/

/-- In DEREGISTERED_INITIATED and CM_CONNECTED, `switchCmState(CM_IDLE)` completes
exactly when the de-registration was due to disabling 5GS or a request is
cached; otherwise it reads through the null `m_lastDeregistrationRequest`. -/
theorem switchCmState_idle_completes_iff (s : NasMm)
    (hmm : s.m_mmState = EMmState.MM_DEREGISTERED_INITIATED)
    (hcm : s.m_cmState = ECmState.CM_CONNECTED) :
    (switchCmState ECmState.CM_IDLE s).isSome = true
      ↔ (s.m_lastDeregDueToDisable5g = true ∨ s.m_lastDeregistrationRequest.isSome = true) := by
  unfold switchCmState onSwitchCmState
  cases hflag : s.m_lastDeregDueToDisable5g <;>
    rcases hreq : s.m_lastDeregistrationRequest with _ | req <;>
    simp [hmm, hcm, hflag, hreq]
  split <;> rfl

/-- C26 (evaluation at the failing input): in DEREGISTERED_INITIATED and
CM_CONNECTED with no cached request and the disable-5GS flag false,
`switchCmState(CM_IDLE)` reads `m_lastDeregistrationRequest->deRegistrationType`
through the null pointer and does not complete. The code reaches such a state by
itself: with a cached switch-off request the first CM_CONNECTED to CM_IDLE switch
clears the request and stays in DEREGISTERED_INITIATED, and after a return to
CM_CONNECTED the next switch to CM_IDLE fails. The fifth T3521 expiry in the same
state returns, behind its null check, with the MM state unchanged. -/
theorem switchCmState_idle_dereferences_null_request :
    switchCmState ECmState.CM_IDLE sampleNoRequestMm = none
      ∧ ((switchCmState ECmState.CM_IDLE sampleSwitchOffMm).bind
            (switchCmState ECmState.CM_CONNECTED)).map abortOutcome
          = some (EMmState.MM_DEREGISTERED_INITIATED, EMmSubState.MM_DEREGISTERED_INITIATED_NA,
              none, false)
      ∧ (((switchCmState ECmState.CM_IDLE sampleSwitchOffMm).bind
            (switchCmState ECmState.CM_CONNECTED)).bind
              (switchCmState ECmState.CM_IDLE)) = none
      ∧ abortOutcome (onTimerExpire sendRegistrationSpec 3521
            { sampleNoRequestMm with
              m_timers := { sampleNoRequestMm.m_timers with t3521 := ⟨3521, false, 5⟩ } })
          = (EMmState.MM_DEREGISTERED_INITIATED, EMmSubState.MM_DEREGISTERED_INITIATED_NA,
              none, false) := by
  decide

end nr.ue
